import Mathlib

/-!
# LiquidCrystal_I2C: HD44780 character LCD behind a PCF8574 I/O expander

A shallow embedding of `src/LiquidCrystal_I2C.c`.

* `uint8_t` values are natural numbers; every narrowing the C code performs is
  written out with `u8`.
* The file-scope variables of the driver are the fields of `LCD`.
* The I2C transport (`HAL_I2C_Master_Transmit`, `HAL_I2C_Master_Receive`) is an
  external collaborator: `I2CBus` gives the outcome of the k-th transmit and
  the k-th receive, and the driver state records every byte handed to it.
* `HAL_Delay` only waits; time is not modelled and the calls are dropped.
-/

namespace LiquidCrystal

/-! ## Machine arithmetic and the Arduino bit macros -/

/-- Narrowing conversion to `uint8_t`. -/
def u8 (x : Nat) : Nat := x % 256

/-- The C operator `~` on an operand promoted to a 32-bit integer, as a bit
pattern (only the low eight bits ever survive the narrowing that follows). -/
def bnot32 (x : Nat) : Nat := 0xFFFFFFFF ^^^ x

/-- Arduino `bitRead(value, bit)`, i.e. `((value) >> (bit)) & 0x01`. -/
def bitRead (value bit : Nat) : Nat := (value >>> bit) &&& 0x01

/-- Arduino `bitClear(value, bit)`, i.e. `(value) &= ~(1UL << (bit))`, on a
`uint8_t` variable. -/
def bitClear (value bit : Nat) : Nat := u8 (value &&& bnot32 (1 <<< bit))

/-- Arduino `bitSet(value, bit)`, i.e. `(value) |= (1UL << (bit))`, on a
`uint8_t` variable. -/
def bitSet (value bit : Nat) : Nat := u8 (value ||| (1 <<< bit))

/-- Arduino `bitWrite(value, bit, bitvalue)`, i.e.
`((bitvalue) ? bitSet(value, bit) : bitClear(value, bit))`. -/
def bitWrite (value bit bitvalue : Nat) : Nat :=
  if bitvalue ≠ 0 then bitSet value bit else bitClear value bit

/-! ## Constants of `LiquidCrystal_I2C.h` -/

/-- Modelled from the spec: the header `LiquidCrystal_I2C.h` is not part of the
sources. A mode byte is laid out `RS,RW,E=1,DB7,DB6,DB5,DB4,BCK_LED=0`
(comment of `send()`); an instruction write has RS=0, RW=0. -/
def LCD_INSTRUCTION_WRITE : Nat := 0x20

/-- Modelled from the spec: header constant, data write has RS=1, RW=0, E=1. -/
def LCD_DATA_WRITE : Nat := 0xA0

/-- Modelled from the spec: header constant, data read has RS=1, RW=1, E=1. -/
def LCD_DATA_READ : Nat := 0xE0

/-- Modelled from the spec: header constant, busy flag read has RS=0, RW=1
(comment of `readBusyFlag()`), E=1. -/
def LCD_BUSY_FLAG_READ : Nat := 0x60

/-- Modelled from the spec: header constant, HD44780 instruction "clear display". -/
def LCD_CLEAR_DISPLAY : Nat := 0x01

/-- Modelled from the spec: header constant, HD44780 instruction "return home". -/
def LCD_RETURN_HOME : Nat := 0x02

/-- Modelled from the spec: header constant, HD44780 instruction "entry mode set". -/
def LCD_ENTRY_MODE_SET : Nat := 0x04

/-- Modelled from the spec: header constant, HD44780 instruction "display control". -/
def LCD_DISPLAY_CONTROL : Nat := 0x08

/-- Modelled from the spec: header constant, HD44780 instruction "function set". -/
def LCD_FUNCTION_SET : Nat := 0x20

/-- Modelled from the spec: header constant, entry mode flag I/D (left to right). -/
def LCD_ENTRY_LEFT : Nat := 0x02

/-- Modelled from the spec: header constant, entry mode flag S set. -/
def LCD_ENTRY_SHIFT_ON : Nat := 0x01

/-- Modelled from the spec: header constant, entry mode flag S clear. -/
def LCD_ENTRY_SHIFT_OFF : Nat := 0x00

/-- Modelled from the spec: header constant, display control flag D. -/
def LCD_DISPLAY_ON : Nat := 0x04

/-- Modelled from the spec: header constant, display control flag C. -/
def LCD_UNDERLINE_CURSOR_ON : Nat := 0x02

/-- Modelled from the spec: header constant, display control flag C clear. -/
def LCD_UNDERLINE_CURSOR_OFF : Nat := 0x00

/-- Modelled from the spec: header constant, display control flag B. -/
def LCD_BLINK_CURSOR_ON : Nat := 0x01

/-- Modelled from the spec: header constant, display control flag B clear. -/
def LCD_BLINK_CURSOR_OFF : Nat := 0x00

/-- Modelled from the spec: header constant, function set flag DL (DB4). -/
def LCD_8BIT_MODE : Nat := 0x10

/-- Modelled from the spec: header constant, function set flag DL clear. -/
def LCD_4BIT_MODE : Nat := 0x00

/-- Modelled from the spec: header constant, function set flag N ("line bit
located at BD3"). -/
def LCD_2_LINE : Nat := 0x08

/-- Modelled from the spec: header constant, backlight on. -/
def LCD_BACKLIGHT_ON : Nat := 0x01

/-- Modelled from the spec: header constant, backlight off. -/
def LCD_BACKLIGHT_OFF : Nat := 0x00

/-- Modelled from the spec: header constant, length selector of a full byte. -/
def LCD_CMD_LENGTH_8BIT : Nat := 8

/-- Modelled from the spec: header constant, length selector of a single nibble. -/
def LCD_CMD_LENGTH_4BIT : Nat := 4

/-- Modelled from the spec: header constant, all expander pins low. -/
def PCF8574_ALL_LOW : Nat := 0x00

/-- Modelled from the spec: header constant, the value whose nibble drives all
four data lines high before a read ("all data-line bits set high"). -/
def PCF8574_DATA_HIGH : Nat := 0xFF

/-- Modelled from the spec: header constant, HD44780 instruction "cursor or
display shift". -/
def LCD_CURSOR_DISPLAY_SHIFT : Nat := 0x10

/-- Modelled from the spec: header constant, HD44780 instruction "set CGRAM
address". -/
def LCD_CGRAM_ADDR_SET : Nat := 0x40

/-- Modelled from the spec: header constant, HD44780 instruction "set DDRAM
address". -/
def LCD_DDRAM_ADDR_SET : Nat := 0x80

/-- Modelled from the spec: header constant, shift flag S/C (display shift). -/
def LCD_DISPLAY_SHIFT : Nat := 0x08

/-- Modelled from the spec: header constant, shift flag R/L set. -/
def LCD_SHIFT_RIGHT : Nat := 0x04

/-- Modelled from the spec: header constant, shift flag R/L clear. -/
def LCD_SHIFT_LEFT : Nat := 0x00

/-- Modelled from the spec: header enumeration `backlightPolarity`. -/
inductive backlightPolarity where
  | POSITIVE
  | NEGATIVE
  deriving DecidableEq, Repr

/-- Modelled from the spec: header enumeration `lcd_font_size`. -/
inductive lcd_font_size where
  | LCD_5x8DOTS
  | LCD_5x10DOTS
  deriving DecidableEq, Repr

open backlightPolarity lcd_font_size

/-- Modelled from the spec: numeric value of an `lcd_font_size` enumerator; the
5x10 enumerator is the function set flag F ("font bit located at BD2"). -/
def lcd_font_size.val : lcd_font_size → Nat
  | LCD_5x8DOTS => 0x00
  | LCD_5x10DOTS => 0x04

/-! ## State and transport -/

/-- The I2C collaborator: `transmitOk k` tells whether the k-th call of
`HAL_I2C_Master_Transmit` returns `HAL_OK`; `receive k` is the byte delivered
by the k-th call of `HAL_I2C_Master_Receive`, or `none` when it fails. -/
structure I2CBus where
  transmitOk : Nat → Bool
  receive : Nat → Option Nat

/-- The file-scope variables of the driver, followed by three history fields
that the C program does not have: `wire` lists the bytes handed to
`HAL_I2C_Master_Transmit` (oldest first), `received` counts the calls of
`HAL_I2C_Master_Receive`, `sendLog` lists the arguments of every `LCDsend`. -/
structure LCD where
  _PCF8574_address : Nat
  _PCF8574_initialisation : Bool
  _backlightPolarity : backlightPolarity
  _LCD_TO_PCF8574 : Nat → Nat
  _backlightValue : Nat
  _lcd_colums : Nat
  _lcd_rows : Nat
  _lcd_font_size : lcd_font_size
  _displayControl : Nat
  _displayMode : Nat
  wire : List Nat
  received : Nat
  sendLog : List (Nat × Nat × Nat)

/-- The variables before the constructor runs: objects of static storage
duration are zero-initialised. -/
def powerOn : LCD :=
  { _PCF8574_address := 0, _PCF8574_initialisation := false,
    _backlightPolarity := NEGATIVE, _LCD_TO_PCF8574 := fun _ => 0,
    _backlightValue := 0, _lcd_colums := 0, _lcd_rows := 0,
    _lcd_font_size := LCD_5x8DOTS, _displayControl := 0, _displayMode := 0,
    wire := [], received := 0, sendLog := [] }

/-- Assignment `_LCD_TO_PCF8574[k] = i`. -/
def setSlot (m : Nat → Nat) (k i : Nat) : Nat → Nat :=
  fun j => if j = k then i else m j

/-- The eight slots of the pin map, in order. -/
def LCD.ports (s : LCD) : List Nat := (List.range 8).map s._LCD_TO_PCF8574

/-! ## The constructor -/

/-- Body of the constructor loop: the `switch` on `PCF8574_TO_LCD[i]`. -/
def mapPin (s : LCD) (i pin : Nat) : LCD :=
  if pin = 4 then { s with _LCD_TO_PCF8574 := setSlot s._LCD_TO_PCF8574 7 i }
  else if pin = 5 then { s with _LCD_TO_PCF8574 := setSlot s._LCD_TO_PCF8574 6 i }
  else if pin = 6 then { s with _LCD_TO_PCF8574 := setSlot s._LCD_TO_PCF8574 5 i }
  else if pin = 14 then { s with _LCD_TO_PCF8574 := setSlot s._LCD_TO_PCF8574 4 i }
  else if pin = 13 then { s with _LCD_TO_PCF8574 := setSlot s._LCD_TO_PCF8574 3 i }
  else if pin = 12 then { s with _LCD_TO_PCF8574 := setSlot s._LCD_TO_PCF8574 2 i }
  else if pin = 11 then { s with _LCD_TO_PCF8574 := setSlot s._LCD_TO_PCF8574 1 i }
  else if pin = 16 then { s with _LCD_TO_PCF8574 := setSlot s._LCD_TO_PCF8574 0 i }
  else { s with _PCF8574_initialisation := false }

/-- The first `n` rounds of the constructor loop over `PCF8574_TO_LCD`. -/
def mapPins (PCF8574_TO_LCD : List Nat) (n : Nat) (s : LCD) : LCD :=
  (List.range n).foldl (fun st i => mapPin st i (PCF8574_TO_LCD.getD i 0)) s

/-- `LiquidCrystal_I2C(addr, P0, .., P7, polarity)`, run on the variables `g`. -/
def LiquidCrystal_I2C (g : LCD) (addr P0 P1 P2 P3 P4 P5 P6 P7 : Nat)
    (polarity : backlightPolarity) : LCD :=
  let PCF8574_TO_LCD := [P0, P1, P2, P3, P4, P5, P6, P7]
  let s := { g with _PCF8574_address := addr, _PCF8574_initialisation := true,
                    _backlightPolarity := polarity }
  let s := mapPins PCF8574_TO_LCD 8 s
  let s := match s._backlightPolarity with
    | POSITIVE => { s with _backlightValue := LCD_BACKLIGHT_ON }
    | NEGATIVE => { s with _backlightValue := u8 (bnot32 LCD_BACKLIGHT_ON) }
  { s with _backlightValue := u8 (s._backlightValue <<< s._LCD_TO_PCF8574 0) }

/-! ## Transport access and the transaction encoder -/

/-- `writePCF8574(value)`: ORs the backlight value in and transmits one byte. -/
def writePCF8574 (bus : I2CBus) (s : LCD) (value : Nat) : Bool × LCD :=
  let value := value ||| s._backlightValue
  let s1 := { s with wire := s.wire ++ [value] }
  if bus.transmitOk s.wire.length != true then (false, s1)
  else (true, s1)

/-- `LCDportMapping(value)`: moves bit `i` of `value` to port `_LCD_TO_PCF8574[i]`. -/
def LCDportMapping (s : LCD) (value : Nat) : Nat :=
  [7, 6, 5, 4, 3, 2, 1, 0].foldl
    (fun data i =>
      if bitRead value i = 1 then u8 (data ||| (0x01 <<< s._LCD_TO_PCF8574 i)) else data)
    0

/-- `LCDsend(mode, value, length)`; the results of `writePCF8574` are dropped,
as in the source. -/
def LCDsend (bus : I2CBus) (s : LCD) (mode value length : Nat) : LCD :=
  let s := { s with sendLog := s.sendLog ++ [(mode, value, length)] }
  let halfByte := value >>> 3
  let halfByte := halfByte &&& 0x1E
  let data := LCDportMapping s (mode ||| halfByte)
  let s := (writePCF8574 bus s data).2
  let data := bitClear data (s._LCD_TO_PCF8574 5)
  let s := (writePCF8574 bus s data).2
  if length = LCD_CMD_LENGTH_8BIT then
    let halfByte := u8 (value <<< 1)
    let halfByte := halfByte &&& 0x1E
    let data := LCDportMapping s (mode ||| halfByte)
    let s := (writePCF8574 bus s data).2
    let data := bitClear data (s._LCD_TO_PCF8574 5)
    (writePCF8574 bus s data).2
  else s

/-- `LCDwrite(value)`. -/
def LCDwrite (bus : I2CBus) (s : LCD) (value : Nat) : LCD :=
  LCDsend bus s LCD_DATA_WRITE value LCD_CMD_LENGTH_8BIT

/-- `LCDclear()`. -/
def LCDclear (bus : I2CBus) (s : LCD) : LCD :=
  LCDsend bus s LCD_INSTRUCTION_WRITE LCD_CLEAR_DISPLAY LCD_CMD_LENGTH_8BIT

/-- `LCDnoDisplay()`. -/
def LCDnoDisplay (bus : I2CBus) (s : LCD) : LCD :=
  let s := { s with _displayControl := u8 (s._displayControl &&& bnot32 LCD_DISPLAY_ON) }
  LCDsend bus s LCD_INSTRUCTION_WRITE (LCD_DISPLAY_CONTROL ||| s._displayControl)
    LCD_CMD_LENGTH_8BIT

/-- `LCDdisplay()`. -/
def LCDdisplay (bus : I2CBus) (s : LCD) : LCD :=
  let s := { s with _displayControl := s._displayControl ||| LCD_DISPLAY_ON }
  LCDsend bus s LCD_INSTRUCTION_WRITE (LCD_DISPLAY_CONTROL ||| s._displayControl)
    LCD_CMD_LENGTH_8BIT

/-! ## Backlight -/

/-- `LCDnoBacklight()`. -/
def LCDnoBacklight (bus : I2CBus) (s : LCD) : LCD :=
  let s := match s._backlightPolarity with
    | POSITIVE => { s with _backlightValue := LCD_BACKLIGHT_OFF }
    | NEGATIVE => { s with _backlightValue := u8 (bnot32 LCD_BACKLIGHT_OFF) }
  let s := { s with _backlightValue := u8 (s._backlightValue <<< s._LCD_TO_PCF8574 0) }
  (writePCF8574 bus s PCF8574_ALL_LOW).2

/-- `LCDbacklight()`. -/
def LCDbacklight (bus : I2CBus) (s : LCD) : LCD :=
  let s := match s._backlightPolarity with
    | POSITIVE => { s with _backlightValue := LCD_BACKLIGHT_ON }
    | NEGATIVE => { s with _backlightValue := u8 (bnot32 LCD_BACKLIGHT_ON) }
  let s := { s with _backlightValue := u8 (s._backlightValue <<< s._LCD_TO_PCF8574 0) }
  (writePCF8574 bus s PCF8574_ALL_LOW).2

/-! ## Initialisation -/

/-- The local variable `displayFunction` of `LCDinitialization()` when the
full function set byte is sent. -/
def displayFunction (s : LCD) : Nat :=
  let displayFunction := 0
  let displayFunction :=
    if s._lcd_rows > 1 then displayFunction ||| LCD_2_LINE else displayFunction
  if s._lcd_font_size = LCD_5x10DOTS then
    let displayFunction := displayFunction ||| LCD_5x10DOTS.val
    if s._lcd_rows ≠ 1 then u8 (displayFunction &&& bnot32 LCD_2_LINE) else displayFunction
  else displayFunction

/-- `LCDinitialization()`. -/
def LCDinitialization (bus : I2CBus) (s : LCD) : LCD :=
  let s := LCDsend bus s LCD_INSTRUCTION_WRITE (LCD_FUNCTION_SET ||| LCD_8BIT_MODE)
    LCD_CMD_LENGTH_4BIT
  let s := LCDsend bus s LCD_INSTRUCTION_WRITE (LCD_FUNCTION_SET ||| LCD_8BIT_MODE)
    LCD_CMD_LENGTH_4BIT
  let s := LCDsend bus s LCD_INSTRUCTION_WRITE (LCD_FUNCTION_SET ||| LCD_8BIT_MODE)
    LCD_CMD_LENGTH_4BIT
  let s := LCDsend bus s LCD_INSTRUCTION_WRITE (LCD_FUNCTION_SET ||| LCD_4BIT_MODE)
    LCD_CMD_LENGTH_4BIT
  let s := LCDsend bus s LCD_INSTRUCTION_WRITE
    (LCD_FUNCTION_SET ||| LCD_4BIT_MODE ||| displayFunction s) LCD_CMD_LENGTH_8BIT
  let s := { s with _displayControl := LCD_UNDERLINE_CURSOR_OFF ||| LCD_BLINK_CURSOR_OFF }
  let s := LCDnoDisplay bus s
  let s := LCDclear bus s
  let s := { s with _displayMode := LCD_ENTRY_LEFT ||| LCD_ENTRY_SHIFT_OFF }
  let s := LCDsend bus s LCD_INSTRUCTION_WRITE (LCD_ENTRY_MODE_SET ||| s._displayMode)
    LCD_CMD_LENGTH_8BIT
  LCDdisplay bus s

/-- `LCDbegin(lcd_colums, lcd_rows, f_size)`. -/
def LCDbegin (bus : I2CBus) (s : LCD) (lcd_colums lcd_rows : Nat)
    (f_size : lcd_font_size) : Bool × LCD :=
  if s._PCF8574_initialisation = false then (false, s)
  else
    let r := writePCF8574 bus s PCF8574_ALL_LOW
    if r.1 = false then (false, r.2)
    else
      let s := { r.2 with _lcd_colums := lcd_colums, _lcd_rows := lcd_rows,
                          _lcd_font_size := f_size }
      let s := LCDinitialization bus s
      (true, s)

/-! ## Cursor, display state and custom characters -/

/-- `LCDhome()`. -/
def LCDhome (bus : I2CBus) (s : LCD) : LCD :=
  LCDsend bus s LCD_INSTRUCTION_WRITE LCD_RETURN_HOME LCD_CMD_LENGTH_8BIT

/-- The row index `LCDsetCursor(colum, row)` uses for its table lookup, after
the safety check. `_lcd_rows - 1` is computed in `int` and narrowed to
`uint8_t`, so zero rows give 255. -/
def clampedRow (s : LCD) (row : Nat) : Nat :=
  if row ≥ s._lcd_rows then u8 (s._lcd_rows + 256 - 1) else row

/-- The column `LCDsetCursor(colum, row)` uses after the safety check. -/
def clampedColum (s : LCD) (colum : Nat) : Nat :=
  if colum ≥ s._lcd_colums then u8 (s._lcd_colums + 256 - 1) else colum

/-- The local table `row_address_offset` of `LCDsetCursor`. -/
def row_address_offset (s : LCD) : List Nat :=
  [0x00, 0x40, u8 (0x00 + s._lcd_colums), u8 (0x40 + s._lcd_colums)]

/-- `LCDsetCursor(colum, row)`. The result is `none` when the lookup
`row_address_offset[row]` is outside the four-entry table, which C leaves
undefined. The argument of `LCDsend` is narrowed to `uint8_t` at the call. -/
def LCDsetCursor (bus : I2CBus) (s : LCD) (colum row : Nat) : Option LCD :=
  let row := clampedRow s row
  let colum := clampedColum s colum
  match (row_address_offset s)[row]? with
  | none => none
  | some offset =>
    some (LCDsend bus s LCD_INSTRUCTION_WRITE (u8 (LCD_DDRAM_ADDR_SET ||| (offset + colum)))
      LCD_CMD_LENGTH_8BIT)

/-- `LCDnoCursor()`. -/
def LCDnoCursor (bus : I2CBus) (s : LCD) : LCD :=
  let s := { s with
    _displayControl := u8 (s._displayControl &&& bnot32 LCD_UNDERLINE_CURSOR_ON) }
  LCDsend bus s LCD_INSTRUCTION_WRITE (LCD_DISPLAY_CONTROL ||| s._displayControl)
    LCD_CMD_LENGTH_8BIT

/-- `LCDcursor()`. -/
def LCDcursor (bus : I2CBus) (s : LCD) : LCD :=
  let s := { s with _displayControl := s._displayControl ||| LCD_UNDERLINE_CURSOR_ON }
  LCDsend bus s LCD_INSTRUCTION_WRITE (LCD_DISPLAY_CONTROL ||| s._displayControl)
    LCD_CMD_LENGTH_8BIT

/-- `LCDnoBlink()`. -/
def LCDnoBlink (bus : I2CBus) (s : LCD) : LCD :=
  let s := { s with _displayControl := u8 (s._displayControl &&& bnot32 LCD_BLINK_CURSOR_ON) }
  LCDsend bus s LCD_INSTRUCTION_WRITE (LCD_DISPLAY_CONTROL ||| s._displayControl)
    LCD_CMD_LENGTH_8BIT

/-- `LCDblink()`. -/
def LCDblink (bus : I2CBus) (s : LCD) : LCD :=
  let s := { s with _displayControl := s._displayControl ||| LCD_BLINK_CURSOR_ON }
  LCDsend bus s LCD_INSTRUCTION_WRITE (LCD_DISPLAY_CONTROL ||| s._displayControl)
    LCD_CMD_LENGTH_8BIT

/-- `LCDscrollDisplayLeft()`. -/
def LCDscrollDisplayLeft (bus : I2CBus) (s : LCD) : LCD :=
  LCDsend bus s LCD_INSTRUCTION_WRITE
    (LCD_CURSOR_DISPLAY_SHIFT ||| LCD_DISPLAY_SHIFT ||| LCD_SHIFT_LEFT) LCD_CMD_LENGTH_8BIT

/-- `LCDscrollDisplayRight()`. -/
def LCDscrollDisplayRight (bus : I2CBus) (s : LCD) : LCD :=
  LCDsend bus s LCD_INSTRUCTION_WRITE
    (LCD_CURSOR_DISPLAY_SHIFT ||| LCD_DISPLAY_SHIFT ||| LCD_SHIFT_RIGHT) LCD_CMD_LENGTH_8BIT

/-- `LCDleftToRight()`. -/
def LCDleftToRight (bus : I2CBus) (s : LCD) : LCD :=
  let s := { s with _displayMode := s._displayMode ||| LCD_ENTRY_LEFT }
  LCDsend bus s LCD_INSTRUCTION_WRITE (LCD_ENTRY_MODE_SET ||| s._displayMode)
    LCD_CMD_LENGTH_8BIT

/-- `LCDrightToLeft()`. -/
def LCDrightToLeft (bus : I2CBus) (s : LCD) : LCD :=
  let s := { s with _displayMode := u8 (s._displayMode &&& bnot32 LCD_ENTRY_LEFT) }
  LCDsend bus s LCD_INSTRUCTION_WRITE (LCD_ENTRY_MODE_SET ||| s._displayMode)
    LCD_CMD_LENGTH_8BIT

/-- `LCDautoscroll()`. -/
def LCDautoscroll (bus : I2CBus) (s : LCD) : LCD :=
  let s := { s with _displayMode := s._displayMode ||| LCD_ENTRY_SHIFT_ON }
  LCDsend bus s LCD_INSTRUCTION_WRITE (LCD_ENTRY_MODE_SET ||| s._displayMode)
    LCD_CMD_LENGTH_8BIT

/-- `LCDnoAutoscroll()`. -/
def LCDnoAutoscroll (bus : I2CBus) (s : LCD) : LCD :=
  let s := { s with _displayMode := u8 (s._displayMode &&& bnot32 LCD_ENTRY_SHIFT_ON) }
  LCDsend bus s LCD_INSTRUCTION_WRITE (LCD_ENTRY_MODE_SET ||| s._displayMode)
    LCD_CMD_LENGTH_8BIT

/-- The locals `CGRAM_capacity` and `font_size` of `LCDcreateChar` after its
`switch` on the font size. -/
def cgramLimits (s : LCD) : Nat × Nat :=
  match s._lcd_font_size with
  | LCD_5x8DOTS => (7, 8)
  | LCD_5x10DOTS => (3, 10)

/-- `LCDcreateChar(CGRAM_address, char_pattern)`; `char_pattern i` is the byte
`char_pattern[i]` in the memory of the caller. -/
def LCDcreateChar (bus : I2CBus) (s : LCD) (CGRAM_address : Nat) (char_pattern : Nat → Nat) :
    LCD :=
  let CGRAM_capacity := (cgramLimits s).1
  let font_size := (cgramLimits s).2
  let CGRAM_address := if CGRAM_address > CGRAM_capacity then CGRAM_capacity else CGRAM_address
  let s := LCDsend bus s LCD_INSTRUCTION_WRITE (u8 (LCD_CGRAM_ADDR_SET ||| (CGRAM_address <<< 3)))
    LCD_CMD_LENGTH_8BIT
  (List.range font_size).foldl
    (fun st i => LCDsend bus st LCD_DATA_WRITE (char_pattern i) LCD_CMD_LENGTH_8BIT) s

/-! ## Reading back from the controller -/

/-- `readPCF8574()`: one byte from the expander, or `false`, that is 0, when
the receive fails. -/
def readPCF8574 (bus : I2CBus) (s : LCD) : Nat × LCD :=
  let s1 := { s with received := s.received + 1 }
  match bus.receive s.received with
  | none => (0, s1)
  | some l_Data => (u8 l_Data, s1)

/-- `LCDreadBusyFlag()`. -/
def LCDreadBusyFlag (bus : I2CBus) (s : LCD) : Bool × LCD :=
  let s := LCDsend bus s LCD_BUSY_FLAG_READ PCF8574_DATA_HIGH LCD_CMD_LENGTH_4BIT
  let r := readPCF8574 bus s
  (bitRead r.1 (s._LCD_TO_PCF8574 4) != 0, r.2)

/-- `LCDgetCursorPosition()`. -/
def LCDgetCursorPosition (bus : I2CBus) (s : LCD) : Nat × LCD :=
  let position := 0
  let s := LCDsend bus s LCD_BUSY_FLAG_READ PCF8574_DATA_HIGH LCD_CMD_LENGTH_4BIT
  let r := readPCF8574 bus s
  let data := r.1
  let s := r.2
  let position := [3, 2, 1].foldl
    (fun position i => bitWrite position (3 + i) (bitRead data (s._LCD_TO_PCF8574 i))) position
  let s := LCDsend bus s LCD_BUSY_FLAG_READ PCF8574_DATA_HIGH LCD_CMD_LENGTH_4BIT
  let r := readPCF8574 bus s
  let data := r.1
  let s := r.2
  let position := [4, 3, 2, 1].foldl
    (fun position i => bitWrite position (i - 1) (bitRead data (s._LCD_TO_PCF8574 i))) position
  (position, s)

/-- `LCDdisplayOff()`. -/
def LCDdisplayOff (bus : I2CBus) (s : LCD) : LCD :=
  LCDnoDisplay bus (LCDnoBacklight bus s)

/-- `LCDdisplayOn()`. -/
def LCDdisplayOn (bus : I2CBus) (s : LCD) : LCD :=
  LCDbacklight bus (LCDdisplay bus s)

/-- A bus on which every transfer succeeds and every read delivers `0xFF`. -/
def idealBus : I2CBus := { transmitOk := fun _ => true, receive := fun _ => some 0xFF }

/-- A bus on which every transfer fails. -/
def deadBus : I2CBus := { transmitOk := fun _ => false, receive := fun _ => none }

/-! ## Definitions used to state properties -/

/-- The fold of `LCDportMapping` over any list of bit indices. -/
def portFold (m : Nat → Nat) (value : Nat) (l : List Nat) (data : Nat) : Nat :=
  l.foldl (fun data i => if bitRead value i = 1 then u8 (data ||| (0x01 <<< m i)) else data) data

/-- The pin map is a permutation of the ports `0..7`. -/
def validMap (m : Nat → Nat) : Prop :=
  (∀ i, i < 8 → m i < 8) ∧ (∀ i, i < 8 → ∀ j, j < 8 → m i = m j → i = j)

instance (m : Nat → Nat) : Decidable (validMap m) := by
  unfold validMap; infer_instance

/-- Number of set bits of a byte. -/
def popCount (x : Nat) : Nat := (List.range 8).countP (fun i => x.testBit i)

/-- The pin code that the `switch` of the constructor files under slot `k` of the
pin map (`{BCK_LED,DB4,DB5,DB6,DB7,E,RW,RS}`). -/
def roleCode : Nat → Nat
  | 0 => 16
  | 1 => 11
  | 2 => 12
  | 3 => 13
  | 4 => 14
  | 5 => 6
  | 6 => 5
  | 7 => 4
  | _ => 0

/-- The pin codes with a `case` label in the constructor. -/
def roleCodes : List Nat := [4, 5, 6, 11, 12, 13, 14, 16]

/-- A valid wiring: every role code is given to exactly one of `P0..P7`. -/
def validDeclaration (decl : List Nat) : Prop := ∀ c ∈ roleCodes, decl.count c = 1

instance (decl : List Nat) : Decidable (validDeclaration decl) := by
  unfold validDeclaration; infer_instance

/-- The variables as the constructor has them when its loop starts. -/
def ctorEntry (g : LCD) (addr : Nat) (polarity : backlightPolarity) : LCD :=
  { g with _PCF8574_address := addr, _PCF8574_initialisation := true,
           _backlightPolarity := polarity }

/-- The words `LCDsend` hands to `writePCF8574`, before the backlight value is
ORed in: enable high then low for the upper nibble, and the same for the lower
nibble of a full byte. -/
def sendData (s : LCD) (mode value length : Nat) : List Nat :=
  let hi := LCDportMapping s (mode ||| ((value >>> 3) &&& 0x1E))
  let lo := LCDportMapping s (mode ||| (u8 (value <<< 1) &&& 0x1E))
  if length = LCD_CMD_LENGTH_8BIT then
    [hi, bitClear hi (s._LCD_TO_PCF8574 5), lo, bitClear lo (s._LCD_TO_PCF8574 5)]
  else [hi, bitClear hi (s._LCD_TO_PCF8574 5)]

/-- The byte that the constructor and the backlight operations shift to the
backlight port, by polarity and requested state. -/
def backlightByte (polarity : backlightPolarity) (lit : Bool) : Nat :=
  match polarity, lit with
  | POSITIVE, true => LCD_BACKLIGHT_ON
  | POSITIVE, false => LCD_BACKLIGHT_OFF
  | NEGATIVE, true => u8 (bnot32 LCD_BACKLIGHT_ON)
  | NEGATIVE, false => u8 (bnot32 LCD_BACKLIGHT_OFF)

/-- One backlight call: `LCDbacklight()` for `true`, `LCDnoBacklight()` for `false`. -/
def backlightCall (bus : I2CBus) (s : LCD) (lit : Bool) : LCD :=
  if lit then LCDbacklight bus s else LCDnoBacklight bus s

/-- The level of the backlight port that shows the state `lit` under a polarity:
active-high 1 when lit, active-low 0 when lit. -/
def physicalLevel (polarity : backlightPolarity) (lit : Bool) : Bool :=
  match polarity with
  | POSITIVE => lit
  | NEGATIVE => !lit

/-- The mode bytes of the four kinds of transaction. -/
def modes : List Nat :=
  [LCD_INSTRUCTION_WRITE, LCD_DATA_WRITE, LCD_BUSY_FLAG_READ, LCD_DATA_READ]

/-- The variables hold the pin map `m`, the polarity, and the backlight value
that the last backlight request `lit` has left. -/
def Wired (m : Nat → Nat) (polarity : backlightPolarity) (lit : Bool) (s : LCD) : Prop :=
  s._LCD_TO_PCF8574 = m ∧ s._backlightPolarity = polarity ∧
    s._backlightValue = u8 (backlightByte polarity lit <<< m 0)

/-- A bus on which only the very first transmit succeeds. -/
def firstOnlyBus : I2CBus := { transmitOk := fun k => decide (k = 0), receive := fun _ => none }

/-- Clamping as the specification words it: an index at or beyond `limit`
becomes `limit - 1`, an index in range is unchanged. -/
def clampTo (limit x : Nat) : Nat := if x ≥ limit then limit - 1 else x

/-- The address counter value that `LCDgetCursorPosition` assembles from the
two bytes `d1`, `d2` it has read: its two `bitWrite` loops. -/
def cursorBits (m : Nat → Nat) (d1 d2 : Nat) : Nat :=
  [4, 3, 2, 1].foldl (fun position i => bitWrite position (i - 1) (bitRead d2 (m i)))
    ([3, 2, 1].foldl (fun position i => bitWrite position (3 + i) (bitRead d1 (m i))) 0)

/-- A bus that treats a failed receive as the byte 0. -/
def zeroOnFailure (bus : I2CBus) : I2CBus :=
  { bus with receive := fun k => some ((bus.receive k).getD 0) }

/-- A bus whose first receive fails and whose later receives deliver `0xFF`. -/
def firstReadFailsBus : I2CBus :=
  { transmitOk := fun _ => true, receive := fun k => if k = 0 then none else some 0xFF }

/-- A bus that delivers `0x50` on the first receive and `0xA0` afterwards. -/
def twoReadsBus : I2CBus :=
  { transmitOk := fun _ => true, receive := fun k => if k = 0 then some 0x50 else some 0xA0 }

/-- The transactions of `LCDinitialization` in order, for the state in which
`LCDbegin` calls it. -/
def initTransactions (s : LCD) : List (Nat × Nat × Nat) :=
  [(LCD_INSTRUCTION_WRITE, LCD_FUNCTION_SET ||| LCD_8BIT_MODE, LCD_CMD_LENGTH_4BIT),
   (LCD_INSTRUCTION_WRITE, LCD_FUNCTION_SET ||| LCD_8BIT_MODE, LCD_CMD_LENGTH_4BIT),
   (LCD_INSTRUCTION_WRITE, LCD_FUNCTION_SET ||| LCD_8BIT_MODE, LCD_CMD_LENGTH_4BIT),
   (LCD_INSTRUCTION_WRITE, LCD_FUNCTION_SET ||| LCD_4BIT_MODE, LCD_CMD_LENGTH_4BIT),
   (LCD_INSTRUCTION_WRITE, LCD_FUNCTION_SET ||| LCD_4BIT_MODE ||| displayFunction s,
     LCD_CMD_LENGTH_8BIT),
   (LCD_INSTRUCTION_WRITE, 0x08, LCD_CMD_LENGTH_8BIT),
   (LCD_INSTRUCTION_WRITE, 0x01, LCD_CMD_LENGTH_8BIT),
   (LCD_INSTRUCTION_WRITE, 0x06, LCD_CMD_LENGTH_8BIT),
   (LCD_INSTRUCTION_WRITE, 0x0C, LCD_CMD_LENGTH_8BIT)]

/-- The words that a list of transactions puts on the wire in state `s`. -/
def wireWords (s : LCD) (ts : List (Nat × Nat × Nat)) : List Nat :=
  ts.flatMap (fun t => (sendData s t.1 t.2.1 t.2.2).map (fun d => d ||| s._backlightValue))

/-- The C variables of `s` and `t` agree (the history fields may differ). -/
def sameVariables (s t : LCD) : Prop :=
  s._PCF8574_address = t._PCF8574_address ∧
  s._PCF8574_initialisation = t._PCF8574_initialisation ∧
  s._backlightPolarity = t._backlightPolarity ∧
  s._LCD_TO_PCF8574 = t._LCD_TO_PCF8574 ∧
  s._backlightValue = t._backlightValue ∧
  s._lcd_colums = t._lcd_colums ∧
  s._lcd_rows = t._lcd_rows ∧
  s._lcd_font_size = t._lcd_font_size ∧
  s._displayControl = t._displayControl ∧
  s._displayMode = t._displayMode

/-- From `s` to `t` only bit `k` of the display control flags was written, to
`b`; the entry mode flags, the backlight value and the geometry are unchanged,
and one full-byte display control instruction carrying the updated flags was
sent. -/
def ControlFlagSet (s t : LCD) (k : Nat) (b : Bool) : Prop :=
  t._displayControl.testBit k = b ∧
  (∀ j, j ≠ k → t._displayControl.testBit j = s._displayControl.testBit j) ∧
  t._displayMode = s._displayMode ∧
  t._backlightValue = s._backlightValue ∧
  t._lcd_colums = s._lcd_colums ∧ t._lcd_rows = s._lcd_rows ∧
  t._lcd_font_size = s._lcd_font_size ∧
  t.sendLog = s.sendLog ++
    [(LCD_INSTRUCTION_WRITE, LCD_DISPLAY_CONTROL ||| t._displayControl, LCD_CMD_LENGTH_8BIT)]

/-- From `s` to `t` only bit `k` of the entry mode flags was written, to `b`;
the display control flags, the backlight value and the geometry are unchanged,
and one full-byte entry mode set instruction carrying the updated flags was
sent. -/
def ModeFlagSet (s t : LCD) (k : Nat) (b : Bool) : Prop :=
  t._displayMode.testBit k = b ∧
  (∀ j, j ≠ k → t._displayMode.testBit j = s._displayMode.testBit j) ∧
  t._displayControl = s._displayControl ∧
  t._backlightValue = s._backlightValue ∧
  t._lcd_colums = s._lcd_colums ∧ t._lcd_rows = s._lcd_rows ∧
  t._lcd_font_size = s._lcd_font_size ∧
  t.sendLog = s.sendLog ++
    [(LCD_INSTRUCTION_WRITE, LCD_ENTRY_MODE_SET ||| t._displayMode, LCD_CMD_LENGTH_8BIT)]

/-- The CGRAM addresses that one run of `LCDcreateChar` fills: the address
field (low six bits) of its set CGRAM address instruction, then one
consecutive address for every data byte that follows. -/
def cgramFilled (bus : I2CBus) (s : LCD) (CGRAM_address : Nat) (char_pattern : Nat → Nat) :
    List Nat :=
  match (LCDcreateChar bus s CGRAM_address char_pattern).sendLog.drop s.sendLog.length with
  | [] => []
  | (_, v, _) :: rest => List.range' (v &&& 0x3F) rest.length

/-- The variables after power-on with the 5x10 font selected. -/
def tallFont : LCD := { powerOn with _lcd_rows := 1, _lcd_font_size := LCD_5x10DOTS }

/-- One call of a function of the driver with its arguments.
`LCDprintHorizontalGraph` is left out: it calls `setCursor`, `send` and `map`,
which the sources do not define; through the driver it can only run
`LCDsetCursor` and `LCDsend`, which are covered. -/
inductive Op where
  | begin (lcd_colums lcd_rows : Nat) (f_size : lcd_font_size)
  | initialization
  | clear
  | home
  | setCursor (colum row : Nat)
  | noDisplay
  | display
  | noCursor
  | cursor
  | noBlink
  | blink
  | scrollDisplayLeft
  | scrollDisplayRight
  | leftToRight
  | rightToLeft
  | autoscroll
  | noAutoscroll
  | createChar (CGRAM_address : Nat) (char_pattern : Nat → Nat)
  | noBacklight
  | backlight
  | write (value : Nat)
  | send (mode value length : Nat)
  | readBusyFlag
  | getCursorPosition
  | displayOff
  | displayOn

/-- The variables after one call, `none` when the call has no defined result. -/
def Op.step (bus : I2CBus) (s : LCD) : Op → Option LCD
  | Op.begin c r f => some (LCDbegin bus s c r f).2
  | Op.initialization => some (LCDinitialization bus s)
  | Op.clear => some (LCDclear bus s)
  | Op.home => some (LCDhome bus s)
  | Op.setCursor c r => LCDsetCursor bus s c r
  | Op.noDisplay => some (LCDnoDisplay bus s)
  | Op.display => some (LCDdisplay bus s)
  | Op.noCursor => some (LCDnoCursor bus s)
  | Op.cursor => some (LCDcursor bus s)
  | Op.noBlink => some (LCDnoBlink bus s)
  | Op.blink => some (LCDblink bus s)
  | Op.scrollDisplayLeft => some (LCDscrollDisplayLeft bus s)
  | Op.scrollDisplayRight => some (LCDscrollDisplayRight bus s)
  | Op.leftToRight => some (LCDleftToRight bus s)
  | Op.rightToLeft => some (LCDrightToLeft bus s)
  | Op.autoscroll => some (LCDautoscroll bus s)
  | Op.noAutoscroll => some (LCDnoAutoscroll bus s)
  | Op.createChar a p => some (LCDcreateChar bus s a p)
  | Op.noBacklight => some (LCDnoBacklight bus s)
  | Op.backlight => some (LCDbacklight bus s)
  | Op.write v => some (LCDwrite bus s v)
  | Op.send m v l => some (LCDsend bus s m v l)
  | Op.readBusyFlag => some (LCDreadBusyFlag bus s).2
  | Op.getCursorPosition => some (LCDgetCursorPosition bus s).2
  | Op.displayOff => some (LCDdisplayOff bus s)
  | Op.displayOn => some (LCDdisplayOn bus s)

/-- The variables after a sequence of calls, first call first. -/
def runOps (bus : I2CBus) : List Op → LCD → Option LCD
  | [], s => some s
  | op :: rest, s =>
    match op.step bus s with
    | none => none
    | some t => runOps bus rest t

/-- The stored flags fit their instruction: display control flags within the
mask `0x07`, entry mode flags within `0x03`. -/
def FlagsInMask (s : LCD) : Prop := s._displayControl ≤ 0x07 ∧ s._displayMode ≤ 0x03

/-! ## Bit-level lemmas -/

theorem bitRead_eq_one (v i : Nat) : bitRead v i = 1 ↔ v.testBit i = true := by
  unfold bitRead Nat.testBit
  rw [Nat.and_comm]
  simp only [Nat.one_and_eq_mod_two, bne_iff_ne, ne_eq]
  omega

theorem testBit_u8 (x j : Nat) : (u8 x).testBit j = (decide (j < 8) && x.testBit j) := by
  have : u8 x = x % 2 ^ 8 := rfl
  rw [this, Nat.testBit_mod_two_pow]

theorem testBit_of_lt_256 {x : Nat} (hx : x < 256) {j : Nat} (hj : 8 ≤ j) :
    x.testBit j = false := by
  apply Nat.testBit_lt_two_pow
  calc x < 2 ^ 8 := hx
    _ ≤ 2 ^ j := Nat.pow_le_pow_right (by norm_num) hj

theorem lt_256_of_testBit {x : Nat} (h : ∀ j, 8 ≤ j → x.testBit j = false) : x < 256 :=
  Nat.lt_pow_two_of_testBit x h

theorem testBit_bnot32 (x j : Nat) (hj : j < 32) :
    (bnot32 x).testBit j = !(x.testBit j) := by
  unfold bnot32
  have : (0xFFFFFFFF : Nat) = 2 ^ 32 - 1 := by norm_num
  rw [this, Nat.testBit_xor, Nat.testBit_two_pow_sub_one]
  simp [hj]

theorem testBit_bitClear (d n j : Nat) :
    (bitClear d n).testBit j = (decide (j < 8) && d.testBit j && !decide (n = j)) := by
  unfold bitClear
  rw [testBit_u8, Nat.testBit_and]
  by_cases hj : j < 8
  · rw [testBit_bnot32 _ _ (by omega), Nat.one_shiftLeft, Nat.testBit_two_pow]
    simp [hj]
  · simp [hj]

theorem testBit_portFold (m : Nat → Nat) (v : Nat) (l : List Nat) (data : Nat)
    (hd : data < 256) (j : Nat) :
    (portFold m v l data).testBit j =
      (data.testBit j || (decide (j < 8) && l.any (fun i => v.testBit i && decide (m i = j)))) := by
  induction l generalizing data with
  | nil => simp [portFold]
  | cons i l ih =>
    have hstep : portFold m v (i :: l) data =
        portFold m v l (if bitRead v i = 1 then u8 (data ||| (0x01 <<< m i)) else data) := rfl
    rw [hstep]
    by_cases hb : v.testBit i = true
    · have hb1 : bitRead v i = 1 := (bitRead_eq_one v i).2 hb
      rw [if_pos hb1, ih (u8 (data ||| (0x01 <<< m i))) (Nat.mod_lt _ (by norm_num)), testBit_u8, Nat.testBit_or,
        Nat.one_shiftLeft, Nat.testBit_two_pow]
      by_cases hj : j < 8
      · simp [hj, hb, Bool.or_assoc]
      · simp [hj, testBit_of_lt_256 hd (Nat.le_of_not_lt hj)]
    · have hb1 : ¬ bitRead v i = 1 := fun h => hb ((bitRead_eq_one v i).1 h)
      rw [if_neg hb1, ih _ hd]
      simp [hb]

theorem testBit_LCDportMapping (s : LCD) (v j : Nat) :
    (LCDportMapping s v).testBit j =
      (decide (j < 8) &&
        [7, 6, 5, 4, 3, 2, 1, 0].any (fun i => v.testBit i && decide (s._LCD_TO_PCF8574 i = j))) := by
  have h := testBit_portFold s._LCD_TO_PCF8574 v [7, 6, 5, 4, 3, 2, 1, 0] 0 (by norm_num) j
  simpa [portFold, LCDportMapping] using h

theorem LCDportMapping_lt (s : LCD) (v : Nat) : LCDportMapping s v < 256 := by
  apply lt_256_of_testBit
  intro j hj
  rw [testBit_LCDportMapping]
  simp [Nat.not_lt.2 hj]

/-! ## Pin maps that are permutations -/

theorem mem_bits (k : Nat) : k ∈ [7, 6, 5, 4, 3, 2, 1, 0] ↔ k < 8 := by
  simp only [List.mem_cons, List.mem_singleton, List.not_mem_nil, or_false]
  omega

theorem validMap_perm {m : Nat → Nat} (h : validMap m) :
    ((List.range 8).map m).Perm (List.range 8) := by
  have hn : ((List.range 8).map m).Nodup := by
    apply List.Nodup.map_on _ (List.nodup_range 8)
    intro x hx y hy hxy
    exact h.2 x (List.mem_range.1 hx) y (List.mem_range.1 hy) hxy
  have hsub : (List.range 8).map m ⊆ List.range 8 := by
    intro x hx
    obtain ⟨i, hi, rfl⟩ := List.mem_map.1 hx
    exact List.mem_range.2 (h.1 i (List.mem_range.1 hi))
  exact (hn.subperm hsub).perm_of_length_le (by simp)

theorem validMap_surj {m : Nat → Nat} (h : validMap m) (j : Nat) (hj : j < 8) :
    ∃ i, i < 8 ∧ m i = j := by
  have hmem : j ∈ (List.range 8).map m :=
    (validMap_perm h).mem_iff.2 (List.mem_range.2 hj)
  obtain ⟨i, hi, e⟩ := List.mem_map.1 hmem
  exact ⟨i, List.mem_range.1 hi, e⟩

theorem testBit_LCDportMapping_port (s : LCD) (h : validMap s._LCD_TO_PCF8574) (v i : Nat)
    (hi : i < 8) :
    (LCDportMapping s v).testBit (s._LCD_TO_PCF8574 i) = v.testBit i := by
  rw [testBit_LCDportMapping, Bool.eq_iff_iff]
  simp only [Bool.and_eq_true, List.any_eq_true, decide_eq_true_eq]
  constructor
  · rintro ⟨_, k, hk, hb, e⟩
    have : k = i := h.2 k ((mem_bits k).1 hk) i hi e
    rw [← this]; exact hb
  · intro hb
    exact ⟨h.1 i hi, i, (mem_bits i).2 hi, hb, rfl⟩

theorem testBit_LCDportMapping_other (s : LCD) (v j : Nat)
    (hj : ∀ i, i < 8 → s._LCD_TO_PCF8574 i ≠ j) : (LCDportMapping s v).testBit j = false := by
  rw [testBit_LCDportMapping, Bool.eq_false_iff]
  simp only [ne_eq, Bool.and_eq_true, List.any_eq_true, decide_eq_true_eq, not_and, not_exists]
  intro _ k hk _ e
  exact hj k ((mem_bits k).1 hk) e

theorem LCDportMapping_or (s : LCD) (v w : Nat) :
    LCDportMapping s (v ||| w) = LCDportMapping s v ||| LCDportMapping s w := by
  apply Nat.eq_of_testBit_eq
  intro j
  rw [Nat.testBit_or, testBit_LCDportMapping, testBit_LCDportMapping, testBit_LCDportMapping,
    Bool.eq_iff_iff]
  simp only [Nat.testBit_or, Bool.and_eq_true, Bool.or_eq_true, List.any_eq_true,
    decide_eq_true_eq]
  constructor
  · rintro ⟨hj, k, hk, hb | hb, e⟩
    · exact Or.inl ⟨hj, k, hk, hb, e⟩
    · exact Or.inr ⟨hj, k, hk, hb, e⟩
  · rintro (⟨hj, k, hk, hb, e⟩ | ⟨hj, k, hk, hb, e⟩)
    · exact ⟨hj, k, hk, Or.inl hb, e⟩
    · exact ⟨hj, k, hk, Or.inr hb, e⟩

theorem LCDportMapping_inj (s : LCD) (h : validMap s._LCD_TO_PCF8574) (v w : Nat)
    (hv : v < 256) (hw : w < 256) (e : LCDportMapping s v = LCDportMapping s w) : v = w := by
  apply Nat.eq_of_testBit_eq
  intro i
  by_cases hi : i < 8
  · rw [← testBit_LCDportMapping_port s h v i hi, ← testBit_LCDportMapping_port s h w i hi, e]
  · rw [testBit_of_lt_256 hv (Nat.le_of_not_lt hi), testBit_of_lt_256 hw (Nat.le_of_not_lt hi)]

theorem LCDportMapping_surj (s : LCD) (h : validMap s._LCD_TO_PCF8574) (w : Nat)
    (hw : w < 256) : ∃ u, u < 256 ∧ LCDportMapping s u = w := by
  let f : Fin 256 → Fin 256 := fun v => ⟨LCDportMapping s v.1, LCDportMapping_lt s v.1⟩
  have hf : Function.Injective f := by
    intro a b hab
    have e : LCDportMapping s a.1 = LCDportMapping s b.1 := congrArg Fin.val hab
    exact Fin.ext (LCDportMapping_inj s h a.1 b.1 a.2 b.2 e)
  obtain ⟨u, hu⟩ := (Finite.injective_iff_surjective.1 hf) ⟨w, hw⟩
  exact ⟨u.1, u.2, congrArg Fin.val hu⟩

theorem popCount_LCDportMapping (s : LCD) (h : validMap s._LCD_TO_PCF8574) (v : Nat) :
    popCount (LCDportMapping s v) = popCount v := by
  unfold popCount
  rw [← (validMap_perm h).countP_eq, List.countP_map]
  apply List.countP_congr
  intro i hi
  simp only [Function.comp_apply]
  rw [testBit_LCDportMapping_port s h v i (List.mem_range.1 hi)]

/-! ## The pin mapper of the constructor -/

theorem roleCode_mem (k : Nat) (hk : k < 8) : roleCode k ∈ roleCodes := by
  interval_cases k <;> decide

theorem roleCode_inj (k l : Nat) (hk : k < 8) (hl : l < 8) (e : roleCode k = roleCode l) :
    k = l := by
  interval_cases k <;> interval_cases l <;> first | rfl | (exact absurd e (by decide))

theorem mem_roleCodes (c : Nat) : c ∈ roleCodes ↔ ∃ k, k < 8 ∧ roleCode k = c := by
  constructor
  · intro h
    simp only [roleCodes, List.mem_cons, List.mem_singleton, List.not_mem_nil, or_false] at h
    rcases h with rfl | rfl | rfl | rfl | rfl | rfl | rfl | rfl
    exacts [⟨7, by decide⟩, ⟨6, by decide⟩, ⟨5, by decide⟩, ⟨1, by decide⟩, ⟨2, by decide⟩,
      ⟨3, by decide⟩, ⟨4, by decide⟩, ⟨0, by decide⟩]
  · rintro ⟨k, hk, rfl⟩
    exact roleCode_mem k hk

theorem mapPin_init (s : LCD) (i pin : Nat) :
    (mapPin s i pin)._PCF8574_initialisation =
      (s._PCF8574_initialisation && decide (pin ∈ roleCodes)) := by
  unfold mapPin
  split_ifs <;> simp_all [roleCodes]

theorem roleCode_slot (pin k : Nat) :
    (k < 8 ∧ pin = roleCode k) ↔
      (pin = 4 ∧ k = 7) ∨ (pin = 5 ∧ k = 6) ∨ (pin = 6 ∧ k = 5) ∨ (pin = 14 ∧ k = 4) ∨
      (pin = 13 ∧ k = 3) ∨ (pin = 12 ∧ k = 2) ∨ (pin = 11 ∧ k = 1) ∨ (pin = 16 ∧ k = 0) := by
  constructor
  · rintro ⟨hk, rfl⟩
    interval_cases k <;> simp [roleCode]
  · intro h
    have hk : k < 8 := by omega
    refine ⟨hk, ?_⟩
    interval_cases k <;> simp only [roleCode] <;> omega

theorem mapPin_map (s : LCD) (i pin k : Nat) :
    (mapPin s i pin)._LCD_TO_PCF8574 k =
      if k < 8 ∧ pin = roleCode k then i else s._LCD_TO_PCF8574 k := by
  rw [if_congr (roleCode_slot pin k) rfl rfl]
  unfold mapPin
  split_ifs with h1 h2 h3 h4 h5 h6 h7 h8 h9 <;> simp only [setSlot] <;>
    first
    | rfl
    | (split_ifs <;> first | rfl | omega)
    | omega

theorem mapPin_frame (s : LCD) (i pin : Nat) :
    (mapPin s i pin)._backlightPolarity = s._backlightPolarity ∧
    (mapPin s i pin)._PCF8574_address = s._PCF8574_address ∧
    (mapPin s i pin)._backlightValue = s._backlightValue ∧
    (mapPin s i pin)._lcd_colums = s._lcd_colums ∧
    (mapPin s i pin)._lcd_rows = s._lcd_rows ∧
    (mapPin s i pin)._lcd_font_size = s._lcd_font_size ∧
    (mapPin s i pin)._displayControl = s._displayControl ∧
    (mapPin s i pin)._displayMode = s._displayMode ∧
    (mapPin s i pin).wire = s.wire ∧
    (mapPin s i pin).received = s.received ∧
    (mapPin s i pin).sendLog = s.sendLog := by
  unfold mapPin
  split_ifs <;> exact ⟨rfl, rfl, rfl, rfl, rfl, rfl, rfl, rfl, rfl, rfl, rfl⟩

theorem mapPins_succ (decl : List Nat) (n : Nat) (s : LCD) :
    mapPins decl (n + 1) s = mapPin (mapPins decl n s) n (decl.getD n 0) := by
  unfold mapPins
  rw [List.range_succ, List.foldl_append]
  rfl

theorem mapPins_init (decl : List Nat) (n : Nat) (s : LCD) :
    (mapPins decl n s)._PCF8574_initialisation = true ↔
      s._PCF8574_initialisation = true ∧ ∀ i, i < n → decl.getD i 0 ∈ roleCodes := by
  induction n with
  | zero => simp [mapPins]
  | succ n ih =>
    rw [mapPins_succ, mapPin_init, Bool.and_eq_true, ih, decide_eq_true_eq]
    constructor
    · rintro ⟨⟨h0, h1⟩, h2⟩
      refine ⟨h0, fun i hi => ?_⟩
      rcases Nat.lt_succ_iff_lt_or_eq.1 hi with h | rfl
      · exact h1 i h
      · exact h2
    · rintro ⟨h0, h1⟩
      exact ⟨⟨h0, fun i hi => h1 i (Nat.lt_succ_of_lt hi)⟩, h1 n (Nat.lt_succ_self n)⟩

theorem mapPins_map_none (decl : List Nat) (n : Nat) (s : LCD) (k : Nat)
    (h : ∀ j, j < n → decl.getD j 0 ≠ roleCode k) :
    (mapPins decl n s)._LCD_TO_PCF8574 k = s._LCD_TO_PCF8574 k := by
  induction n with
  | zero => simp [mapPins]
  | succ n ih =>
    rw [mapPins_succ, mapPin_map, if_neg, ih (fun j hj => h j (Nat.lt_succ_of_lt hj))]
    rintro ⟨_, e⟩
    exact h n (Nat.lt_succ_self n) e

theorem mapPins_map_last (decl : List Nat) (n : Nat) (s : LCD) (k i : Nat) (hk : k < 8)
    (hi : i < n) (e : decl.getD i 0 = roleCode k)
    (hlast : ∀ j, i < j → j < n → decl.getD j 0 ≠ roleCode k) :
    (mapPins decl n s)._LCD_TO_PCF8574 k = i := by
  induction n with
  | zero => omega
  | succ n ih =>
    rw [mapPins_succ, mapPin_map]
    rcases Nat.lt_succ_iff_lt_or_eq.1 hi with h | rfl
    · rw [if_neg, ih h (fun j h1 h2 => hlast j h1 (Nat.lt_succ_of_lt h2))]
      rintro ⟨_, e2⟩
      exact hlast n h (Nat.lt_succ_self n) e2
    · rw [if_pos ⟨hk, e⟩]

theorem mapPins_frame (decl : List Nat) (n : Nat) (s : LCD) :
    (mapPins decl n s)._backlightPolarity = s._backlightPolarity ∧
    (mapPins decl n s).wire = s.wire ∧
    (mapPins decl n s).sendLog = s.sendLog := by
  induction n with
  | zero => simp [mapPins]
  | succ n ih =>
    rw [mapPins_succ]
    have h := mapPin_frame (mapPins decl n s) n (decl.getD n 0)
    exact ⟨h.1.trans ih.1, h.2.2.2.2.2.2.2.2.1.trans ih.2.1, h.2.2.2.2.2.2.2.2.2.2.trans ih.2.2⟩

theorem validDeclaration_facts {decl : List Nat} (hlen : decl.length = 8)
    (h : validDeclaration decl) :
    (∀ i, i < 8 → decl.getD i 0 ∈ roleCodes) ∧
    (∀ i, i < 8 → ∀ j, j < 8 → decl.getD i 0 = decl.getD j 0 → i = j) ∧
    (∀ c, c ∈ roleCodes → ∃ i, i < 8 ∧ decl.getD i 0 = c) := by
  have hsub : roleCodes ⊆ decl := by
    intro c hc
    have h1 := h c hc
    exact List.count_pos_iff.1 (by omega)
  have hperm : roleCodes.Perm decl :=
    ((by decide : roleCodes.Nodup).subperm hsub).perm_of_length_le (by rw [hlen]; decide)
  have hnd : decl.Nodup := hperm.nodup_iff.1 (by decide)
  refine ⟨?_, ?_, ?_⟩
  · intro i hi
    rw [List.getD_eq_getElem decl 0 (by omega)]
    exact hperm.mem_iff.2 (List.getElem_mem _)
  · intro i hi j hj e
    rw [List.getD_eq_getElem decl 0 (show i < decl.length by omega),
      List.getD_eq_getElem decl 0 (show j < decl.length by omega)] at e
    exact hnd.getElem_inj_iff.1 e
  · intro c hc
    obtain ⟨n, hn, e⟩ := List.getElem_of_mem (hsub hc)
    refine ⟨n, by omega, ?_⟩
    rw [List.getD_eq_getElem decl 0 hn]
    exact e

theorem ctor_fields (g : LCD) (addr P0 P1 P2 P3 P4 P5 P6 P7 : Nat)
    (polarity : backlightPolarity) :
    (LiquidCrystal_I2C g addr P0 P1 P2 P3 P4 P5 P6 P7 polarity)._LCD_TO_PCF8574 =
      (mapPins [P0, P1, P2, P3, P4, P5, P6, P7] 8 (ctorEntry g addr polarity))._LCD_TO_PCF8574 ∧
    (LiquidCrystal_I2C g addr P0 P1 P2 P3 P4 P5 P6 P7 polarity)._PCF8574_initialisation =
      (mapPins [P0, P1, P2, P3, P4, P5, P6, P7] 8
        (ctorEntry g addr polarity))._PCF8574_initialisation ∧
    (LiquidCrystal_I2C g addr P0 P1 P2 P3 P4 P5 P6 P7 polarity)._backlightPolarity = polarity ∧
    (LiquidCrystal_I2C g addr P0 P1 P2 P3 P4 P5 P6 P7 polarity).wire = g.wire ∧
    (LiquidCrystal_I2C g addr P0 P1 P2 P3 P4 P5 P6 P7 polarity).sendLog = g.sendLog := by
  have hf := mapPins_frame [P0, P1, P2, P3, P4, P5, P6, P7] 8 (ctorEntry g addr polarity)
  have hp : (mapPins [P0, P1, P2, P3, P4, P5, P6, P7] 8
      (ctorEntry g addr polarity))._backlightPolarity = polarity := hf.1
  have hw : (mapPins [P0, P1, P2, P3, P4, P5, P6, P7] 8 (ctorEntry g addr polarity)).wire =
      g.wire := hf.2.1
  have hl : (mapPins [P0, P1, P2, P3, P4, P5, P6, P7] 8 (ctorEntry g addr polarity)).sendLog =
      g.sendLog := hf.2.2
  unfold LiquidCrystal_I2C
  simp only [← ctorEntry.eq_1 g addr polarity, hp]
  cases polarity <;> exact ⟨rfl, rfl, rfl, hw, hl⟩

theorem ctor_backlightValue (g : LCD) (addr P0 P1 P2 P3 P4 P5 P6 P7 : Nat)
    (polarity : backlightPolarity) :
    (LiquidCrystal_I2C g addr P0 P1 P2 P3 P4 P5 P6 P7 polarity)._backlightValue =
      u8 ((match polarity with
          | POSITIVE => LCD_BACKLIGHT_ON
          | NEGATIVE => u8 (bnot32 LCD_BACKLIGHT_ON)) <<<
        (LiquidCrystal_I2C g addr P0 P1 P2 P3 P4 P5 P6 P7 polarity)._LCD_TO_PCF8574 0) := by
  have hp : (mapPins [P0, P1, P2, P3, P4, P5, P6, P7] 8
      (ctorEntry g addr polarity))._backlightPolarity = polarity :=
    (mapPins_frame [P0, P1, P2, P3, P4, P5, P6, P7] 8 (ctorEntry g addr polarity)).1
  unfold LiquidCrystal_I2C
  simp only [← ctorEntry.eq_1 g addr polarity, hp]
  cases polarity <;> rfl

theorem ctor_init_iff (g : LCD) (addr P0 P1 P2 P3 P4 P5 P6 P7 : Nat)
    (polarity : backlightPolarity) :
    (LiquidCrystal_I2C g addr P0 P1 P2 P3 P4 P5 P6 P7 polarity)._PCF8574_initialisation = true ↔
      ∀ c ∈ [P0, P1, P2, P3, P4, P5, P6, P7], c ∈ roleCodes := by
  rw [(ctor_fields g addr P0 P1 P2 P3 P4 P5 P6 P7 polarity).2.1, mapPins_init]
  constructor
  · rintro ⟨_, h⟩ c hc
    obtain ⟨n, hn, e⟩ := List.getElem_of_mem hc
    have h1 := h n hn
    rw [List.getD_eq_getElem _ 0 hn, e] at h1
    exact h1
  · intro h
    refine ⟨rfl, fun i hi => ?_⟩
    have hi2 : i < [P0, P1, P2, P3, P4, P5, P6, P7].length := hi
    rw [List.getD_eq_getElem _ 0 hi2]
    exact h _ (List.getElem_mem _)

theorem ctor_inverse (g : LCD) (addr P0 P1 P2 P3 P4 P5 P6 P7 : Nat)
    (polarity : backlightPolarity) (h : validDeclaration [P0, P1, P2, P3, P4, P5, P6, P7])
    (k : Nat) (hk : k < 8) :
    ∃ i, i < 8 ∧
      (LiquidCrystal_I2C g addr P0 P1 P2 P3 P4 P5 P6 P7 polarity)._LCD_TO_PCF8574 k = i ∧
      [P0, P1, P2, P3, P4, P5, P6, P7].getD i 0 = roleCode k := by
  obtain ⟨_, hinj, hsurj⟩ := @validDeclaration_facts [P0, P1, P2, P3, P4, P5, P6, P7] rfl h
  obtain ⟨i, hi, e⟩ := hsurj (roleCode k) (roleCode_mem k hk)
  refine ⟨i, hi, ?_, e⟩
  rw [(ctor_fields g addr P0 P1 P2 P3 P4 P5 P6 P7 polarity).1]
  apply mapPins_map_last _ 8 _ k i hk hi e
  intro j hij hj e2
  have := hinj i hi j hj (e.trans e2.symm)
  omega

theorem ctor_validMap (g : LCD) (addr P0 P1 P2 P3 P4 P5 P6 P7 : Nat)
    (polarity : backlightPolarity) (h : validDeclaration [P0, P1, P2, P3, P4, P5, P6, P7]) :
    validMap (LiquidCrystal_I2C g addr P0 P1 P2 P3 P4 P5 P6 P7 polarity)._LCD_TO_PCF8574 := by
  constructor
  · intro k hk
    obtain ⟨i, hi, e, _⟩ := ctor_inverse g addr P0 P1 P2 P3 P4 P5 P6 P7 polarity h k hk
    rw [e]; exact hi
  · intro k hk l hl e
    obtain ⟨i, _, e1, c1⟩ := ctor_inverse g addr P0 P1 P2 P3 P4 P5 P6 P7 polarity h k hk
    obtain ⟨j, _, e2, c2⟩ := ctor_inverse g addr P0 P1 P2 P3 P4 P5 P6 P7 polarity h l hl
    have hij : i = j := by rw [← e1, ← e2]; exact e
    apply roleCode_inj k l hk hl
    rw [← c1, ← c2, hij]

theorem ctor_slot_iff (g : LCD) (addr P0 P1 P2 P3 P4 P5 P6 P7 : Nat)
    (polarity : backlightPolarity) (h : validDeclaration [P0, P1, P2, P3, P4, P5, P6, P7])
    (k : Nat) (hk : k < 8) (i : Nat) (hi : i < 8) :
    (LiquidCrystal_I2C g addr P0 P1 P2 P3 P4 P5 P6 P7 polarity)._LCD_TO_PCF8574 k = i ↔
      [P0, P1, P2, P3, P4, P5, P6, P7].getD i 0 = roleCode k := by
  obtain ⟨_, hinj, _⟩ := @validDeclaration_facts [P0, P1, P2, P3, P4, P5, P6, P7] rfl h
  obtain ⟨i0, hi0, e, c⟩ := ctor_inverse g addr P0 P1 P2 P3 P4 P5 P6 P7 polarity h k hk
  constructor
  · intro e2
    have : i0 = i := e.symm.trans e2
    rw [← this]; exact c
  · intro c2
    have : i0 = i := hinj i0 hi0 i hi (c.trans c2.symm)
    rw [← this]; exact e

/-! ## Words of a transaction -/

theorem writePCF8574_fst (bus : I2CBus) (s : LCD) (v : Nat) :
    (writePCF8574 bus s v).1 = bus.transmitOk s.wire.length := by
  unfold writePCF8574
  cases bus.transmitOk s.wire.length <;> rfl

theorem writePCF8574_snd (bus : I2CBus) (s : LCD) (v : Nat) :
    (writePCF8574 bus s v).2 = { s with wire := s.wire ++ [v ||| s._backlightValue] } := by
  unfold writePCF8574
  cases bus.transmitOk s.wire.length <;> rfl

theorem LCDsend_eq (bus : I2CBus) (s : LCD) (mode value length : Nat) :
    LCDsend bus s mode value length =
      { s with
        wire := s.wire ++ (sendData s mode value length).map (fun d => d ||| s._backlightValue)
        sendLog := s.sendLog ++ [(mode, value, length)] } := by
  unfold LCDsend sendData
  simp only [writePCF8574_snd]
  split_ifs <;> simp [LCDportMapping]

/-! ## Backlight value -/

theorem backlightCall_eq (bus : I2CBus) (s : LCD) (lit : Bool) :
    backlightCall bus s lit =
      { s with
        _backlightValue := u8 (backlightByte s._backlightPolarity lit <<< s._LCD_TO_PCF8574 0)
        wire := s.wire ++
          [PCF8574_ALL_LOW ||| u8 (backlightByte s._backlightPolarity lit <<< s._LCD_TO_PCF8574 0)] } := by
  cases lit <;> cases hp : s._backlightPolarity <;>
    simp only [backlightCall, LCDbacklight, LCDnoBacklight, writePCF8574_snd, hp, backlightByte,
      if_true, if_false, Bool.false_eq_true]

theorem ctor_wired (g : LCD) (addr P0 P1 P2 P3 P4 P5 P6 P7 : Nat)
    (polarity : backlightPolarity) :
    Wired (LiquidCrystal_I2C g addr P0 P1 P2 P3 P4 P5 P6 P7 polarity)._LCD_TO_PCF8574 polarity true
      (LiquidCrystal_I2C g addr P0 P1 P2 P3 P4 P5 P6 P7 polarity) := by
  refine ⟨rfl, (ctor_fields g addr P0 P1 P2 P3 P4 P5 P6 P7 polarity).2.2.1, ?_⟩
  rw [ctor_backlightValue]
  cases polarity <;> rfl

theorem backlightCall_wired (bus : I2CBus) {m : Nat → Nat} {polarity : backlightPolarity}
    {lit : Bool} {s : LCD} (h : Wired m polarity lit s) (c : Bool) :
    Wired m polarity c (backlightCall bus s c) := by
  obtain ⟨h1, h2, _⟩ := h
  rw [backlightCall_eq]
  exact ⟨h1, h2, by simp only [h1, h2]⟩

theorem getLastD_cons_eq {α : Type} (c : α) (cs : List α) (d : α) :
    (c :: cs).getLastD d = cs.getLastD c := by
  induction cs generalizing c d with
  | nil => rfl
  | cons x xs _ => rfl

theorem backlightCalls_wired (bus : I2CBus) {m : Nat → Nat} {polarity : backlightPolarity}
    (calls : List Bool) {lit : Bool} {s : LCD} (h : Wired m polarity lit s) :
    Wired m polarity (calls.getLastD lit) (calls.foldl (backlightCall bus) s) ∧
    (calls.foldl (backlightCall bus) s).wire =
      s.wire ++ calls.map (fun c => PCF8574_ALL_LOW ||| u8 (backlightByte polarity c <<< m 0)) := by
  induction calls generalizing lit s with
  | nil => exact ⟨h, by simp⟩
  | cons c cs ih =>
    have hw := backlightCall_wired bus h c
    obtain ⟨i1, i2⟩ := ih hw
    refine ⟨by rw [getLastD_cons_eq]; exact i1, ?_⟩
    rw [List.foldl_cons, i2, backlightCall_eq, h.1, h.2.1]
    simp

theorem testBit_backlight_port (polarity : backlightPolarity) (lit : Bool) (p : Nat) (hp : p < 8) :
    (u8 (backlightByte polarity lit <<< p)).testBit p = physicalLevel polarity lit := by
  rw [testBit_u8, Nat.testBit_shiftLeft]
  simp only [hp, decide_True, ge_iff_le, le_refl, Nat.sub_self, Bool.true_and]
  cases polarity <;> cases lit <;> decide

theorem testBit_backlight_positive (lit : Bool) (p j : Nat) (hj : j ≠ p) :
    (u8 (backlightByte POSITIVE lit <<< p)).testBit j = false := by
  rw [testBit_u8]
  cases lit
  · simp [backlightByte, LCD_BACKLIGHT_OFF]
  · have : backlightByte POSITIVE true = 1 := rfl
    rw [this, Nat.one_shiftLeft, Nat.testBit_two_pow]
    simp [Ne.symm hj]

/-! ## Bits of the logical words -/

theorem testBit_nibbleMask (i : Nat) : Nat.testBit 0x1E i = decide (1 ≤ i ∧ i ≤ 4) := by
  by_cases h5 : i < 5
  · interval_cases i <;> decide
  · have h : Nat.testBit 0x1E i = false := by
      apply Nat.testBit_lt_two_pow
      calc 0x1E < 2 ^ 5 := by norm_num
        _ ≤ 2 ^ i := Nat.pow_le_pow_right (by norm_num) (by omega)
    rw [h]
    symm
    rw [decide_eq_false_iff_not]
    omega

theorem testBit_highNibble (v i : Nat) :
    ((v >>> 3) &&& 0x1E).testBit i = (v.testBit (3 + i) && decide (1 ≤ i ∧ i ≤ 4)) := by
  rw [Nat.testBit_and, Nat.testBit_shiftRight, testBit_nibbleMask]

theorem testBit_lowNibble (v i : Nat) :
    (u8 (v <<< 1) &&& 0x1E).testBit i = (v.testBit (i - 1) && decide (1 ≤ i ∧ i ≤ 4)) := by
  rw [Nat.testBit_and, testBit_u8, Nat.testBit_shiftLeft, testBit_nibbleMask]
  by_cases h : 1 ≤ i ∧ i ≤ 4
  · have h8 : i < 8 := by omega
    simp [h, h8, h.1]
  · simp [h]

theorem testBit_mode_low (mode : Nat) (hm : mode ∈ modes) (i : Nat) (hi : i ≤ 4) :
    mode.testBit i = false := by
  simp only [modes, List.mem_cons, List.mem_singleton, List.not_mem_nil, or_false] at hm
  rcases hm with rfl | rfl | rfl | rfl <;> interval_cases i <;> decide

theorem testBit_highWord (mode v : Nat) (hm : mode ∈ modes) (i : Nat) (hi : i ≤ 4) :
    (mode ||| ((v >>> 3) &&& 0x1E)).testBit i = (v.testBit (3 + i) && decide (1 ≤ i)) := by
  rw [Nat.testBit_or, testBit_mode_low mode hm i hi, testBit_highNibble]
  simp [hi]

theorem testBit_lowWord (mode v : Nat) (hm : mode ∈ modes) (i : Nat) (hi : i ≤ 4) :
    (mode ||| (u8 (v <<< 1) &&& 0x1E)).testBit i = (v.testBit (i - 1) && decide (1 ≤ i)) := by
  rw [Nat.testBit_or, testBit_mode_low mode hm i hi, testBit_lowNibble]
  simp [hi]

theorem testBit_highWord_ctl (mode v i : Nat) (hi : 5 ≤ i) :
    (mode ||| ((v >>> 3) &&& 0x1E)).testBit i = mode.testBit i := by
  rw [Nat.testBit_or, testBit_highNibble]
  have : ¬ (1 ≤ i ∧ i ≤ 4) := by omega
  simp [this]

theorem testBit_lowWord_ctl (mode v i : Nat) (hi : 5 ≤ i) :
    (mode ||| (u8 (v <<< 1) &&& 0x1E)).testBit i = mode.testBit i := by
  rw [Nat.testBit_or, testBit_lowNibble]
  have : ¬ (1 ≤ i ∧ i ≤ 4) := by omega
  simp [this]

theorem mem_sendData (s : LCD) (mode value length d : Nat)
    (hd : d ∈ sendData s mode value length) :
    ∃ x, (x = mode ||| ((value >>> 3) &&& 0x1E) ∨ x = mode ||| (u8 (value <<< 1) &&& 0x1E)) ∧
      (d = LCDportMapping s x ∨ d = bitClear (LCDportMapping s x) (s._LCD_TO_PCF8574 5)) := by
  unfold sendData at hd
  split_ifs at hd
  · simp only [List.mem_cons, List.mem_singleton, List.not_mem_nil, or_false] at hd
    rcases hd with rfl | rfl | rfl | rfl
    · exact ⟨_, Or.inl rfl, Or.inl rfl⟩
    · exact ⟨_, Or.inl rfl, Or.inr rfl⟩
    · exact ⟨_, Or.inr rfl, Or.inl rfl⟩
    · exact ⟨_, Or.inr rfl, Or.inr rfl⟩
  · simp only [List.mem_cons, List.mem_singleton, List.not_mem_nil, or_false] at hd
    rcases hd with rfl | rfl
    · exact ⟨_, Or.inl rfl, Or.inl rfl⟩
    · exact ⟨_, Or.inl rfl, Or.inr rfl⟩

theorem sendData_length (s : LCD) (mode value length : Nat) :
    (sendData s mode value length).length = if length = LCD_CMD_LENGTH_8BIT then 4 else 2 := by
  unfold sendData
  split_ifs <;> rfl

theorem sendData_backlight_port (s : LCD) (h : validMap s._LCD_TO_PCF8574)
    (mode value length d : Nat) (hm : mode ∈ modes) (hd : d ∈ sendData s mode value length) :
    d.testBit (s._LCD_TO_PCF8574 0) = false := by
  obtain ⟨x, hx, hdx⟩ := mem_sendData s mode value length d hd
  have hx0 : x.testBit 0 = false := by
    rcases hx with rfl | rfl
    · rw [testBit_highWord mode value hm 0 (by norm_num)]; simp
    · rw [testBit_lowWord mode value hm 0 (by norm_num)]; simp
  have hp : (LCDportMapping s x).testBit (s._LCD_TO_PCF8574 0) = false := by
    rw [testBit_LCDportMapping_port s h x 0 (by norm_num), hx0]
  rcases hdx with rfl | rfl
  · exact hp
  · rw [testBit_bitClear, hp]; simp

theorem LCDsend_wire_8bit (bus : I2CBus) (s : LCD) (mode value : Nat) :
    (LCDsend bus s mode value LCD_CMD_LENGTH_8BIT).wire =
      s.wire ++
        [LCDportMapping s (mode ||| ((value >>> 3) &&& 0x1E)) ||| s._backlightValue,
         bitClear (LCDportMapping s (mode ||| ((value >>> 3) &&& 0x1E))) (s._LCD_TO_PCF8574 5)
           ||| s._backlightValue,
         LCDportMapping s (mode ||| (u8 (value <<< 1) &&& 0x1E)) ||| s._backlightValue,
         bitClear (LCDportMapping s (mode ||| (u8 (value <<< 1) &&& 0x1E))) (s._LCD_TO_PCF8574 5)
           ||| s._backlightValue] := by
  rw [LCDsend_eq]
  simp only [sendData, if_true, List.map_cons, List.map_nil]

theorem LCDsend_wire_4bit (bus : I2CBus) (s : LCD) (mode value : Nat) :
    (LCDsend bus s mode value LCD_CMD_LENGTH_4BIT).wire =
      s.wire ++
        [LCDportMapping s (mode ||| ((value >>> 3) &&& 0x1E)) ||| s._backlightValue,
         bitClear (LCDportMapping s (mode ||| ((value >>> 3) &&& 0x1E))) (s._LCD_TO_PCF8574 5)
           ||| s._backlightValue] := by
  rw [LCDsend_eq]
  have h : ¬ LCD_CMD_LENGTH_4BIT = LCD_CMD_LENGTH_8BIT := by decide
  simp only [sendData, if_neg h, List.map_cons, List.map_nil]

/-! ## Properties of the driver -/

/-- C1 (the code breaks it): with the usual wiring `4, 5, 6, 16, 11, 12, 13, 14`
(backlight on P3, D4..D7 on P4..P7) and active-low polarity the constructor
stores the backlight value `0xF0`; the first word of `LCDsend` for the byte
`0x00` is `0xF4`, whose D7 port reads 1 although bit 7 of the byte is 0. -/
theorem C1_active_low_backlight_overwrites_data_ports :
    (LiquidCrystal_I2C powerOn 0x27 4 5 6 16 11 12 13 14 NEGATIVE).ports =
      [3, 4, 5, 6, 7, 2, 1, 0] ∧
    (LiquidCrystal_I2C powerOn 0x27 4 5 6 16 11 12 13 14 NEGATIVE)._backlightValue = 0xF0 ∧
    (LCDsend idealBus (LiquidCrystal_I2C powerOn 0x27 4 5 6 16 11 12 13 14 NEGATIVE)
      LCD_INSTRUCTION_WRITE 0x00 LCD_CMD_LENGTH_8BIT).wire = [0xF4, 0xF0, 0xF4, 0xF0] ∧
    Nat.testBit 0xF4 7 = true ∧ Nat.testBit 0x00 7 = false := by
  decide

/-- What C1 asks for does hold under active-high polarity: for every valid
wiring, any backlight state and every mode, the first word carries bits 7..4
of the byte on the D7..D4 ports and the third word bits 3..0. -/
theorem LCDsend_nibbles_active_high (g : LCD) (addr P0 P1 P2 P3 P4 P5 P6 P7 : Nat)
    (h : validDeclaration [P0, P1, P2, P3, P4, P5, P6, P7]) (bus : I2CBus)
    (calls : List Bool) (mode b : Nat) (hm : mode ∈ modes) :
    ∃ w1 w2 w3 w4,
      (LCDsend bus
        (calls.foldl (backlightCall bus)
          (LiquidCrystal_I2C g addr P0 P1 P2 P3 P4 P5 P6 P7 POSITIVE))
        mode b LCD_CMD_LENGTH_8BIT).wire =
        (calls.foldl (backlightCall bus)
          (LiquidCrystal_I2C g addr P0 P1 P2 P3 P4 P5 P6 P7 POSITIVE)).wire ++ [w1, w2, w3, w4] ∧
      ∀ i, 1 ≤ i → i ≤ 4 →
        w1.testBit ((LiquidCrystal_I2C g addr P0 P1 P2 P3 P4 P5 P6 P7 POSITIVE)._LCD_TO_PCF8574 i)
          = b.testBit (3 + i) ∧
        w3.testBit ((LiquidCrystal_I2C g addr P0 P1 P2 P3 P4 P5 P6 P7 POSITIVE)._LCD_TO_PCF8574 i)
          = b.testBit (i - 1) := by
  have hv := ctor_validMap g addr P0 P1 P2 P3 P4 P5 P6 P7 POSITIVE h
  obtain ⟨⟨hmap, _, hbl⟩, _⟩ :=
    backlightCalls_wired bus calls (ctor_wired g addr P0 P1 P2 P3 P4 P5 P6 P7 POSITIVE)
  generalize calls.foldl (backlightCall bus)
    (LiquidCrystal_I2C g addr P0 P1 P2 P3 P4 P5 P6 P7 POSITIVE) = s at hmap hbl
  generalize (LiquidCrystal_I2C g addr P0 P1 P2 P3 P4 P5 P6 P7 POSITIVE)._LCD_TO_PCF8574 = m
    at hv hmap hbl
  subst hmap
  refine ⟨_, _, _, _, LCDsend_wire_8bit bus s mode b, ?_⟩
  · intro i h1 h4
    have hne : s._LCD_TO_PCF8574 i ≠ s._LCD_TO_PCF8574 0 := by
      intro e
      have := hv.2 i (by omega) 0 (by norm_num) e
      omega
    rw [hbl, Nat.testBit_or, Nat.testBit_or, testBit_backlight_positive _ _ _ hne,
      testBit_LCDportMapping_port s hv _ i (by omega),
      testBit_LCDportMapping_port s hv _ i (by omega),
      testBit_highWord mode b hm i h4, testBit_lowWord mode b hm i h4]
    simp [h1]

/-- C2: for every valid wiring the constructor marks the map valid and builds a
pin map that is a permutation of `0..7` and the inverse of the declaration:
slot `k` holds port `i` exactly when `Pi` was declared with the role of slot `k`. -/
theorem C2_constructor_inverts_valid_wiring (g : LCD) (addr P0 P1 P2 P3 P4 P5 P6 P7 : Nat)
    (polarity : backlightPolarity) (h : validDeclaration [P0, P1, P2, P3, P4, P5, P6, P7]) :
    (LiquidCrystal_I2C g addr P0 P1 P2 P3 P4 P5 P6 P7 polarity)._PCF8574_initialisation = true ∧
    validMap (LiquidCrystal_I2C g addr P0 P1 P2 P3 P4 P5 P6 P7 polarity)._LCD_TO_PCF8574 ∧
    (LiquidCrystal_I2C g addr P0 P1 P2 P3 P4 P5 P6 P7 polarity).ports.Perm (List.range 8) ∧
    ∀ k, k < 8 → ∀ i, i < 8 →
      ((LiquidCrystal_I2C g addr P0 P1 P2 P3 P4 P5 P6 P7 polarity)._LCD_TO_PCF8574 k = i ↔
        [P0, P1, P2, P3, P4, P5, P6, P7].getD i 0 = roleCode k) := by
  refine ⟨?_, ctor_validMap g addr P0 P1 P2 P3 P4 P5 P6 P7 polarity h,
    validMap_perm (ctor_validMap g addr P0 P1 P2 P3 P4 P5 P6 P7 polarity h),
    fun k hk i hi => ctor_slot_iff g addr P0 P1 P2 P3 P4 P5 P6 P7 polarity h k hk i hi⟩
  rw [ctor_init_iff]
  intro c hc
  obtain ⟨n, hn, e⟩ := List.getElem_of_mem hc
  have h1 := (@validDeclaration_facts [P0, P1, P2, P3, P4, P5, P6, P7] rfl h).1 n hn
  rw [List.getD_eq_getElem _ 0 hn, e] at h1
  exact h1

/-- C2 at the usual wiring `4, 5, 6, 16, 11, 12, 13, 14`. -/
theorem C2_constructor_inverts_valid_wiring_witness :
    validDeclaration [4, 5, 6, 16, 11, 12, 13, 14] ∧
    (LiquidCrystal_I2C powerOn 0x27 4 5 6 16 11 12 13 14 POSITIVE)._PCF8574_initialisation
      = true ∧
    validMap (LiquidCrystal_I2C powerOn 0x27 4 5 6 16 11 12 13 14 POSITIVE)._LCD_TO_PCF8574 ∧
    (LiquidCrystal_I2C powerOn 0x27 4 5 6 16 11 12 13 14 POSITIVE).ports.Perm (List.range 8) ∧
    ∀ k, k < 8 → ∀ i, i < 8 →
      ((LiquidCrystal_I2C powerOn 0x27 4 5 6 16 11 12 13 14 POSITIVE)._LCD_TO_PCF8574 k = i ↔
        [4, 5, 6, 16, 11, 12, 13, 14].getD i 0 = roleCode k) :=
  ⟨by decide,
    C2_constructor_inverts_valid_wiring powerOn 0x27 4 5 6 16 11 12 13 14 POSITIVE (by decide)⟩

/-- C3: for every pin map that is a permutation of `0..7` and every byte `v`,
`LCDportMapping v` has bit `map[i]` equal to bit `i` of `v` and no other bit
set; it is injective and surjective on bytes, keeps the number of set bits and
distributes over bitwise OR. -/
theorem C3_portMapping_relocates_bits (s : LCD) (h : validMap s._LCD_TO_PCF8574) (v : Nat)
    (hv : v < 256) :
    (∀ i, i < 8 → (LCDportMapping s v).testBit (s._LCD_TO_PCF8574 i) = v.testBit i) ∧
    (∀ j, (∀ i, i < 8 → s._LCD_TO_PCF8574 i ≠ j) → (LCDportMapping s v).testBit j = false) ∧
    LCDportMapping s v < 256 ∧
    (∀ w, w < 256 → LCDportMapping s v = LCDportMapping s w → v = w) ∧
    (∃ u, u < 256 ∧ LCDportMapping s u = v) ∧
    popCount (LCDportMapping s v) = popCount v ∧
    (∀ w, LCDportMapping s (v ||| w) = LCDportMapping s v ||| LCDportMapping s w) :=
  ⟨fun i hi => testBit_LCDportMapping_port s h v i hi,
    fun j hj => testBit_LCDportMapping_other s v j hj,
    LCDportMapping_lt s v,
    fun w hw e => LCDportMapping_inj s h v w hv hw e,
    LCDportMapping_surj s h v hv,
    popCount_LCDportMapping s h v,
    fun w => LCDportMapping_or s v w⟩

/-- C3 at the pin map of the usual wiring and the byte `0xA5`. -/
theorem C3_portMapping_relocates_bits_witness :
    validMap (LiquidCrystal_I2C powerOn 0x27 4 5 6 16 11 12 13 14 POSITIVE)._LCD_TO_PCF8574 ∧
    (0xA5 : Nat) < 256 ∧
    popCount (LCDportMapping (LiquidCrystal_I2C powerOn 0x27 4 5 6 16 11 12 13 14 POSITIVE) 0xA5)
      = popCount 0xA5 :=
  ⟨by decide, by decide,
    (C3_portMapping_relocates_bits (LiquidCrystal_I2C powerOn 0x27 4 5 6 16 11 12 13 14 POSITIVE)
      (by decide) 0xA5 (by decide)).2.2.2.2.2.1⟩

/-- C4: the constructor leaves the map marked valid if and only if every one of
the eight declared codes is a recognised role code. -/
theorem C4_valid_flag_iff_all_codes_recognised (g : LCD) (addr P0 P1 P2 P3 P4 P5 P6 P7 : Nat)
    (polarity : backlightPolarity) :
    (LiquidCrystal_I2C g addr P0 P1 P2 P3 P4 P5 P6 P7 polarity)._PCF8574_initialisation = true ↔
      ∀ c ∈ [P0, P1, P2, P3, P4, P5, P6, P7], c ∈ roleCodes :=
  ctor_init_iff g addr P0 P1 P2 P3 P4 P5 P6 P7 polarity

/-- C5 (the code breaks it): the declaration `4, 5, 6, 16, 11, 12, 13, 13` gives
D6 twice and D7 never, yet the constructor leaves the map marked valid; the D7
slot keeps its initial 0, so port 0 sits in two slots and port 6 in none. -/
theorem C5_repeated_role_is_marked_valid :
    (LiquidCrystal_I2C powerOn 0x27 4 5 6 16 11 12 13 13 POSITIVE)._PCF8574_initialisation
      = true ∧
    (LiquidCrystal_I2C powerOn 0x27 4 5 6 16 11 12 13 13 POSITIVE).ports =
      [3, 4, 5, 7, 0, 2, 1, 0] ∧
    ¬ validMap (LiquidCrystal_I2C powerOn 0x27 4 5 6 16 11 12 13 13 POSITIVE)._LCD_TO_PCF8574 := by
  decide

/-- C6: for every valid wiring, both polarities and every sequence of
`LCDbacklight` / `LCDnoBacklight` calls followed by a transaction of any mode:
each word a backlight call transmits shows the state requested by that call at the backlight
port, every word of the transaction shows the state left by the last call (on
when there was none), and repeating a backlight call leaves the stored
backlight value unchanged. -/
theorem C6_backlight_bit_follows_state (g : LCD) (addr P0 P1 P2 P3 P4 P5 P6 P7 : Nat)
    (polarity : backlightPolarity) (h : validDeclaration [P0, P1, P2, P3, P4, P5, P6, P7])
    (bus : I2CBus) (calls : List Bool) (mode value length : Nat) (hm : mode ∈ modes) :
    (∃ ws,
      (calls.foldl (backlightCall bus)
        (LiquidCrystal_I2C g addr P0 P1 P2 P3 P4 P5 P6 P7 polarity)).wire = g.wire ++ ws ∧
      List.Forall₂
        (fun w c =>
          w.testBit ((LiquidCrystal_I2C g addr P0 P1 P2 P3 P4 P5 P6 P7 polarity)._LCD_TO_PCF8574 0)
            = physicalLevel polarity c)
        ws calls) ∧
    (∃ ws,
      (LCDsend bus
        (calls.foldl (backlightCall bus)
          (LiquidCrystal_I2C g addr P0 P1 P2 P3 P4 P5 P6 P7 polarity)) mode value length).wire =
        (calls.foldl (backlightCall bus)
          (LiquidCrystal_I2C g addr P0 P1 P2 P3 P4 P5 P6 P7 polarity)).wire ++ ws ∧
      ws.length = (if length = LCD_CMD_LENGTH_8BIT then 4 else 2) ∧
      ∀ w ∈ ws,
        w.testBit ((LiquidCrystal_I2C g addr P0 P1 P2 P3 P4 P5 P6 P7 polarity)._LCD_TO_PCF8574 0)
          = physicalLevel polarity (calls.getLastD true)) ∧
    (∀ c,
      (backlightCall bus (backlightCall bus
        (calls.foldl (backlightCall bus)
          (LiquidCrystal_I2C g addr P0 P1 P2 P3 P4 P5 P6 P7 polarity)) c) c)._backlightValue =
      (backlightCall bus
        (calls.foldl (backlightCall bus)
          (LiquidCrystal_I2C g addr P0 P1 P2 P3 P4 P5 P6 P7 polarity)) c)._backlightValue) := by
  have hv := ctor_validMap g addr P0 P1 P2 P3 P4 P5 P6 P7 polarity h
  have hw0 := (ctor_fields g addr P0 P1 P2 P3 P4 P5 P6 P7 polarity).2.2.2.1
  obtain ⟨hwired, hwire⟩ :=
    backlightCalls_wired bus calls (ctor_wired g addr P0 P1 P2 P3 P4 P5 P6 P7 polarity)
  have hp8 := hv.1 0 (by norm_num)
  refine ⟨⟨_, by rw [hwire, hw0], ?_⟩, ⟨_, by rw [LCDsend_eq], ?_, ?_⟩, ?_⟩
  · rw [List.forall₂_map_left_iff, List.forall₂_same]
    intro c _
    rw [PCF8574_ALL_LOW, Nat.zero_or]
    exact testBit_backlight_port polarity c _ hp8
  · rw [List.length_map, sendData_length]
  · intro w hw
    obtain ⟨d, hd, rfl⟩ := List.mem_map.1 hw
    obtain ⟨hmap, _, hbl⟩ := hwired
    have hv2 : validMap (calls.foldl (backlightCall bus)
        (LiquidCrystal_I2C g addr P0 P1 P2 P3 P4 P5 P6 P7 polarity))._LCD_TO_PCF8574 := by
      rw [hmap]; exact hv
    have hd0 := sendData_backlight_port _ hv2 mode value length d hm hd
    rw [hmap] at hd0
    rw [Nat.testBit_or, hd0, hbl, Bool.false_or]
    exact testBit_backlight_port polarity _ _ hp8
  · intro c
    have h1 := backlightCall_wired bus hwired c
    have h2 := backlightCall_wired bus h1 c
    rw [h1.2.2, h2.2.2]

/-- C6 at the usual wiring with active-low polarity: backlight switched off,
then the clear-display command. -/
theorem C6_backlight_bit_follows_state_witness :
    validDeclaration [4, 5, 6, 16, 11, 12, 13, 14] ∧ LCD_INSTRUCTION_WRITE ∈ modes ∧
    ∃ ws,
      (LCDsend idealBus
        ([false].foldl (backlightCall idealBus)
          (LiquidCrystal_I2C powerOn 0x27 4 5 6 16 11 12 13 14 NEGATIVE))
        LCD_INSTRUCTION_WRITE LCD_CLEAR_DISPLAY LCD_CMD_LENGTH_8BIT).wire =
        ([false].foldl (backlightCall idealBus)
          (LiquidCrystal_I2C powerOn 0x27 4 5 6 16 11 12 13 14 NEGATIVE)).wire ++ ws ∧
      ws.length = (if LCD_CMD_LENGTH_8BIT = LCD_CMD_LENGTH_8BIT then 4 else 2) ∧
      ∀ w ∈ ws,
        w.testBit
          ((LiquidCrystal_I2C powerOn 0x27 4 5 6 16 11 12 13 14 NEGATIVE)._LCD_TO_PCF8574 0)
          = physicalLevel NEGATIVE ([false].getLastD true) :=
  ⟨by decide, by decide,
    (C6_backlight_bit_follows_state powerOn 0x27 4 5 6 16 11 12 13 14 NEGATIVE (by decide)
      idealBus [false] LCD_INSTRUCTION_WRITE LCD_CLEAR_DISPLAY LCD_CMD_LENGTH_8BIT
      (by decide)).2.1⟩

/-- C7: for every valid wiring with active-high polarity, in any backlight
state, `LCDwrite v` hands exactly four words to the transport and `LCDsend`
with the 4-bit length exactly two. In all four words the register-select port
is 1 and the read/write port 0; the enable port is 1 in the first and third
word and 0 in the second and fourth; the second word of a pair differs from
the first at the enable port only. -/
theorem C7_LCDwrite_hands_four_words (g : LCD) (addr P0 P1 P2 P3 P4 P5 P6 P7 : Nat)
    (h : validDeclaration [P0, P1, P2, P3, P4, P5, P6, P7]) (bus : I2CBus)
    (calls : List Bool) (v : Nat) :
    (∃ w1 w2 w3 w4,
      (LCDwrite bus
        (calls.foldl (backlightCall bus)
          (LiquidCrystal_I2C g addr P0 P1 P2 P3 P4 P5 P6 P7 POSITIVE)) v).wire =
        (calls.foldl (backlightCall bus)
          (LiquidCrystal_I2C g addr P0 P1 P2 P3 P4 P5 P6 P7 POSITIVE)).wire ++ [w1, w2, w3, w4] ∧
      (∀ w ∈ [w1, w2, w3, w4],
        w.testBit ((LiquidCrystal_I2C g addr P0 P1 P2 P3 P4 P5 P6 P7 POSITIVE)._LCD_TO_PCF8574 7)
          = true ∧
        w.testBit ((LiquidCrystal_I2C g addr P0 P1 P2 P3 P4 P5 P6 P7 POSITIVE)._LCD_TO_PCF8574 6)
          = false) ∧
      w1.testBit ((LiquidCrystal_I2C g addr P0 P1 P2 P3 P4 P5 P6 P7 POSITIVE)._LCD_TO_PCF8574 5)
        = true ∧
      w2.testBit ((LiquidCrystal_I2C g addr P0 P1 P2 P3 P4 P5 P6 P7 POSITIVE)._LCD_TO_PCF8574 5)
        = false ∧
      w3.testBit ((LiquidCrystal_I2C g addr P0 P1 P2 P3 P4 P5 P6 P7 POSITIVE)._LCD_TO_PCF8574 5)
        = true ∧
      w4.testBit ((LiquidCrystal_I2C g addr P0 P1 P2 P3 P4 P5 P6 P7 POSITIVE)._LCD_TO_PCF8574 5)
        = false ∧
      (∀ j, j ≠ (LiquidCrystal_I2C g addr P0 P1 P2 P3 P4 P5 P6 P7 POSITIVE)._LCD_TO_PCF8574 5 →
        w2.testBit j = w1.testBit j) ∧
      (∀ j, j ≠ (LiquidCrystal_I2C g addr P0 P1 P2 P3 P4 P5 P6 P7 POSITIVE)._LCD_TO_PCF8574 5 →
        w4.testBit j = w3.testBit j)) ∧
    (∀ mode, ∃ a b,
      (LCDsend bus
        (calls.foldl (backlightCall bus)
          (LiquidCrystal_I2C g addr P0 P1 P2 P3 P4 P5 P6 P7 POSITIVE))
        mode v LCD_CMD_LENGTH_4BIT).wire =
        (calls.foldl (backlightCall bus)
          (LiquidCrystal_I2C g addr P0 P1 P2 P3 P4 P5 P6 P7 POSITIVE)).wire ++ [a, b]) := by
  have hv := ctor_validMap g addr P0 P1 P2 P3 P4 P5 P6 P7 POSITIVE h
  obtain ⟨⟨hmap, _, hbl⟩, _⟩ :=
    backlightCalls_wired bus calls (ctor_wired g addr P0 P1 P2 P3 P4 P5 P6 P7 POSITIVE)
  generalize calls.foldl (backlightCall bus)
    (LiquidCrystal_I2C g addr P0 P1 P2 P3 P4 P5 P6 P7 POSITIVE) = s at hmap hbl
  generalize (LiquidCrystal_I2C g addr P0 P1 P2 P3 P4 P5 P6 P7 POSITIVE)._LCD_TO_PCF8574 = m
    at hv hmap hbl
  subst hmap
  have hne : ∀ i, 1 ≤ i → i < 8 → s._LCD_TO_PCF8574 i ≠ s._LCD_TO_PCF8574 0 := by
    intro i h1 h8 e
    have := hv.2 i h8 0 (by norm_num) e
    omega
  have hblf : ∀ i, 1 ≤ i → i < 8 → s._backlightValue.testBit (s._LCD_TO_PCF8574 i) = false := by
    intro i h1 h8
    rw [hbl]
    exact testBit_backlight_positive _ _ _ (hne i h1 h8)
  have h57 : s._LCD_TO_PCF8574 5 ≠ s._LCD_TO_PCF8574 7 := by
    intro e
    have := hv.2 5 (by norm_num) 7 (by norm_num) e
    omega
  have h56 : s._LCD_TO_PCF8574 5 ≠ s._LCD_TO_PCF8574 6 := by
    intro e
    have := hv.2 5 (by norm_num) 6 (by norm_num) e
    omega
  have hp := fun x i (hi : i < 8) => testBit_LCDportMapping_port s hv x i hi
  have hm8 := fun i (hi : i < 8) => hv.1 i hi
  refine ⟨⟨_, _, _, _, LCDsend_wire_8bit bus s LCD_DATA_WRITE v, ?_, ?_, ?_, ?_, ?_, ?_, ?_⟩,
    fun mode => ⟨_, _, LCDsend_wire_4bit bus s mode v⟩⟩
  · intro w hw
    simp only [List.mem_cons, List.mem_singleton, List.not_mem_nil, or_false] at hw
    rcases hw with rfl | rfl | rfl | rfl <;>
      simp only [Nat.testBit_or, testBit_bitClear, hp _ 7 (by norm_num), hp _ 6 (by norm_num),
        hblf 7 (by norm_num) (by norm_num), hblf 6 (by norm_num) (by norm_num),
        testBit_highWord_ctl _ _ 7 (by norm_num), testBit_highWord_ctl _ _ 6 (by norm_num),
        testBit_lowWord_ctl _ _ 7 (by norm_num), testBit_lowWord_ctl _ _ 6 (by norm_num),
        hm8 7 (by norm_num), hm8 6 (by norm_num), h57, h56, decide_True, decide_False,
        Bool.not_false, Bool.and_true, Bool.or_false, Bool.true_and,
        (by decide : LCD_DATA_WRITE.testBit 7 = true),
        (by decide : LCD_DATA_WRITE.testBit 6 = false), and_self, Bool.false_and]
  · rw [Nat.testBit_or, hp _ 5 (by norm_num), testBit_highWord_ctl _ _ 5 (by norm_num),
      hblf 5 (by norm_num) (by norm_num)]
    decide
  · rw [Nat.testBit_or, testBit_bitClear, hblf 5 (by norm_num) (by norm_num)]
    simp
  · rw [Nat.testBit_or, hp _ 5 (by norm_num), testBit_lowWord_ctl _ _ 5 (by norm_num),
      hblf 5 (by norm_num) (by norm_num)]
    decide
  · rw [Nat.testBit_or, testBit_bitClear, hblf 5 (by norm_num) (by norm_num)]
    simp
  · intro j hj
    rw [Nat.testBit_or, Nat.testBit_or, testBit_bitClear]
    by_cases hj8 : j < 8
    · simp [hj8, Ne.symm hj]
    · rw [testBit_of_lt_256 (LCDportMapping_lt s _) (Nat.le_of_not_lt hj8)]
      simp
  · intro j hj
    rw [Nat.testBit_or, Nat.testBit_or, testBit_bitClear]
    by_cases hj8 : j < 8
    · simp [hj8, Ne.symm hj]
    · rw [testBit_of_lt_256 (LCDportMapping_lt s _) (Nat.le_of_not_lt hj8)]
      simp

/-- C7 at the usual wiring, backlight as the constructor leaves it, byte `0x41`. -/
theorem C7_LCDwrite_hands_four_words_witness :
    validDeclaration [4, 5, 6, 16, 11, 12, 13, 14] ∧
    ∀ mode, ∃ a b,
      (LCDsend idealBus
        ([].foldl (backlightCall idealBus)
          (LiquidCrystal_I2C powerOn 0x27 4 5 6 16 11 12 13 14 POSITIVE))
        mode 0x41 LCD_CMD_LENGTH_4BIT).wire =
        ([].foldl (backlightCall idealBus)
          (LiquidCrystal_I2C powerOn 0x27 4 5 6 16 11 12 13 14 POSITIVE)).wire ++ [a, b] :=
  ⟨by decide,
    (C7_LCDwrite_hands_four_words powerOn 0x27 4 5 6 16 11 12 13 14 (by decide) idealBus []
      0x41).2⟩

/-! ## Initialisation -/

theorem LCDsend_frame (bus : I2CBus) (s : LCD) (mode value length : Nat) :
    (LCDsend bus s mode value length)._lcd_rows = s._lcd_rows ∧
    (LCDsend bus s mode value length)._lcd_font_size = s._lcd_font_size ∧
    (LCDsend bus s mode value length)._lcd_colums = s._lcd_colums ∧
    (LCDsend bus s mode value length)._displayControl = s._displayControl ∧
    (LCDsend bus s mode value length)._displayMode = s._displayMode ∧
    (LCDsend bus s mode value length)._backlightValue = s._backlightValue ∧
    (LCDsend bus s mode value length)._LCD_TO_PCF8574 = s._LCD_TO_PCF8574 ∧
    (LCDsend bus s mode value length)._backlightPolarity = s._backlightPolarity ∧
    (LCDsend bus s mode value length)._PCF8574_initialisation = s._PCF8574_initialisation ∧
    (LCDsend bus s mode value length).sendLog = s.sendLog ++ [(mode, value, length)] := by
  rw [LCDsend_eq]
  exact ⟨rfl, rfl, rfl, rfl, rfl, rfl, rfl, rfl, rfl, rfl⟩

theorem displayFunction_congr (s t : LCD) (h1 : t._lcd_rows = s._lcd_rows)
    (h2 : t._lcd_font_size = s._lcd_font_size) : displayFunction t = displayFunction s := by
  unfold displayFunction
  rw [h1, h2]

theorem LCDinitialization_sendLog (bus : I2CBus) (s : LCD) :
    (LCDinitialization bus s).sendLog =
      s.sendLog ++
        [(LCD_INSTRUCTION_WRITE, 0x30, LCD_CMD_LENGTH_4BIT),
         (LCD_INSTRUCTION_WRITE, 0x30, LCD_CMD_LENGTH_4BIT),
         (LCD_INSTRUCTION_WRITE, 0x30, LCD_CMD_LENGTH_4BIT),
         (LCD_INSTRUCTION_WRITE, 0x20, LCD_CMD_LENGTH_4BIT),
         (LCD_INSTRUCTION_WRITE, 0x20 ||| displayFunction s, LCD_CMD_LENGTH_8BIT),
         (LCD_INSTRUCTION_WRITE, 0x08, LCD_CMD_LENGTH_8BIT),
         (LCD_INSTRUCTION_WRITE, 0x01, LCD_CMD_LENGTH_8BIT),
         (LCD_INSTRUCTION_WRITE, 0x06, LCD_CMD_LENGTH_8BIT),
         (LCD_INSTRUCTION_WRITE, 0x0C, LCD_CMD_LENGTH_8BIT)] := by
  unfold LCDinitialization LCDnoDisplay LCDclear LCDdisplay
  simp only [LCDsend_eq, List.append_assoc, List.cons_append, List.nil_append]
  have hd : ∀ (w1 : List Nat) (l1 : List (Nat × Nat × Nat)),
      displayFunction { s with wire := w1, sendLog := l1 } = displayFunction s :=
    fun _ _ => displayFunction_congr s _ rfl rfl
  simp only [hd]
  rfl

theorem LCDbegin_fst (bus : I2CBus) (s : LCD) (cols rows : Nat) (f : lcd_font_size)
    (hs : s._PCF8574_initialisation = true) :
    (LCDbegin bus s cols rows f).1 = bus.transmitOk s.wire.length := by
  unfold LCDbegin
  rw [if_neg (by rw [hs]; decide)]
  simp only [writePCF8574_fst]
  cases bus.transmitOk s.wire.length <;> simp

theorem LCDbegin_snd (bus : I2CBus) (s : LCD) (cols rows : Nat) (f : lcd_font_size)
    (hs : s._PCF8574_initialisation = true) (hok : bus.transmitOk s.wire.length = true) :
    (LCDbegin bus s cols rows f).2 =
      LCDinitialization bus
        { s with wire := s.wire ++ [PCF8574_ALL_LOW ||| s._backlightValue],
                 _lcd_colums := cols, _lcd_rows := rows, _lcd_font_size := f } := by
  unfold LCDbegin
  rw [if_neg (by rw [hs]; decide)]
  simp only [writePCF8574_fst, writePCF8574_snd, hok]
  simp

theorem displayFunction_multirow_10dot (s : LCD) (hr : 1 < s._lcd_rows)
    (hf : s._lcd_font_size = LCD_5x10DOTS) : displayFunction s = 0x04 := by
  unfold displayFunction
  have h1 : s._lcd_rows ≠ 1 := by omega
  simp only [hf, if_true, if_pos hr, if_pos h1, gt_iff_lt, ne_eq, not_false_eq_true]
  decide

/-- C8 (fails as stated): after `LCDbegin(16, 2, LCD_5x10DOTS)` the full function
set byte is `0x24`, with the 10-dot font bit DB2 set and the 2-line bit DB3
cleared, not the other way round. -/
theorem C8_font_bit_is_not_cleared :
    (LCDbegin idealBus (LiquidCrystal_I2C powerOn 0x27 4 5 6 16 11 12 13 14 POSITIVE)
      16 2 LCD_5x10DOTS).2.sendLog[4]? =
      some (LCD_INSTRUCTION_WRITE, 0x24, LCD_CMD_LENGTH_8BIT) ∧
    ¬ (Nat.testBit 0x24 2 = false ∧ Nat.testBit 0x24 3 = true) := by
  decide

/-- C8 (amended): for every row count greater than 1, `LCDbegin` with the 5x10
font requested (map marked valid, first write accepted) succeeds and its fifth
transaction is the full-byte function set `0x24`: the 2-line bit DB3 is
cleared, the 10-dot font bit DB2 stays set, the interface bit DB4 is 0. -/
theorem C8_multirow_10dot_forces_one_line (bus : I2CBus) (s : LCD) (cols rows : Nat)
    (hs : s._PCF8574_initialisation = true) (hok : bus.transmitOk s.wire.length = true)
    (hr : 1 < rows) :
    (LCDbegin bus s cols rows LCD_5x10DOTS).1 = true ∧
    ((LCDbegin bus s cols rows LCD_5x10DOTS).2.sendLog.drop s.sendLog.length)[4]? =
      some (LCD_INSTRUCTION_WRITE, LCD_FUNCTION_SET ||| LCD_5x10DOTS.val, LCD_CMD_LENGTH_8BIT) ∧
    (LCD_FUNCTION_SET ||| LCD_5x10DOTS.val).testBit 2 = true ∧
    (LCD_FUNCTION_SET ||| LCD_5x10DOTS.val).testBit 3 = false ∧
    (LCD_FUNCTION_SET ||| LCD_5x10DOTS.val).testBit 4 = false := by
  refine ⟨by rw [LCDbegin_fst bus s cols rows _ hs, hok], ?_, by decide, by decide, by decide⟩
  rw [LCDbegin_snd bus s cols rows _ hs hok, LCDinitialization_sendLog,
    displayFunction_multirow_10dot _ hr rfl]
  simp only [List.drop_left]
  rfl

/-- C8 (amended) at the usual wiring, 16 columns and 2 rows. -/
theorem C8_multirow_10dot_forces_one_line_witness :
    (LiquidCrystal_I2C powerOn 0x27 4 5 6 16 11 12 13 14 POSITIVE)._PCF8574_initialisation
      = true ∧
    idealBus.transmitOk
      (LiquidCrystal_I2C powerOn 0x27 4 5 6 16 11 12 13 14 POSITIVE).wire.length = true ∧
    1 < 2 ∧
    (LCDbegin idealBus (LiquidCrystal_I2C powerOn 0x27 4 5 6 16 11 12 13 14 POSITIVE)
      16 2 LCD_5x10DOTS).1 = true :=
  ⟨by decide, by decide, by decide,
    (C8_multirow_10dot_forces_one_line idealBus
      (LiquidCrystal_I2C powerOn 0x27 4 5 6 16 11 12 13 14 POSITIVE) 16 2
      (by decide) (by decide) (by decide)).1⟩

/-- C9 (fails as stated): on a bus where every transmit fails, `LCDsend` of a
full byte still hands all four words to the transport after the first failure. -/
theorem C9_words_follow_a_failed_write :
    deadBus.transmitOk 0 = false ∧
    (LCDsend deadBus (LiquidCrystal_I2C powerOn 0x27 4 5 6 16 11 12 13 14 POSITIVE)
      LCD_DATA_WRITE 0x41 LCD_CMD_LENGTH_8BIT).wire = [0x4D, 0x49, 0x1D, 0x19] := by
  decide

/-- C9 (amended): `LCDsend` hands every word of its transaction to the transport
(four for the 8-bit length, two otherwise) whatever the results of the
transport writes, and the variables it leaves do not depend on those results;
a failed write is reported by `writePCF8574` to its caller only. -/
theorem C9_LCDsend_ignores_write_results (bus bus2 : I2CBus) (s : LCD)
    (mode value length : Nat) :
    LCDsend bus s mode value length = LCDsend bus2 s mode value length ∧
    (LCDsend bus s mode value length).wire.length =
      s.wire.length + (if length = LCD_CMD_LENGTH_8BIT then 4 else 2) ∧
    (∀ w, (writePCF8574 bus s w).1 = bus.transmitOk s.wire.length) := by
  refine ⟨by rw [LCDsend_eq, LCDsend_eq], ?_, fun w => writePCF8574_fst bus s w⟩
  rw [LCDsend_eq]
  simp only [List.length_append, List.length_map, sendData_length]

set_option maxRecDepth 8000 in
/-- C10 (fails as stated): on a bus where only the first transmit succeeds
`LCDbegin` hands 29 words to the transport, 28 of them rejected, and returns true. -/
theorem C10_later_failures_are_not_reported :
    (LCDbegin firstOnlyBus (LiquidCrystal_I2C powerOn 0x27 4 5 6 16 11 12 13 14 POSITIVE)
      16 2 LCD_5x8DOTS).1 = true ∧
    (LCDbegin firstOnlyBus (LiquidCrystal_I2C powerOn 0x27 4 5 6 16 11 12 13 14 POSITIVE)
      16 2 LCD_5x8DOTS).2.wire.length = 29 ∧
    firstOnlyBus.transmitOk 1 = false := by
  decide

/-- C10 (amended): for every valid wiring and every pattern of transport write
results, `LCDbegin` returns false if and only if its first transport write,
the all-low word, fails. -/
theorem C10_LCDbegin_reports_first_write_only (g : LCD) (addr P0 P1 P2 P3 P4 P5 P6 P7 : Nat)
    (polarity : backlightPolarity) (h : validDeclaration [P0, P1, P2, P3, P4, P5, P6, P7])
    (bus : I2CBus) (cols rows : Nat) (f : lcd_font_size) :
    (LCDbegin bus (LiquidCrystal_I2C g addr P0 P1 P2 P3 P4 P5 P6 P7 polarity) cols rows f).1
      = false ↔ bus.transmitOk g.wire.length = false := by
  have hinit : (LiquidCrystal_I2C g addr P0 P1 P2 P3 P4 P5 P6 P7 polarity)._PCF8574_initialisation
      = true := by
    rw [ctor_init_iff]
    intro c hc
    obtain ⟨n, hn, e⟩ := List.getElem_of_mem hc
    have h1 := (@validDeclaration_facts [P0, P1, P2, P3, P4, P5, P6, P7] rfl h).1 n hn
    rw [List.getD_eq_getElem _ 0 hn, e] at h1
    exact h1
  rw [LCDbegin_fst bus _ cols rows f hinit,
    (ctor_fields g addr P0 P1 P2 P3 P4 P5 P6 P7 polarity).2.2.2.1]

/-- C10 (amended) at the usual wiring on a bus that rejects every write. -/
theorem C10_LCDbegin_reports_first_write_only_witness :
    validDeclaration [4, 5, 6, 16, 11, 12, 13, 14] ∧
    ((LCDbegin deadBus (LiquidCrystal_I2C powerOn 0x27 4 5 6 16 11 12 13 14 NEGATIVE)
      20 4 LCD_5x8DOTS).1 = false ↔ deadBus.transmitOk powerOn.wire.length = false) :=
  ⟨by decide,
    C10_LCDbegin_reports_first_write_only powerOn 0x27 4 5 6 16 11 12 13 14 NEGATIVE
      (by decide) deadBus 20 4 LCD_5x8DOTS⟩

/-! ## Words and reads of each operation -/

theorem LCDsend_wire_length (bus : I2CBus) (s : LCD) (mode value length : Nat) :
    (LCDsend bus s mode value length).wire.length =
      s.wire.length + (if length = LCD_CMD_LENGTH_8BIT then 4 else 2) := by
  rw [LCDsend_eq]
  simp only [List.length_append, List.length_map, sendData_length]

theorem LCDsend_wire_length_8bit (bus : I2CBus) (s : LCD) (mode value : Nat) :
    (LCDsend bus s mode value LCD_CMD_LENGTH_8BIT).wire.length = s.wire.length + 4 := by
  rw [LCDsend_wire_length, if_pos rfl]

theorem LCDsend_received (bus : I2CBus) (s : LCD) (mode value length : Nat) :
    (LCDsend bus s mode value length).received = s.received := by
  rw [LCDsend_eq]

theorem readPCF8574_snd (bus : I2CBus) (s : LCD) :
    (readPCF8574 bus s).2 = { s with received := s.received + 1 } := by
  unfold readPCF8574
  cases bus.receive s.received <;> rfl

theorem readPCF8574_fst (bus : I2CBus) (s : LCD) :
    (readPCF8574 bus s).1 = u8 ((bus.receive s.received).getD 0) := by
  unfold readPCF8574
  cases bus.receive s.received <;> rfl

theorem LCDcreateChar_data_fold (bus : I2CBus) (pattern : Nat → Nat) (n : Nat) (s : LCD) :
    ((List.range n).foldl
        (fun st i => LCDsend bus st LCD_DATA_WRITE (pattern i) LCD_CMD_LENGTH_8BIT) s).wire.length =
        s.wire.length + 4 * n ∧
    ((List.range n).foldl
        (fun st i => LCDsend bus st LCD_DATA_WRITE (pattern i) LCD_CMD_LENGTH_8BIT) s).sendLog =
        s.sendLog ++ (List.range n).map (fun i => (LCD_DATA_WRITE, pattern i, LCD_CMD_LENGTH_8BIT)) ∧
    ((List.range n).foldl
        (fun st i => LCDsend bus st LCD_DATA_WRITE (pattern i) LCD_CMD_LENGTH_8BIT) s).received =
        s.received := by
  induction n with
  | zero => simp
  | succ n ih =>
    rw [List.range_succ, List.foldl_append, List.map_append]
    simp only [List.foldl_cons, List.foldl_nil, List.map_cons, List.map_nil]
    rw [LCDsend_wire_length_8bit, (LCDsend_frame bus _ _ _ _).2.2.2.2.2.2.2.2.2, LCDsend_received,
      ih.1, ih.2.1, ih.2.2]
    refine ⟨by omega, by rw [List.append_assoc], rfl⟩

theorem LCDcreateChar_wire_length (bus : I2CBus) (s : LCD) (a : Nat) (pattern : Nat → Nat) :
    (LCDcreateChar bus s a pattern).wire.length = s.wire.length + 4 + 4 * (cgramLimits s).2 := by
  unfold LCDcreateChar
  simp only []
  rw [(LCDcreateChar_data_fold bus pattern _ _).1, LCDsend_wire_length_8bit]

theorem LCDsetCursor_some (bus : I2CBus) (s : LCD) (colum row : Nat)
    (h1 : 1 ≤ s._lcd_rows) (h4 : s._lcd_rows ≤ 4) :
    LCDsetCursor bus s colum row =
      some (LCDsend bus s LCD_INSTRUCTION_WRITE
        (u8 (LCD_DDRAM_ADDR_SET |||
          ((row_address_offset s).getD (clampedRow s row) 0 + clampedColum s colum)))
        LCD_CMD_LENGTH_8BIT) ∧
    clampedRow s row < 4 ∧
    clampedRow s row = (if row ≥ s._lcd_rows then s._lcd_rows - 1 else row) := by
  have hc : clampedRow s row = (if row ≥ s._lcd_rows then s._lcd_rows - 1 else row) := by
    unfold clampedRow u8
    split_ifs
    · omega
    · rfl
  have hlt : clampedRow s row < 4 := by
    rw [hc]; split_ifs <;> omega
  refine ⟨?_, hlt, hc⟩
  unfold LCDsetCursor
  simp only []
  have hlen : clampedRow s row < (row_address_offset s).length := hlt
  rw [List.getElem?_eq_getElem hlen, List.getD_eq_getElem _ 0 hlen]

theorem backlightCall_wire_length (bus : I2CBus) (s : LCD) (c : Bool) :
    (backlightCall bus s c).wire.length = s.wire.length + 1 := by
  rw [backlightCall_eq]
  simp

theorem LCDreadBusyFlag_counts (bus : I2CBus) (s : LCD) :
    (LCDreadBusyFlag bus s).2.wire.length = s.wire.length + 2 ∧
    (LCDreadBusyFlag bus s).2.received = s.received + 1 := by
  unfold LCDreadBusyFlag
  simp only [readPCF8574_snd]
  rw [LCDsend_wire_length, LCDsend_received]
  exact ⟨rfl, rfl⟩

theorem LCDgetCursorPosition_counts (bus : I2CBus) (s : LCD) :
    (LCDgetCursorPosition bus s).2.wire.length = s.wire.length + 4 ∧
    (LCDgetCursorPosition bus s).2.received = s.received + 2 := by
  unfold LCDgetCursorPosition
  simp [readPCF8574_snd, LCDsend_wire_length, LCDsend_received, LCD_CMD_LENGTH_4BIT,
    LCD_CMD_LENGTH_8BIT]

/-- C11: when the pin map is marked invalid, `LCDbegin` returns false for every
argument and leaves every variable as it was: no word is handed to the
transport, and the geometry, the display control flags and the entry mode
flags are unchanged. -/
theorem C11_LCDbegin_refuses_invalid_map (bus : I2CBus) (s : LCD) (cols rows : Nat)
    (f : lcd_font_size) (h : s._PCF8574_initialisation = false) :
    (LCDbegin bus s cols rows f).1 = false ∧
    (LCDbegin bus s cols rows f).2 = s ∧
    (LCDbegin bus s cols rows f).2.wire = s.wire ∧
    (LCDbegin bus s cols rows f).2._lcd_colums = s._lcd_colums ∧
    (LCDbegin bus s cols rows f).2._lcd_rows = s._lcd_rows ∧
    (LCDbegin bus s cols rows f).2._lcd_font_size = s._lcd_font_size ∧
    (LCDbegin bus s cols rows f).2._displayControl = s._displayControl ∧
    (LCDbegin bus s cols rows f).2._displayMode = s._displayMode := by
  have e : LCDbegin bus s cols rows f = (false, s) := by
    unfold LCDbegin
    rw [if_pos h]
  rw [e]
  exact ⟨rfl, rfl, rfl, rfl, rfl, rfl, rfl, rfl⟩

/-- C11 at the declaration `0, 5, 6, 16, 11, 12, 13, 14`, whose first code is
not a role code. -/
theorem C11_LCDbegin_refuses_invalid_map_witness :
    (LiquidCrystal_I2C powerOn 0x27 0 5 6 16 11 12 13 14 POSITIVE)._PCF8574_initialisation
      = false ∧
    (LCDbegin idealBus (LiquidCrystal_I2C powerOn 0x27 0 5 6 16 11 12 13 14 POSITIVE)
      16 2 LCD_5x8DOTS).1 = false ∧
    (LCDbegin idealBus (LiquidCrystal_I2C powerOn 0x27 0 5 6 16 11 12 13 14 POSITIVE)
      16 2 LCD_5x8DOTS).2 = LiquidCrystal_I2C powerOn 0x27 0 5 6 16 11 12 13 14 POSITIVE :=
  ⟨by decide,
    (C11_LCDbegin_refuses_invalid_map idealBus
      (LiquidCrystal_I2C powerOn 0x27 0 5 6 16 11 12 13 14 POSITIVE) 16 2 LCD_5x8DOTS
      (by decide)).1,
    (C11_LCDbegin_refuses_invalid_map idealBus
      (LiquidCrystal_I2C powerOn 0x27 0 5 6 16 11 12 13 14 POSITIVE) 16 2 LCD_5x8DOTS
      (by decide)).2.1⟩

/-- C12 (fails as stated): after the declaration `0, 5, 6, 16, 11, 12, 13, 14`
the map is marked invalid, yet `LCDwrite` hands four words to the transport
and `LCDreadBusyFlag` two words and performs one transport read. -/
theorem C12_operations_run_on_invalid_map :
    (LiquidCrystal_I2C powerOn 0x27 0 5 6 16 11 12 13 14 POSITIVE)._PCF8574_initialisation
      = false ∧
    (LCDwrite idealBus (LiquidCrystal_I2C powerOn 0x27 0 5 6 16 11 12 13 14 POSITIVE)
      0x41).wire.length = 4 ∧
    (LCDreadBusyFlag idealBus
      (LiquidCrystal_I2C powerOn 0x27 0 5 6 16 11 12 13 14 POSITIVE)).2.wire.length = 2 ∧
    (LCDreadBusyFlag idealBus
      (LiquidCrystal_I2C powerOn 0x27 0 5 6 16 11 12 13 14 POSITIVE)).2.received = 1 := by
  decide

/-- C12 (amended): when the pin map is marked invalid only `LCDbegin` refuses to
run. Every other operation hands its words to the transport as usual:
`LCDsend` two or four, `LCDwrite`, `LCDclear`, `LCDhome` and the ten display
and entry mode toggles four each, `LCDsetCursor` four (with 1 to 4 rows),
`LCDcreateChar` four and four per pattern byte, the backlight calls one each,
`LCDreadBusyFlag` two words and one read, `LCDgetCursorPosition` four words
and two reads. -/
theorem C12_only_LCDbegin_tests_the_flag (bus : I2CBus) (s : LCD)
    (h : s._PCF8574_initialisation = false) :
    (∀ cols rows f, LCDbegin bus s cols rows f = (false, s)) ∧
    (∀ mode value length, (LCDsend bus s mode value length).wire.length =
      s.wire.length + (if length = LCD_CMD_LENGTH_8BIT then 4 else 2)) ∧
    (∀ v, (LCDwrite bus s v).wire.length = s.wire.length + 4) ∧
    (LCDclear bus s).wire.length = s.wire.length + 4 ∧
    (LCDhome bus s).wire.length = s.wire.length + 4 ∧
    (∀ colum row, 1 ≤ s._lcd_rows → s._lcd_rows ≤ 4 →
      ∃ t, LCDsetCursor bus s colum row = some t ∧ t.wire.length = s.wire.length + 4) ∧
    (∀ op ∈ [LCDdisplay, LCDnoDisplay, LCDcursor, LCDnoCursor, LCDblink, LCDnoBlink,
        LCDleftToRight, LCDrightToLeft, LCDautoscroll, LCDnoAutoscroll],
      (op bus s).wire.length = s.wire.length + 4) ∧
    (∀ a pattern, (LCDcreateChar bus s a pattern).wire.length =
      s.wire.length + 4 + 4 * (cgramLimits s).2) ∧
    (LCDbacklight bus s).wire.length = s.wire.length + 1 ∧
    (LCDnoBacklight bus s).wire.length = s.wire.length + 1 ∧
    ((LCDreadBusyFlag bus s).2.wire.length = s.wire.length + 2 ∧
      (LCDreadBusyFlag bus s).2.received = s.received + 1) ∧
    ((LCDgetCursorPosition bus s).2.wire.length = s.wire.length + 4 ∧
      (LCDgetCursorPosition bus s).2.received = s.received + 2) := by
  refine ⟨?_, fun mode value length => LCDsend_wire_length bus s mode value length,
    fun v => LCDsend_wire_length_8bit bus s _ v, LCDsend_wire_length_8bit bus s _ _,
    LCDsend_wire_length_8bit bus s _ _, ?_, ?_,
    fun a pattern => LCDcreateChar_wire_length bus s a pattern,
    backlightCall_wire_length bus s true, backlightCall_wire_length bus s false,
    LCDreadBusyFlag_counts bus s, LCDgetCursorPosition_counts bus s⟩
  · intro cols rows f
    unfold LCDbegin
    rw [if_pos h]
  · intro colum row h1 h4
    refine ⟨_, (LCDsetCursor_some bus s colum row h1 h4).1, ?_⟩
    rw [LCDsend_wire_length_8bit]
  · intro op hop
    simp only [List.mem_cons, List.mem_singleton, List.not_mem_nil, or_false] at hop
    rcases hop with rfl | rfl | rfl | rfl | rfl | rfl | rfl | rfl | rfl | rfl <;>
      exact LCDsend_wire_length_8bit bus _ _ _

/-- C12 (amended) at the declaration `0, 5, 6, 16, 11, 12, 13, 14`. -/
theorem C12_only_LCDbegin_tests_the_flag_witness :
    (LiquidCrystal_I2C powerOn 0x27 0 5 6 16 11 12 13 14 NEGATIVE)._PCF8574_initialisation
      = false ∧
    (LCDclear deadBus (LiquidCrystal_I2C powerOn 0x27 0 5 6 16 11 12 13 14 NEGATIVE)).wire.length
      = (LiquidCrystal_I2C powerOn 0x27 0 5 6 16 11 12 13 14 NEGATIVE).wire.length + 4 :=
  ⟨by decide,
    (C12_only_LCDbegin_tests_the_flag deadBus
      (LiquidCrystal_I2C powerOn 0x27 0 5 6 16 11 12 13 14 NEGATIVE) (by decide)).2.2.2.1⟩

theorem u8_or (a b : Nat) : u8 (a ||| b) = u8 a ||| u8 b := by
  apply Nat.eq_of_testBit_eq
  intro j
  rw [testBit_u8, Nat.testBit_or, Nat.testBit_or, testBit_u8, testBit_u8]
  cases decide (j < 8) <;> simp

theorem u8_add_u8 (a c : Nat) : u8 (u8 a + c) = u8 (a + c) := by
  unfold u8
  omega

theorem u8_of_lt {x : Nat} (h : x < 256) : u8 x = x := Nat.mod_eq_of_lt h

theorem ddram_byte (a c : Nat) :
    u8 (LCD_DDRAM_ADDR_SET ||| (u8 a + c)) = u8 (LCD_DDRAM_ADDR_SET ||| (a + c)) := by
  rw [u8_or, u8_or, u8_add_u8]

theorem row_address_offset_getD (s : LCD) (r c : Nat) (hr : r < 4) :
    u8 (LCD_DDRAM_ADDR_SET ||| ((row_address_offset s).getD r 0 + c)) =
      u8 (LCD_DDRAM_ADDR_SET |||
        ([0x00, 0x40, s._lcd_colums, 0x40 + s._lcd_colums].getD r 0 + c)) := by
  unfold row_address_offset
  interval_cases r
  · rfl
  · rfl
  · simp only [List.getD_cons_succ, List.getD_cons_zero, Nat.zero_add]
    exact ddram_byte _ _
  · simp only [List.getD_cons_succ, List.getD_cons_zero]
    exact ddram_byte _ _

/-- C13: for every geometry with at least 1 column and 1 to 4 rows and every
`(c, r)`, `LCDsetCursor` clamps `r` to `rows - 1` when `r >= rows` and `c` to
`columns - 1` when `c >= columns`, leaves values in range unchanged, and sends
exactly one full-byte instruction, the byte `0x80 | (offset[r] + c)` for the
clamped pair with `offset = [0x00, 0x40, columns, 0x40 + columns]`. -/
theorem C13_LCDsetCursor_clamps (bus : I2CBus) (s : LCD) (colum row : Nat)
    (hc1 : 1 ≤ s._lcd_colums) (hc8 : s._lcd_colums < 256) (hr1 : 1 ≤ s._lcd_rows)
    (hr4 : s._lcd_rows ≤ 4) :
    clampedRow s row = clampTo s._lcd_rows row ∧
    clampedColum s colum = clampTo s._lcd_colums colum ∧
    (∃ t, LCDsetCursor bus s colum row = some t ∧
      t.sendLog = s.sendLog ++
        [(LCD_INSTRUCTION_WRITE,
          u8 (0x80 ||| ([0x00, 0x40, s._lcd_colums, 0x40 + s._lcd_colums].getD
            (clampTo s._lcd_rows row) 0 + clampTo s._lcd_colums colum)),
          LCD_CMD_LENGTH_8BIT)] ∧
      t.wire.length = s.wire.length + 4) ∧
    ([0x00, 0x40, s._lcd_colums, 0x40 + s._lcd_colums].getD (clampTo s._lcd_rows row) 0
        + clampTo s._lcd_colums colum < 128 →
      u8 (0x80 ||| ([0x00, 0x40, s._lcd_colums, 0x40 + s._lcd_colums].getD
            (clampTo s._lcd_rows row) 0 + clampTo s._lcd_colums colum)) =
        0x80 ||| ([0x00, 0x40, s._lcd_colums, 0x40 + s._lcd_colums].getD
            (clampTo s._lcd_rows row) 0 + clampTo s._lcd_colums colum)) := by
  obtain ⟨hsome, hlt, hrow⟩ := LCDsetCursor_some bus s colum row hr1 hr4
  have hcol : clampedColum s colum = clampTo s._lcd_colums colum := by
    unfold clampedColum clampTo u8
    split_ifs
    · omega
    · rfl
  have hrow2 : clampedRow s row = clampTo s._lcd_rows row := hrow
  refine ⟨hrow2, hcol, ⟨_, hsome, ?_, LCDsend_wire_length_8bit bus s _ _⟩, ?_⟩
  · rw [(LCDsend_frame bus s _ _ _).2.2.2.2.2.2.2.2.2, row_address_offset_getD s _ _ hlt,
      hrow2, hcol]
    rfl
  · intro hfit
    apply u8_of_lt
    apply lt_256_of_testBit
    intro j hj
    rw [Nat.testBit_or, testBit_of_lt_256 (by norm_num : 0x80 < 256) hj,
      testBit_of_lt_256 (by omega) hj]
    rfl

/-- C13 on a 16x2 display at the position `(20, 5)`, clamped to `(15, 1)`. -/
theorem C13_LCDsetCursor_clamps_witness :
    1 ≤ ({ powerOn with _lcd_colums := 16, _lcd_rows := 2 } : LCD)._lcd_colums ∧
    ({ powerOn with _lcd_colums := 16, _lcd_rows := 2 } : LCD)._lcd_colums < 256 ∧
    1 ≤ ({ powerOn with _lcd_colums := 16, _lcd_rows := 2 } : LCD)._lcd_rows ∧
    ({ powerOn with _lcd_colums := 16, _lcd_rows := 2 } : LCD)._lcd_rows ≤ 4 ∧
    clampedRow { powerOn with _lcd_colums := 16, _lcd_rows := 2 } 5 =
      clampTo ({ powerOn with _lcd_colums := 16, _lcd_rows := 2 } : LCD)._lcd_rows 5 ∧
    clampedColum { powerOn with _lcd_colums := 16, _lcd_rows := 2 } 20 =
      clampTo ({ powerOn with _lcd_colums := 16, _lcd_rows := 2 } : LCD)._lcd_colums 20 :=
  ⟨by decide, by decide, by decide, by decide,
    (C13_LCDsetCursor_clamps idealBus { powerOn with _lcd_colums := 16, _lcd_rows := 2 } 20 5
      (by decide) (by decide) (by decide) (by decide)).1,
    (C13_LCDsetCursor_clamps idealBus { powerOn with _lcd_colums := 16, _lcd_rows := 2 } 20 5
      (by decide) (by decide) (by decide) (by decide)).2.1⟩

/-! ## Reading back -/

theorem bitRead_ne_zero (v i : Nat) : bitRead v i ≠ 0 ↔ v.testBit i = true := by
  rw [← bitRead_eq_one]
  unfold bitRead
  rw [Nat.and_one_is_mod]
  omega

theorem testBit_bitSet (p k j : Nat) :
    (bitSet p k).testBit j = (decide (j < 8) && (p.testBit j || decide (k = j))) := by
  unfold bitSet
  rw [testBit_u8, Nat.testBit_or, Nat.one_shiftLeft, Nat.testBit_two_pow]

theorem testBit_bitWrite (p k bv j : Nat) :
    (bitWrite p k bv).testBit j =
      (decide (j < 8) && (if k = j then decide (bv ≠ 0) else p.testBit j)) := by
  unfold bitWrite
  by_cases hb : bv ≠ 0
  · rw [if_pos hb, testBit_bitSet]
    by_cases hk : k = j <;> simp [hk, hb]
  · rw [if_neg hb, testBit_bitClear]
    by_cases hk : k = j <;> simp [hk, hb]

theorem testBit_cursorBits (m : Nat → Nat) (d1 d2 j : Nat) :
    (cursorBits m d1 d2).testBit j =
      if j = 0 then d2.testBit (m 1) else if j = 1 then d2.testBit (m 2)
      else if j = 2 then d2.testBit (m 3) else if j = 3 then d2.testBit (m 4)
      else if j = 4 then d1.testBit (m 1) else if j = 5 then d1.testBit (m 2)
      else if j = 6 then d1.testBit (m 3) else false := by
  unfold cursorBits
  simp only [List.foldl_cons, List.foldl_nil, testBit_bitWrite, Nat.zero_testBit]
  have hd : ∀ d i, decide (bitRead d i ≠ 0) = d.testBit i := by
    intro d i
    rw [Bool.eq_iff_iff, decide_eq_true_eq]
    exact bitRead_ne_zero d i
  simp only [hd]
  by_cases h7 : j < 7
  · interval_cases j <;> simp
  · have h0 : ¬ j = 0 := by omega
    have h1 : ¬ j = 1 := by omega
    have h2 : ¬ j = 2 := by omega
    have h3 : ¬ j = 3 := by omega
    have h4 : ¬ j = 4 := by omega
    have h5 : ¬ j = 5 := by omega
    have h6 : ¬ j = 6 := by omega
    have e0 : ¬ 0 = j := by omega
    have e1 : ¬ 1 = j := by omega
    have e2 : ¬ 2 = j := by omega
    have e3 : ¬ 3 = j := by omega
    have e4 : ¬ 4 = j := by omega
    have e5 : ¬ 5 = j := by omega
    have e6 : ¬ 6 = j := by omega
    simp [h0, h1, h2, h3, h4, h5, h6, e0, e1, e2, e3, e4, e5, e6]

theorem LCDgetCursorPosition_fst (bus : I2CBus) (s : LCD) :
    (LCDgetCursorPosition bus s).1 =
      cursorBits s._LCD_TO_PCF8574 (u8 ((bus.receive s.received).getD 0))
        (u8 ((bus.receive (s.received + 1)).getD 0)) := by
  unfold LCDgetCursorPosition cursorBits
  simp only [readPCF8574_fst, readPCF8574_snd, LCDsend_eq]

theorem cursorBits_lt (m : Nat → Nat) (d1 d2 : Nat) : cursorBits m d1 d2 < 128 := by
  have h : cursorBits m d1 d2 < 2 ^ 7 := by
    apply Nat.lt_pow_two_of_testBit
    intro j hj
    rw [testBit_cursorBits]
    have h0 : ¬ j = 0 := by omega
    have h1 : ¬ j = 1 := by omega
    have h2 : ¬ j = 2 := by omega
    have h3 : ¬ j = 3 := by omega
    have h4 : ¬ j = 4 := by omega
    have h5 : ¬ j = 5 := by omega
    have h6 : ¬ j = 6 := by omega
    simp [h0, h1, h2, h3, h4, h5, h6]
  exact h

theorem testBit_u8_port {m : Nat → Nat} (h : validMap m) (w i : Nat) (hi : i < 8) :
    (u8 w).testBit (m i) = w.testBit (m i) := by
  rw [testBit_u8]
  simp [h.1 i hi]

/-- C14: for every pin map that is a permutation and every address `a` in
`0..127`: when the first transport read delivers a word whose D6, D5, D4 ports
carry bits 6, 5, 4 of `a` and the second a word whose D7, D6, D5, D4 ports
carry bits 3, 2, 1, 0 of `a`, `LCDgetCursorPosition` returns exactly `a`; and
whatever the reads deliver, on any bus and in any state, the result is at most
127. -/
theorem C14_LCDgetCursorPosition_reassembles_address (bus : I2CBus) (s : LCD)
    (hv : validMap s._LCD_TO_PCF8574) (a w1 w2 : Nat) (ha : a < 128)
    (h1 : bus.receive s.received = some w1) (h2 : bus.receive (s.received + 1) = some w2)
    (h16 : w1.testBit (s._LCD_TO_PCF8574 3) = a.testBit 6)
    (h15 : w1.testBit (s._LCD_TO_PCF8574 2) = a.testBit 5)
    (h14 : w1.testBit (s._LCD_TO_PCF8574 1) = a.testBit 4)
    (h23 : w2.testBit (s._LCD_TO_PCF8574 4) = a.testBit 3)
    (h22 : w2.testBit (s._LCD_TO_PCF8574 3) = a.testBit 2)
    (h21 : w2.testBit (s._LCD_TO_PCF8574 2) = a.testBit 1)
    (h20 : w2.testBit (s._LCD_TO_PCF8574 1) = a.testBit 0) :
    (LCDgetCursorPosition bus s).1 = a ∧
    (∀ (bus2 : I2CBus) (s2 : LCD), (LCDgetCursorPosition bus2 s2).1 ≤ 127) := by
  constructor
  · rw [LCDgetCursorPosition_fst, h1, h2]
    apply Nat.eq_of_testBit_eq
    intro j
    rw [testBit_cursorBits]
    simp only [Option.getD_some, testBit_u8_port hv _ 1 (by norm_num),
      testBit_u8_port hv _ 2 (by norm_num), testBit_u8_port hv _ 3 (by norm_num),
      testBit_u8_port hv _ 4 (by norm_num), h16, h15, h14, h23, h22, h21, h20]
    by_cases h7 : j < 7
    · interval_cases j <;> simp
    · have hj : a.testBit j = false := by
        apply Nat.testBit_lt_two_pow
        calc a < 2 ^ 7 := ha
          _ ≤ 2 ^ j := Nat.pow_le_pow_right (by norm_num) (by omega)
      have h0 : ¬ j = 0 := by omega
      have h1 : ¬ j = 1 := by omega
      have h2 : ¬ j = 2 := by omega
      have h3 : ¬ j = 3 := by omega
      have h4 : ¬ j = 4 := by omega
      have h5 : ¬ j = 5 := by omega
      have h6 : ¬ j = 6 := by omega
      simp [h0, h1, h2, h3, h4, h5, h6, hj]
  · intro bus2 s2
    rw [LCDgetCursorPosition_fst]
    have := cursorBits_lt s2._LCD_TO_PCF8574
      (u8 ((bus2.receive s2.received).getD 0)) (u8 ((bus2.receive (s2.received + 1)).getD 0))
    omega

/-- C14 at the usual wiring (D4..D7 on P4..P7), address `0x5A`: the reads
deliver `0x50` and `0xA0`. -/
theorem C14_LCDgetCursorPosition_reassembles_address_witness :
    validMap (LiquidCrystal_I2C powerOn 0x27 4 5 6 16 11 12 13 14 POSITIVE)._LCD_TO_PCF8574 ∧
    (0x5A : Nat) < 128 ∧
    (LCDgetCursorPosition twoReadsBus
      (LiquidCrystal_I2C powerOn 0x27 4 5 6 16 11 12 13 14 POSITIVE)).1 = 0x5A :=
  ⟨by decide, by decide,
    (C14_LCDgetCursorPosition_reassembles_address twoReadsBus
      (LiquidCrystal_I2C powerOn 0x27 4 5 6 16 11 12 13 14 POSITIVE) (by decide) 0x5A 0x50 0xA0
      (by decide) (by decide) (by decide) (by decide) (by decide) (by decide) (by decide)
      (by decide) (by decide) (by decide)).1⟩

/-- C15 (fails as stated): with the usual wiring, when the first transport read
fails and the second delivers `0xFF`, `LCDgetCursorPosition` returns `0x0F`,
not 0. -/
theorem C15_one_failed_read_is_not_reported :
    firstReadFailsBus.receive 0 = none ∧
    (LCDgetCursorPosition firstReadFailsBus
      (LiquidCrystal_I2C powerOn 0x27 4 5 6 16 11 12 13 14 POSITIVE)).1 = 0x0F := by
  decide

/-- C15 (amended): a failed transport read is taken as the byte 0 and nothing
else marks the failure. `LCDgetCursorPosition` returns 0 when both reads fail;
when only the first fails the result is the bits 3..0 taken from the second
word (below 16); when only the second fails it is the bits 6..4 taken from the
first word (a multiple of 16). -/
theorem C15_failed_read_counts_as_zero (bus : I2CBus) (s : LCD) :
    (LCDgetCursorPosition bus s).1 = (LCDgetCursorPosition (zeroOnFailure bus) s).1 ∧
    (bus.receive s.received = none → bus.receive (s.received + 1) = none →
      (LCDgetCursorPosition bus s).1 = 0) ∧
    (bus.receive s.received = none → (LCDgetCursorPosition bus s).1 < 16) ∧
    (bus.receive (s.received + 1) = none → (LCDgetCursorPosition bus s).1 % 16 = 0) := by
  refine ⟨?_, ?_, ?_, ?_⟩
  · rw [LCDgetCursorPosition_fst, LCDgetCursorPosition_fst]
    rfl
  · intro h1 h2
    rw [LCDgetCursorPosition_fst, h1, h2]
    apply Nat.eq_of_testBit_eq
    intro j
    rw [testBit_cursorBits]
    simp [u8]
  · intro h1
    rw [LCDgetCursorPosition_fst, h1]
    have h : cursorBits s._LCD_TO_PCF8574 (u8 ((none : Option Nat).getD 0))
        (u8 ((bus.receive (s.received + 1)).getD 0)) < 2 ^ 4 := by
      apply Nat.lt_pow_two_of_testBit
      intro j hj
      rw [testBit_cursorBits]
      have h0 : ¬ j = 0 := by omega
      have h1 : ¬ j = 1 := by omega
      have h2 : ¬ j = 2 := by omega
      have h3 : ¬ j = 3 := by omega
      simp [h0, h1, h2, h3, u8]
    exact h
  · intro h2
    rw [LCDgetCursorPosition_fst, h2]
    have h : cursorBits s._LCD_TO_PCF8574 (u8 ((bus.receive s.received).getD 0))
        (u8 ((none : Option Nat).getD 0)) % 2 ^ 4 = 0 := by
      apply Nat.eq_of_testBit_eq
      intro j
      rw [Nat.testBit_mod_two_pow, testBit_cursorBits]
      by_cases hj : j < 4
      · interval_cases j <;> simp [u8]
      · simp [hj]
    exact h

/-- C16: for every pin map that is a permutation and every word `w` delivered
by the transport read, `LCDreadBusyFlag` returns true exactly when the bit of
`w` at the port of data line 7 is 1; when the read fails it returns false. -/
theorem C16_LCDreadBusyFlag_reads_D7_port (bus : I2CBus) (s : LCD)
    (hv : validMap s._LCD_TO_PCF8574) :
    (∀ w, bus.receive s.received = some w →
      (LCDreadBusyFlag bus s).1 = w.testBit (s._LCD_TO_PCF8574 4)) ∧
    (bus.receive s.received = none → (LCDreadBusyFlag bus s).1 = false) := by
  have hfst : (LCDreadBusyFlag bus s).1 =
      (u8 ((bus.receive s.received).getD 0)).testBit (s._LCD_TO_PCF8574 4) := by
    unfold LCDreadBusyFlag
    simp only [readPCF8574_fst, LCDsend_eq]
    rw [Bool.eq_iff_iff, bne_iff_ne]
    exact bitRead_ne_zero _ _
  constructor
  · intro w hw
    rw [hfst, hw, Option.getD_some, testBit_u8_port hv w 4 (by norm_num)]
  · intro hn
    rw [hfst, hn]
    simp [u8]

/-- C16 at the usual wiring on a bus that delivers `0xFF`. -/
theorem C16_LCDreadBusyFlag_reads_D7_port_witness :
    validMap (LiquidCrystal_I2C powerOn 0x27 4 5 6 16 11 12 13 14 POSITIVE)._LCD_TO_PCF8574 ∧
    (∀ w, idealBus.receive
        (LiquidCrystal_I2C powerOn 0x27 4 5 6 16 11 12 13 14 POSITIVE).received = some w →
      (LCDreadBusyFlag idealBus
        (LiquidCrystal_I2C powerOn 0x27 4 5 6 16 11 12 13 14 POSITIVE)).1 =
        w.testBit ((LiquidCrystal_I2C powerOn 0x27 4 5 6 16 11 12 13 14 POSITIVE)._LCD_TO_PCF8574
          4)) :=
  ⟨by decide,
    (C16_LCDreadBusyFlag_reads_D7_port idealBus
      (LiquidCrystal_I2C powerOn 0x27 4 5 6 16 11 12 13 14 POSITIVE) (by decide)).1⟩

theorem LCDinitialization_state (bus : I2CBus) (s : LCD) :
    (LCDinitialization bus s).sendLog = s.sendLog ++ initTransactions s ∧
    (LCDinitialization bus s).wire = s.wire ++ wireWords s (initTransactions s) ∧
    (LCDinitialization bus s)._displayControl = LCD_DISPLAY_ON ∧
    (LCDinitialization bus s)._displayMode = LCD_ENTRY_LEFT ∧
    (LCDinitialization bus s)._lcd_colums = s._lcd_colums ∧
    (LCDinitialization bus s)._lcd_rows = s._lcd_rows ∧
    (LCDinitialization bus s)._lcd_font_size = s._lcd_font_size := by
  refine ⟨LCDinitialization_sendLog bus s, ?_, ?_, ?_, ?_, ?_, ?_⟩
  · unfold LCDinitialization LCDnoDisplay LCDclear LCDdisplay
    simp only [LCDsend_eq, List.append_assoc]
    have hd : ∀ (w1 : List Nat) (l1 : List (Nat × Nat × Nat)),
        displayFunction { s with wire := w1, sendLog := l1 } = displayFunction s :=
      fun _ _ => displayFunction_congr s _ rfl rfl
    simp only [hd]
    rfl
  all_goals
    unfold LCDinitialization LCDnoDisplay LCDclear LCDdisplay
    first
    | (simp only [LCDsend_eq]; done)
    | (simp only [LCDsend_eq]; rfl)

theorem wireWords_length_init (s t : LCD) :
    (wireWords s (initTransactions t)).length = 28 := by
  simp [wireWords, initTransactions, sendData_length, LCD_CMD_LENGTH_4BIT, LCD_CMD_LENGTH_8BIT]

/-- C17: for every valid wiring and every geometry, when all transport writes
succeed `LCDbegin` returns true and hands the transport one all-low word and
then the words of exactly these transactions in this order: three 4-bit
function set `0x30`, one 4-bit function set `0x20`, one full-byte function
set, display control `0x08`, clear display `0x01`, entry mode set `0x06`,
display control `0x0C`; 29 words in all. It ends with display on, underline
cursor off, blink off, left to right, auto-scroll off, and the geometry stored. -/
theorem C17_LCDbegin_sequence (g : LCD) (addr P0 P1 P2 P3 P4 P5 P6 P7 : Nat)
    (polarity : backlightPolarity) (h : validDeclaration [P0, P1, P2, P3, P4, P5, P6, P7])
    (bus : I2CBus) (hok : ∀ k, bus.transmitOk k = true) (cols rows : Nat) (f : lcd_font_size) :
    (LCDbegin bus (LiquidCrystal_I2C g addr P0 P1 P2 P3 P4 P5 P6 P7 polarity) cols rows f).1
      = true ∧
    (LCDbegin bus (LiquidCrystal_I2C g addr P0 P1 P2 P3 P4 P5 P6 P7 polarity)
      cols rows f).2.sendLog =
      g.sendLog ++
        [(LCD_INSTRUCTION_WRITE, 0x30, LCD_CMD_LENGTH_4BIT),
         (LCD_INSTRUCTION_WRITE, 0x30, LCD_CMD_LENGTH_4BIT),
         (LCD_INSTRUCTION_WRITE, 0x30, LCD_CMD_LENGTH_4BIT),
         (LCD_INSTRUCTION_WRITE, 0x20, LCD_CMD_LENGTH_4BIT),
         (LCD_INSTRUCTION_WRITE,
           LCD_FUNCTION_SET ||| LCD_4BIT_MODE |||
             displayFunction { g with _lcd_rows := rows, _lcd_font_size := f },
           LCD_CMD_LENGTH_8BIT),
         (LCD_INSTRUCTION_WRITE, 0x08, LCD_CMD_LENGTH_8BIT),
         (LCD_INSTRUCTION_WRITE, 0x01, LCD_CMD_LENGTH_8BIT),
         (LCD_INSTRUCTION_WRITE, 0x06, LCD_CMD_LENGTH_8BIT),
         (LCD_INSTRUCTION_WRITE, 0x0C, LCD_CMD_LENGTH_8BIT)] ∧
    (LCDbegin bus (LiquidCrystal_I2C g addr P0 P1 P2 P3 P4 P5 P6 P7 polarity)
      cols rows f).2.wire =
      g.wire ++
        (PCF8574_ALL_LOW |||
            (LiquidCrystal_I2C g addr P0 P1 P2 P3 P4 P5 P6 P7 polarity)._backlightValue) ::
          wireWords (LiquidCrystal_I2C g addr P0 P1 P2 P3 P4 P5 P6 P7 polarity)
            (initTransactions { g with _lcd_rows := rows, _lcd_font_size := f }) ∧
    (LCDbegin bus (LiquidCrystal_I2C g addr P0 P1 P2 P3 P4 P5 P6 P7 polarity)
      cols rows f).2.wire.length = g.wire.length + 29 ∧
    (LCDbegin bus (LiquidCrystal_I2C g addr P0 P1 P2 P3 P4 P5 P6 P7 polarity)
      cols rows f).2._displayControl = LCD_DISPLAY_ON ∧
    (LCDbegin bus (LiquidCrystal_I2C g addr P0 P1 P2 P3 P4 P5 P6 P7 polarity)
      cols rows f).2._displayMode = LCD_ENTRY_LEFT ∧
    (LCDbegin bus (LiquidCrystal_I2C g addr P0 P1 P2 P3 P4 P5 P6 P7 polarity)
      cols rows f).2._lcd_colums = cols ∧
    (LCDbegin bus (LiquidCrystal_I2C g addr P0 P1 P2 P3 P4 P5 P6 P7 polarity)
      cols rows f).2._lcd_rows = rows ∧
    (LCDbegin bus (LiquidCrystal_I2C g addr P0 P1 P2 P3 P4 P5 P6 P7 polarity)
      cols rows f).2._lcd_font_size = f := by
  have hinit : (LiquidCrystal_I2C g addr P0 P1 P2 P3 P4 P5 P6 P7 polarity)._PCF8574_initialisation
      = true := by
    rw [ctor_init_iff]
    intro c hc
    obtain ⟨n, hn, e⟩ := List.getElem_of_mem hc
    have h1 := (@validDeclaration_facts [P0, P1, P2, P3, P4, P5, P6, P7] rfl h).1 n hn
    rw [List.getD_eq_getElem _ 0 hn, e] at h1
    exact h1
  obtain ⟨_, _, _, hwire, hlog⟩ := ctor_fields g addr P0 P1 P2 P3 P4 P5 P6 P7 polarity
  generalize LiquidCrystal_I2C g addr P0 P1 P2 P3 P4 P5 P6 P7 polarity = s at hinit hwire hlog
  have hst := LCDinitialization_state bus
    { s with wire := s.wire ++ [PCF8574_ALL_LOW ||| s._backlightValue],
             _lcd_colums := cols, _lcd_rows := rows, _lcd_font_size := f }
  have hdf : displayFunction
      { s with wire := s.wire ++ [PCF8574_ALL_LOW ||| s._backlightValue],
               _lcd_colums := cols, _lcd_rows := rows, _lcd_font_size := f } =
      displayFunction { g with _lcd_rows := rows, _lcd_font_size := f } :=
    displayFunction_congr _ _ rfl rfl
  have hit : initTransactions
      { s with wire := s.wire ++ [PCF8574_ALL_LOW ||| s._backlightValue],
               _lcd_colums := cols, _lcd_rows := rows, _lcd_font_size := f } =
      initTransactions { g with _lcd_rows := rows, _lcd_font_size := f } := by
    unfold initTransactions
    rw [hdf]
  rw [hit] at hst
  obtain ⟨h1, h2, h3, h4, h5, h6, h7⟩ := hst
  rw [LCDbegin_fst bus s cols rows f hinit, LCDbegin_snd bus s cols rows f hinit (hok _)]
  refine ⟨hok _, ?_, ?_, ?_, h3, h4, h5, h6, h7⟩
  · rw [h1, ← hlog]
    rfl
  · rw [h2, ← hwire, List.append_assoc]
    rfl
  · rw [h2, ← hwire, List.length_append, wireWords_length_init, List.length_append]
    rfl

/-- C17 at the usual wiring, a 16x2 display, on a bus that accepts every write. -/
theorem C17_LCDbegin_sequence_witness :
    validDeclaration [4, 5, 6, 16, 11, 12, 13, 14] ∧ (∀ k, idealBus.transmitOk k = true) ∧
    (LCDbegin idealBus (LiquidCrystal_I2C powerOn 0x27 4 5 6 16 11 12 13 14 POSITIVE)
      16 2 LCD_5x8DOTS).1 = true :=
  ⟨by decide, fun _ => rfl,
    (C17_LCDbegin_sequence powerOn 0x27 4 5 6 16 11 12 13 14 POSITIVE (by decide) idealBus
      (fun _ => rfl) 16 2 LCD_5x8DOTS).1⟩

/-! ## Display state flags -/

theorem testBit_flag_set (x k j : Nat) :
    (x ||| 1 <<< k).testBit j = (x.testBit j || decide (k = j)) := by
  rw [Nat.testBit_or, Nat.one_shiftLeft, Nat.testBit_two_pow]

theorem testBit_flag_clear (x k j : Nat) (hx : x < 256) :
    (bitClear x k).testBit j = (x.testBit j && !decide (k = j)) := by
  rw [testBit_bitClear]
  by_cases hj : j < 8
  · simp [hj]
  · simp [hj, testBit_of_lt_256 hx (Nat.le_of_not_lt hj)]

theorem flag_set_idem (x k : Nat) : (x ||| 1 <<< k) ||| 1 <<< k = x ||| 1 <<< k := by
  rw [Nat.or_assoc, Nat.or_self]

theorem flag_clear_idem (x k : Nat) : bitClear (bitClear x k) k = bitClear x k := by
  apply Nat.eq_of_testBit_eq
  intro j
  rw [testBit_bitClear, testBit_bitClear]
  cases decide (j < 8) <;> cases x.testBit j <;> cases decide (k = j) <;> rfl

theorem controlFlagSet_set (bus : I2CBus) (s : LCD) (k : Nat) :
    ControlFlagSet s
      (LCDsend bus { s with _displayControl := s._displayControl ||| 1 <<< k }
        LCD_INSTRUCTION_WRITE (LCD_DISPLAY_CONTROL ||| (s._displayControl ||| 1 <<< k))
        LCD_CMD_LENGTH_8BIT) k true := by
  unfold ControlFlagSet
  rw [LCDsend_eq]
  refine ⟨?_, ?_, rfl, rfl, rfl, rfl, rfl, rfl⟩
  · show (s._displayControl ||| 1 <<< k).testBit k = true
    rw [testBit_flag_set]; simp
  · intro j hj
    show (s._displayControl ||| 1 <<< k).testBit j = _
    rw [testBit_flag_set]; simp [Ne.symm hj]

theorem controlFlagSet_clear (bus : I2CBus) (s : LCD) (k : Nat) (hx : s._displayControl < 256) :
    ControlFlagSet s
      (LCDsend bus { s with _displayControl := bitClear s._displayControl k }
        LCD_INSTRUCTION_WRITE (LCD_DISPLAY_CONTROL ||| bitClear s._displayControl k)
        LCD_CMD_LENGTH_8BIT) k false := by
  unfold ControlFlagSet
  rw [LCDsend_eq]
  refine ⟨?_, ?_, rfl, rfl, rfl, rfl, rfl, rfl⟩
  · show (bitClear s._displayControl k).testBit k = false
    rw [testBit_flag_clear _ _ _ hx]; simp
  · intro j hj
    show (bitClear s._displayControl k).testBit j = _
    rw [testBit_flag_clear _ _ _ hx]; simp [Ne.symm hj]

theorem modeFlagSet_set (bus : I2CBus) (s : LCD) (k : Nat) :
    ModeFlagSet s
      (LCDsend bus { s with _displayMode := s._displayMode ||| 1 <<< k }
        LCD_INSTRUCTION_WRITE (LCD_ENTRY_MODE_SET ||| (s._displayMode ||| 1 <<< k))
        LCD_CMD_LENGTH_8BIT) k true := by
  unfold ModeFlagSet
  rw [LCDsend_eq]
  refine ⟨?_, ?_, rfl, rfl, rfl, rfl, rfl, rfl⟩
  · show (s._displayMode ||| 1 <<< k).testBit k = true
    rw [testBit_flag_set]; simp
  · intro j hj
    show (s._displayMode ||| 1 <<< k).testBit j = _
    rw [testBit_flag_set]; simp [Ne.symm hj]

theorem modeFlagSet_clear (bus : I2CBus) (s : LCD) (k : Nat) (hx : s._displayMode < 256) :
    ModeFlagSet s
      (LCDsend bus { s with _displayMode := bitClear s._displayMode k }
        LCD_INSTRUCTION_WRITE (LCD_ENTRY_MODE_SET ||| bitClear s._displayMode k)
        LCD_CMD_LENGTH_8BIT) k false := by
  unfold ModeFlagSet
  rw [LCDsend_eq]
  refine ⟨?_, ?_, rfl, rfl, rfl, rfl, rfl, rfl⟩
  · show (bitClear s._displayMode k).testBit k = false
    rw [testBit_flag_clear _ _ _ hx]; simp
  · intro j hj
    show (bitClear s._displayMode k).testBit j = _
    rw [testBit_flag_clear _ _ _ hx]; simp [Ne.symm hj]

theorem control_op_idem (bus : I2CBus) (s : LCD) (fn : Nat → Nat)
    (hf : ∀ x, fn (fn x) = fn x) :
    sameVariables
      (LCDsend bus
        { (LCDsend bus { s with _displayControl := fn s._displayControl }
            LCD_INSTRUCTION_WRITE (LCD_DISPLAY_CONTROL ||| fn s._displayControl)
            LCD_CMD_LENGTH_8BIT) with
          _displayControl := fn (LCDsend bus { s with _displayControl := fn s._displayControl }
            LCD_INSTRUCTION_WRITE (LCD_DISPLAY_CONTROL ||| fn s._displayControl)
            LCD_CMD_LENGTH_8BIT)._displayControl }
        LCD_INSTRUCTION_WRITE
        (LCD_DISPLAY_CONTROL |||
          fn (LCDsend bus { s with _displayControl := fn s._displayControl }
            LCD_INSTRUCTION_WRITE (LCD_DISPLAY_CONTROL ||| fn s._displayControl)
            LCD_CMD_LENGTH_8BIT)._displayControl)
        LCD_CMD_LENGTH_8BIT)
      (LCDsend bus { s with _displayControl := fn s._displayControl }
        LCD_INSTRUCTION_WRITE (LCD_DISPLAY_CONTROL ||| fn s._displayControl)
        LCD_CMD_LENGTH_8BIT) := by
  simp only [LCDsend_eq]
  exact ⟨rfl, rfl, rfl, rfl, rfl, rfl, rfl, rfl, hf _, rfl⟩

theorem mode_op_idem (bus : I2CBus) (s : LCD) (fn : Nat → Nat)
    (hf : ∀ x, fn (fn x) = fn x) :
    sameVariables
      (LCDsend bus
        { (LCDsend bus { s with _displayMode := fn s._displayMode }
            LCD_INSTRUCTION_WRITE (LCD_ENTRY_MODE_SET ||| fn s._displayMode)
            LCD_CMD_LENGTH_8BIT) with
          _displayMode := fn (LCDsend bus { s with _displayMode := fn s._displayMode }
            LCD_INSTRUCTION_WRITE (LCD_ENTRY_MODE_SET ||| fn s._displayMode)
            LCD_CMD_LENGTH_8BIT)._displayMode }
        LCD_INSTRUCTION_WRITE
        (LCD_ENTRY_MODE_SET |||
          fn (LCDsend bus { s with _displayMode := fn s._displayMode }
            LCD_INSTRUCTION_WRITE (LCD_ENTRY_MODE_SET ||| fn s._displayMode)
            LCD_CMD_LENGTH_8BIT)._displayMode)
        LCD_CMD_LENGTH_8BIT)
      (LCDsend bus { s with _displayMode := fn s._displayMode }
        LCD_INSTRUCTION_WRITE (LCD_ENTRY_MODE_SET ||| fn s._displayMode)
        LCD_CMD_LENGTH_8BIT) := by
  simp only [LCDsend_eq]
  exact ⟨rfl, rfl, rfl, rfl, rfl, rfl, rfl, rfl, rfl, hf _⟩

/-- C18: for every stored display state, each of `LCDdisplay`, `LCDnoDisplay`,
`LCDcursor`, `LCDnoCursor`, `LCDblink`, `LCDnoBlink` sets or clears only its own
bit of the display control flags (display bit 2, underline bit 1, blink bit
0), leaves the entry mode flags, the backlight value and the geometry
unchanged, and sends one full-byte display control instruction with the
updated flags; `LCDleftToRight`, `LCDrightToLeft`, `LCDautoscroll`,
`LCDnoAutoscroll` do the same for the entry mode flags (direction bit 1, shift
bit 0) and the entry mode set instruction. Running any of them twice leaves
the same variables as running it once. -/
theorem C18_toggles_change_one_flag (bus : I2CBus) (s : LCD)
    (hdc : s._displayControl < 256) (hdm : s._displayMode < 256) :
    ControlFlagSet s (LCDdisplay bus s) 2 true ∧
    ControlFlagSet s (LCDnoDisplay bus s) 2 false ∧
    ControlFlagSet s (LCDcursor bus s) 1 true ∧
    ControlFlagSet s (LCDnoCursor bus s) 1 false ∧
    ControlFlagSet s (LCDblink bus s) 0 true ∧
    ControlFlagSet s (LCDnoBlink bus s) 0 false ∧
    ModeFlagSet s (LCDleftToRight bus s) 1 true ∧
    ModeFlagSet s (LCDrightToLeft bus s) 1 false ∧
    ModeFlagSet s (LCDautoscroll bus s) 0 true ∧
    ModeFlagSet s (LCDnoAutoscroll bus s) 0 false ∧
    (∀ op ∈ [LCDdisplay, LCDnoDisplay, LCDcursor, LCDnoCursor, LCDblink, LCDnoBlink,
        LCDleftToRight, LCDrightToLeft, LCDautoscroll, LCDnoAutoscroll],
      sameVariables (op bus (op bus s)) (op bus s)) := by
  refine ⟨controlFlagSet_set bus s 2, controlFlagSet_clear bus s 2 hdc,
    controlFlagSet_set bus s 1, controlFlagSet_clear bus s 1 hdc,
    controlFlagSet_set bus s 0, controlFlagSet_clear bus s 0 hdc,
    modeFlagSet_set bus s 1, modeFlagSet_clear bus s 1 hdm,
    modeFlagSet_set bus s 0, modeFlagSet_clear bus s 0 hdm, ?_⟩
  intro op hop
  simp only [List.mem_cons, List.mem_singleton, List.not_mem_nil, or_false] at hop
  rcases hop with rfl | rfl | rfl | rfl | rfl | rfl | rfl | rfl | rfl | rfl
  · exact control_op_idem bus s (fun x => x ||| 1 <<< 2) (fun x => flag_set_idem x 2)
  · exact control_op_idem bus s (fun x => bitClear x 2) (fun x => flag_clear_idem x 2)
  · exact control_op_idem bus s (fun x => x ||| 1 <<< 1) (fun x => flag_set_idem x 1)
  · exact control_op_idem bus s (fun x => bitClear x 1) (fun x => flag_clear_idem x 1)
  · exact control_op_idem bus s (fun x => x ||| 1 <<< 0) (fun x => flag_set_idem x 0)
  · exact control_op_idem bus s (fun x => bitClear x 0) (fun x => flag_clear_idem x 0)
  · exact mode_op_idem bus s (fun x => x ||| 1 <<< 1) (fun x => flag_set_idem x 1)
  · exact mode_op_idem bus s (fun x => bitClear x 1) (fun x => flag_clear_idem x 1)
  · exact mode_op_idem bus s (fun x => x ||| 1 <<< 0) (fun x => flag_set_idem x 0)
  · exact mode_op_idem bus s (fun x => bitClear x 0) (fun x => flag_clear_idem x 0)

/-- C18 on the variables as the constructor leaves them at the usual wiring. -/
theorem C18_toggles_change_one_flag_witness :
    (LiquidCrystal_I2C powerOn 0x27 4 5 6 16 11 12 13 14 POSITIVE)._displayControl < 256 ∧
    (LiquidCrystal_I2C powerOn 0x27 4 5 6 16 11 12 13 14 POSITIVE)._displayMode < 256 ∧
    ControlFlagSet (LiquidCrystal_I2C powerOn 0x27 4 5 6 16 11 12 13 14 POSITIVE)
      (LCDdisplay idealBus (LiquidCrystal_I2C powerOn 0x27 4 5 6 16 11 12 13 14 POSITIVE))
      2 true :=
  ⟨by decide, by decide,
    (C18_toggles_change_one_flag idealBus
      (LiquidCrystal_I2C powerOn 0x27 4 5 6 16 11 12 13 14 POSITIVE) (by decide) (by decide)).1⟩

theorem cgram_byte (a : Nat) (ha : a ≤ 7) :
    u8 (LCD_CGRAM_ADDR_SET ||| (a <<< 3)) = LCD_CGRAM_ADDR_SET ||| (a <<< 3) := by
  interval_cases a <;> rfl

theorem LCDcreateChar_sendLog (bus : I2CBus) (s : LCD) (a : Nat) (pattern : Nat → Nat) :
    (LCDcreateChar bus s a pattern).sendLog =
      s.sendLog ++
        (LCD_INSTRUCTION_WRITE,
          u8 (LCD_CGRAM_ADDR_SET |||
            ((if a > (cgramLimits s).1 then (cgramLimits s).1 else a) <<< 3)),
          LCD_CMD_LENGTH_8BIT) ::
        (List.range (cgramLimits s).2).map
          (fun i => (LCD_DATA_WRITE, pattern i, LCD_CMD_LENGTH_8BIT)) := by
  unfold LCDcreateChar
  simp only []
  rw [(LCDcreateChar_data_fold bus pattern _ _).2.1, (LCDsend_frame bus s _ _ _).2.2.2.2.2.2.2.2.2,
    List.append_assoc]
  rfl

/-- C19: for every slot index and every pattern, `LCDcreateChar` clamps the index
to 7 when the font is 5x8 and to 3 when it is 5x10, sends one set CGRAM address
instruction `0x40 | (index << 3)` for the clamped index, and then exactly 8
(5x8) or 10 (5x10) data bytes, the first bytes of the pattern in order. -/
theorem C19_LCDcreateChar_clamps_slot (bus : I2CBus) (s : LCD) (a : Nat) (pattern : Nat → Nat) :
    (LCDcreateChar bus s a pattern).sendLog =
      s.sendLog ++
        (match s._lcd_font_size with
          | LCD_5x8DOTS =>
            (LCD_INSTRUCTION_WRITE, 0x40 ||| (min a 7 <<< 3), LCD_CMD_LENGTH_8BIT) ::
              (List.range 8).map (fun i => (LCD_DATA_WRITE, pattern i, LCD_CMD_LENGTH_8BIT))
          | LCD_5x10DOTS =>
            (LCD_INSTRUCTION_WRITE, 0x40 ||| (min a 3 <<< 3), LCD_CMD_LENGTH_8BIT) ::
              (List.range 10).map (fun i => (LCD_DATA_WRITE, pattern i, LCD_CMD_LENGTH_8BIT))) ∧
    (LCDcreateChar bus s a pattern).wire.length =
      s.wire.length + 4 +
        4 * (match s._lcd_font_size with
          | LCD_5x8DOTS => 8
          | LCD_5x10DOTS => 10) := by
  rw [LCDcreateChar_sendLog, LCDcreateChar_wire_length]
  cases hf : s._lcd_font_size
  · have hc : cgramLimits s = (7, 8) := by unfold cgramLimits; rw [hf]
    have hm : (if a > 7 then 7 else a) = min a 7 := by
      split_ifs <;> omega
    simp only [hc, hm]
    rw [cgram_byte _ (Nat.min_le_right a 7)]
    refine ⟨?_, ?_⟩ <;> first | rfl | trivial
  · have hc : cgramLimits s = (3, 10) := by unfold cgramLimits; rw [hf]
    have hm : (if a > 3 then 3 else a) = min a 3 := by
      split_ifs <;> omega
    simp only [hc, hm]
    rw [cgram_byte _ (le_trans (Nat.min_le_right a 3) (by norm_num))]
    refine ⟨?_, ?_⟩ <;> first | rfl | trivial

/-- C20 (the code breaks it): with the usual wiring `4, 5, 6, 16, 11, 12, 13, 14`
(backlight on P3) and active-low polarity the stored backlight value is `0xF0`
with the backlight on and `0xF8` after `LCDnoBacklight`: bits 4 to 7 are set
besides the backlight bit. The pin-mapped word `0x04` reaches the transport as
`0xF4`. -/
theorem C20_active_low_backlight_value_has_extra_bits :
    (LiquidCrystal_I2C powerOn 0x27 4 5 6 16 11 12 13 14 NEGATIVE)._LCD_TO_PCF8574 0 = 3 ∧
    (LiquidCrystal_I2C powerOn 0x27 4 5 6 16 11 12 13 14 NEGATIVE)._backlightValue = 0xF0 ∧
    (LCDnoBacklight idealBus
      (LiquidCrystal_I2C powerOn 0x27 4 5 6 16 11 12 13 14 NEGATIVE))._backlightValue = 0xF8 ∧
    Nat.testBit 0xF0 7 = true ∧
    LCDportMapping (LiquidCrystal_I2C powerOn 0x27 4 5 6 16 11 12 13 14 NEGATIVE)
      LCD_INSTRUCTION_WRITE = 0x04 ∧
    (writePCF8574 idealBus (LiquidCrystal_I2C powerOn 0x27 4 5 6 16 11 12 13 14 NEGATIVE)
      0x04).2.wire = [0xF4] := by
  decide

/-- What C20 asks for does hold under active-high polarity: for every pin map
and either backlight state the value ORed into each word has no bit set other
than the bit of the backlight port. -/
theorem backlight_value_active_high_single_bit (m : Nat → Nat) (lit : Bool) (s : LCD)
    (h : Wired m POSITIVE lit s) (j : Nat) (hj : j ≠ m 0) :
    s._backlightValue.testBit j = false := by
  rw [h.2.2]
  exact testBit_backlight_positive lit (m 0) j hj

/-- C21 (the code breaks it): `LCDbegin(20, 5, LCD_5x8DOTS)` is accepted; then
`LCDsetCursor(0, 4)` keeps row 4, which is below the row count, and looks up
entry 4 of the four-entry table. With 0 rows the clamped row is 255. -/
theorem C21_row_lookup_leaves_the_table :
    (LCDbegin idealBus (LiquidCrystal_I2C powerOn 0x27 4 5 6 16 11 12 13 14 POSITIVE)
      20 5 LCD_5x8DOTS).1 = true ∧
    clampedRow (LCDbegin idealBus (LiquidCrystal_I2C powerOn 0x27 4 5 6 16 11 12 13 14 POSITIVE)
      20 5 LCD_5x8DOTS).2 4 = 4 ∧
    (row_address_offset (LCDbegin idealBus
      (LiquidCrystal_I2C powerOn 0x27 4 5 6 16 11 12 13 14 POSITIVE)
      20 5 LCD_5x8DOTS).2).length = 4 ∧
    (LCDsetCursor idealBus (LCDbegin idealBus
      (LiquidCrystal_I2C powerOn 0x27 4 5 6 16 11 12 13 14 POSITIVE)
      20 5 LCD_5x8DOTS).2 0 4).isNone = true ∧
    (LCDbegin idealBus (LiquidCrystal_I2C powerOn 0x27 4 5 6 16 11 12 13 14 POSITIVE)
      16 0 LCD_5x8DOTS).1 = true ∧
    clampedRow (LCDbegin idealBus (LiquidCrystal_I2C powerOn 0x27 4 5 6 16 11 12 13 14 POSITIVE)
      16 0 LCD_5x8DOTS).2 0 = 255 := by
  decide

/-- C22 (the code breaks it): with the 5x10 font `LCDcreateChar` starts slot 0 at
CGRAM address 0 and slot 1 at address 8 and writes ten bytes each, so the two
glyphs both fill the addresses 8 and 9. -/
theorem C22_tall_font_glyphs_overlap :
    cgramFilled idealBus tallFont 0 (fun _ => 0) = [0, 1, 2, 3, 4, 5, 6, 7, 8, 9] ∧
    cgramFilled idealBus tallFont 1 (fun _ => 0) = [8, 9, 10, 11, 12, 13, 14, 15, 16, 17] ∧
    8 ∈ cgramFilled idealBus tallFont 0 (fun _ => 0) ∧
    8 ∈ cgramFilled idealBus tallFont 1 (fun _ => 0) := by
  decide

theorem cgramFilled_eq (bus : I2CBus) (s : LCD) (a : Nat) (pattern : Nat → Nat) :
    cgramFilled bus s a pattern =
      List.range'
        (u8 (LCD_CGRAM_ADDR_SET |||
          ((if a > (cgramLimits s).1 then (cgramLimits s).1 else a) <<< 3)) &&& 0x3F)
        (cgramLimits s).2 := by
  unfold cgramFilled
  rw [LCDcreateChar_sendLog, List.drop_left]
  simp only [List.length_map, List.length_range]

theorem cgram_address_field (a : Nat) (ha : a ≤ 7) :
    u8 (LCD_CGRAM_ADDR_SET ||| (a <<< 3)) &&& 0x3F = 8 * a := by
  interval_cases a <;> rfl

/-- What C22 asks for does hold with the 5x8 font: two distinct slots in
`0..7` fill disjoint CGRAM addresses. -/
theorem cgramFilled_disjoint_5x8 (bus : I2CBus) (s : LCD) (a b : Nat) (p q : Nat → Nat)
    (hf : s._lcd_font_size = LCD_5x8DOTS) (ha : a ≤ 7) (hb : b ≤ 7) (hab : a ≠ b) (x : Nat)
    (hxa : x ∈ cgramFilled bus s a p) : x ∉ cgramFilled bus s b q := by
  have hc : cgramLimits s = (7, 8) := by unfold cgramLimits; rw [hf]
  rw [cgramFilled_eq, hc] at hxa ⊢
  have h1 : (if a > 7 then 7 else a) = a := by split_ifs <;> omega
  have h2 : (if b > 7 then 7 else b) = b := by split_ifs <;> omega
  simp only [h1, h2, cgram_address_field a ha, cgram_address_field b hb,
    List.mem_range'_1] at hxa ⊢
  omega

theorem displayFunction_values (s : LCD) :
    displayFunction s =
      if s._lcd_font_size = LCD_5x10DOTS then 0x04
      else if s._lcd_rows > 1 then 0x08 else 0x00 := by
  unfold displayFunction
  by_cases hf : s._lcd_font_size = LCD_5x10DOTS
  · simp only [hf, if_true]
    by_cases hr : s._lcd_rows > 1
    · have h1 : s._lcd_rows ≠ 1 := by omega
      simp only [if_pos hr, if_pos h1]
      decide
    · by_cases h1 : s._lcd_rows ≠ 1
      · simp only [if_neg hr, if_pos h1]
        decide
      · simp only [if_neg hr, if_neg h1]
        decide
  · simp only [if_neg hf]
    by_cases hr : s._lcd_rows > 1
    · simp only [if_pos hr]
      decide
    · simp only [if_neg hr]

/-- C23: for every row count and every requested font, the full function set
byte of `LCDinitialization` (its fifth transaction) is `0x24` when the 5x10
font is requested, else `0x28` for more than one row and `0x20` otherwise: the
interface bit DB4 is 0, and the 2-line bit DB3 and the font bit DB2 are never
both set. -/
theorem C23_function_set_byte (bus : I2CBus) (s : LCD) :
    ((LCDinitialization bus s).sendLog.drop s.sendLog.length)[4]? =
      some (LCD_INSTRUCTION_WRITE, LCD_FUNCTION_SET ||| LCD_4BIT_MODE ||| displayFunction s,
        LCD_CMD_LENGTH_8BIT) ∧
    (LCD_FUNCTION_SET ||| LCD_4BIT_MODE ||| displayFunction s =
      if s._lcd_font_size = LCD_5x10DOTS then 0x24
      else if s._lcd_rows > 1 then 0x28 else 0x20) ∧
    (LCD_FUNCTION_SET ||| LCD_4BIT_MODE ||| displayFunction s) ∈ [0x20, 0x28, 0x24] ∧
    (LCD_FUNCTION_SET ||| LCD_4BIT_MODE ||| displayFunction s).testBit 4 = false ∧
    ¬ ((LCD_FUNCTION_SET ||| LCD_4BIT_MODE ||| displayFunction s).testBit 3 = true ∧
       (LCD_FUNCTION_SET ||| LCD_4BIT_MODE ||| displayFunction s).testBit 2 = true) := by
  refine ⟨?_, ?_, ?_, ?_, ?_⟩
  · rw [LCDinitialization_sendLog, List.drop_left]
    rfl
  all_goals
    rw [displayFunction_values]
    split_ifs <;> decide

/-! ## The stored flags stay within their masks -/

theorem flags_LCDsend (bus : I2CBus) (s : LCD) (mode value length : Nat) :
    (LCDsend bus s mode value length)._displayControl = s._displayControl ∧
    (LCDsend bus s mode value length)._displayMode = s._displayMode := by
  rw [LCDsend_eq]
  exact ⟨rfl, rfl⟩

theorem flags_backlightCall (bus : I2CBus) (s : LCD) (c : Bool) :
    (backlightCall bus s c)._displayControl = s._displayControl ∧
    (backlightCall bus s c)._displayMode = s._displayMode := by
  rw [backlightCall_eq]
  exact ⟨rfl, rfl⟩

theorem flags_createChar_fold (bus : I2CBus) (pattern : Nat → Nat) (n : Nat) (s : LCD) :
    ((List.range n).foldl
        (fun st i => LCDsend bus st LCD_DATA_WRITE (pattern i) LCD_CMD_LENGTH_8BIT)
        s)._displayControl = s._displayControl ∧
    ((List.range n).foldl
        (fun st i => LCDsend bus st LCD_DATA_WRITE (pattern i) LCD_CMD_LENGTH_8BIT)
        s)._displayMode = s._displayMode := by
  induction n with
  | zero => exact ⟨rfl, rfl⟩
  | succ n ih =>
    rw [List.range_succ, List.foldl_append]
    simp only [List.foldl_cons, List.foldl_nil]
    rw [(flags_LCDsend bus _ _ _ _).1, (flags_LCDsend bus _ _ _ _).2]
    exact ih

theorem flags_LCDcreateChar (bus : I2CBus) (s : LCD) (a : Nat) (pattern : Nat → Nat) :
    (LCDcreateChar bus s a pattern)._displayControl = s._displayControl ∧
    (LCDcreateChar bus s a pattern)._displayMode = s._displayMode := by
  unfold LCDcreateChar
  simp only []
  rw [(flags_createChar_fold bus pattern _ _).1, (flags_createChar_fold bus pattern _ _).2]
  exact flags_LCDsend bus s _ _ _

theorem flag_or_le (x k n : Nat) (hx : x < 2 ^ n) (hk : k < n) : x ||| 1 <<< k < 2 ^ n := by
  apply Nat.lt_pow_two_of_testBit
  intro j hj
  rw [testBit_flag_set]
  have h1 : x.testBit j = false :=
    Nat.testBit_lt_two_pow (lt_of_lt_of_le hx (Nat.pow_le_pow_right (by norm_num) hj))
  have h2 : ¬ k = j := by omega
  simp [h1, h2]

theorem flag_clear_le (x k n : Nat) (hx : x < 2 ^ n) : bitClear x k < 2 ^ n := by
  apply Nat.lt_pow_two_of_testBit
  intro j hj
  rw [testBit_bitClear]
  have h1 : x.testBit j = false :=
    Nat.testBit_lt_two_pow (lt_of_lt_of_le hx (Nat.pow_le_pow_right (by norm_num) hj))
  simp [h1]

theorem flagsInMask_control_set (bus : I2CBus) (s : LCD) (k : Nat) (hk : k < 3)
    (h : FlagsInMask s) :
    FlagsInMask (LCDsend bus { s with _displayControl := s._displayControl ||| 1 <<< k }
      LCD_INSTRUCTION_WRITE (LCD_DISPLAY_CONTROL ||| (s._displayControl ||| 1 <<< k))
      LCD_CMD_LENGTH_8BIT) := by
  unfold FlagsInMask
  rw [(flags_LCDsend bus _ _ _ _).1, (flags_LCDsend bus _ _ _ _).2]
  have := flag_or_le s._displayControl k 3 (by have := h.1; omega) hk
  exact ⟨by show s._displayControl ||| 1 <<< k ≤ 7; omega, h.2⟩

theorem flagsInMask_control_clear (bus : I2CBus) (s : LCD) (k : Nat) (h : FlagsInMask s) :
    FlagsInMask (LCDsend bus { s with _displayControl := bitClear s._displayControl k }
      LCD_INSTRUCTION_WRITE (LCD_DISPLAY_CONTROL ||| bitClear s._displayControl k)
      LCD_CMD_LENGTH_8BIT) := by
  unfold FlagsInMask
  rw [(flags_LCDsend bus _ _ _ _).1, (flags_LCDsend bus _ _ _ _).2]
  have := flag_clear_le s._displayControl k 3 (by have := h.1; omega)
  exact ⟨by show bitClear s._displayControl k ≤ 7; omega, h.2⟩

theorem flagsInMask_mode_set (bus : I2CBus) (s : LCD) (k : Nat) (hk : k < 2)
    (h : FlagsInMask s) :
    FlagsInMask (LCDsend bus { s with _displayMode := s._displayMode ||| 1 <<< k }
      LCD_INSTRUCTION_WRITE (LCD_ENTRY_MODE_SET ||| (s._displayMode ||| 1 <<< k))
      LCD_CMD_LENGTH_8BIT) := by
  unfold FlagsInMask
  rw [(flags_LCDsend bus _ _ _ _).1, (flags_LCDsend bus _ _ _ _).2]
  have := flag_or_le s._displayMode k 2 (by have := h.2; omega) hk
  exact ⟨h.1, by show s._displayMode ||| 1 <<< k ≤ 3; omega⟩

theorem flagsInMask_mode_clear (bus : I2CBus) (s : LCD) (k : Nat) (h : FlagsInMask s) :
    FlagsInMask (LCDsend bus { s with _displayMode := bitClear s._displayMode k }
      LCD_INSTRUCTION_WRITE (LCD_ENTRY_MODE_SET ||| bitClear s._displayMode k)
      LCD_CMD_LENGTH_8BIT) := by
  unfold FlagsInMask
  rw [(flags_LCDsend bus _ _ _ _).1, (flags_LCDsend bus _ _ _ _).2]
  have := flag_clear_le s._displayMode k 2 (by have := h.2; omega)
  exact ⟨h.1, by show bitClear s._displayMode k ≤ 3; omega⟩

theorem flagsInMask_of_eq {s t : LCD} (h : FlagsInMask s)
    (e : t._displayControl = s._displayControl ∧ t._displayMode = s._displayMode) :
    FlagsInMask t := by
  unfold FlagsInMask
  rw [e.1, e.2]
  exact h

theorem flagsInMask_LCDinitialization (bus : I2CBus) (s : LCD) :
    FlagsInMask (LCDinitialization bus s) := by
  have h := LCDinitialization_state bus s
  unfold FlagsInMask
  rw [h.2.2.1, h.2.2.2.1]
  decide

theorem LCDbegin_invalid (bus : I2CBus) (s : LCD) (c r : Nat) (f : lcd_font_size)
    (hs : s._PCF8574_initialisation = false) : LCDbegin bus s c r f = (false, s) := by
  unfold LCDbegin
  rw [if_pos hs]

theorem LCDbegin_snd_rejected (bus : I2CBus) (s : LCD) (c r : Nat) (f : lcd_font_size)
    (hs : s._PCF8574_initialisation = true) (hok : bus.transmitOk s.wire.length = false) :
    (LCDbegin bus s c r f).2 =
      { s with wire := s.wire ++ [PCF8574_ALL_LOW ||| s._backlightValue] } := by
  unfold LCDbegin
  rw [if_neg (by rw [hs]; decide)]
  simp only [writePCF8574_fst, writePCF8574_snd, hok]
  simp

theorem flagsInMask_LCDbegin (bus : I2CBus) (s : LCD) (c r : Nat) (f : lcd_font_size)
    (h : FlagsInMask s) : FlagsInMask (LCDbegin bus s c r f).2 := by
  cases hs : s._PCF8574_initialisation
  · rw [LCDbegin_invalid bus s c r f hs]
    exact h
  · cases hok : bus.transmitOk s.wire.length
    · rw [LCDbegin_snd_rejected bus s c r f hs hok]
      exact h
    · rw [LCDbegin_snd bus s c r f hs hok]
      exact flagsInMask_LCDinitialization bus _

theorem flagsInMask_LCDbegin_success (bus : I2CBus) (s : LCD) (c r : Nat) (f : lcd_font_size)
    (hb : (LCDbegin bus s c r f).1 = true) : FlagsInMask (LCDbegin bus s c r f).2 := by
  cases hs : s._PCF8574_initialisation
  · rw [LCDbegin_invalid bus s c r f hs] at hb
    exact absurd hb (by simp)
  · rw [LCDbegin_fst bus s c r f hs] at hb
    rw [LCDbegin_snd bus s c r f hs hb]
    exact flagsInMask_LCDinitialization bus _

theorem flagsInMask_step (bus : I2CBus) (s t : LCD) (op : Op) (h : FlagsInMask s)
    (hst : op.step bus s = some t) : FlagsInMask t := by
  cases op with
  | setCursor c r =>
    simp only [Op.step, LCDsetCursor] at hst
    split at hst
    · exact absurd hst (by simp)
    · rw [← Option.some.inj hst]
      exact flagsInMask_of_eq h (flags_LCDsend bus s _ _ _)
  | begin c r f =>
    rw [← Option.some.inj hst]
    exact flagsInMask_LCDbegin bus s c r f h
  | initialization =>
    rw [← Option.some.inj hst]
    exact flagsInMask_LCDinitialization bus s
  | clear | home | scrollDisplayLeft | scrollDisplayRight =>
    rw [← Option.some.inj hst]
    exact flagsInMask_of_eq h (flags_LCDsend bus s _ _ _)
  | write v =>
    rw [← Option.some.inj hst]
    exact flagsInMask_of_eq h (flags_LCDsend bus s _ _ _)
  | send m v l =>
    rw [← Option.some.inj hst]
    exact flagsInMask_of_eq h (flags_LCDsend bus s _ _ _)
  | createChar a p =>
    rw [← Option.some.inj hst]
    exact flagsInMask_of_eq h (flags_LCDcreateChar bus s a p)
  | noBacklight =>
    rw [← Option.some.inj hst]
    exact flagsInMask_of_eq h (flags_backlightCall bus s false)
  | backlight =>
    rw [← Option.some.inj hst]
    exact flagsInMask_of_eq h (flags_backlightCall bus s true)
  | readBusyFlag =>
    rw [← Option.some.inj hst]
    refine flagsInMask_of_eq h ?_
    show (readPCF8574 bus _).2._displayControl = _ ∧ (readPCF8574 bus _).2._displayMode = _
    rw [readPCF8574_snd]
    exact flags_LCDsend bus s _ _ _
  | getCursorPosition =>
    rw [← Option.some.inj hst]
    refine flagsInMask_of_eq h ?_
    show (readPCF8574 bus _).2._displayControl = _ ∧ (readPCF8574 bus _).2._displayMode = _
    rw [readPCF8574_snd]
    show (LCDsend bus (readPCF8574 bus _).2 _ _ _)._displayControl = _ ∧
      (LCDsend bus (readPCF8574 bus _).2 _ _ _)._displayMode = _
    rw [(flags_LCDsend bus _ _ _ _).1, (flags_LCDsend bus _ _ _ _).2, readPCF8574_snd]
    exact flags_LCDsend bus s _ _ _
  | display =>
    rw [← Option.some.inj hst]
    exact flagsInMask_control_set bus s 2 (by norm_num) h
  | cursor =>
    rw [← Option.some.inj hst]
    exact flagsInMask_control_set bus s 1 (by norm_num) h
  | blink =>
    rw [← Option.some.inj hst]
    exact flagsInMask_control_set bus s 0 (by norm_num) h
  | noDisplay =>
    rw [← Option.some.inj hst]
    exact flagsInMask_control_clear bus s 2 h
  | noCursor =>
    rw [← Option.some.inj hst]
    exact flagsInMask_control_clear bus s 1 h
  | noBlink =>
    rw [← Option.some.inj hst]
    exact flagsInMask_control_clear bus s 0 h
  | leftToRight =>
    rw [← Option.some.inj hst]
    exact flagsInMask_mode_set bus s 1 (by norm_num) h
  | autoscroll =>
    rw [← Option.some.inj hst]
    exact flagsInMask_mode_set bus s 0 (by norm_num) h
  | rightToLeft =>
    rw [← Option.some.inj hst]
    exact flagsInMask_mode_clear bus s 1 h
  | noAutoscroll =>
    rw [← Option.some.inj hst]
    exact flagsInMask_mode_clear bus s 0 h
  | displayOff =>
    rw [← Option.some.inj hst]
    exact flagsInMask_control_clear bus _ 2
      (flagsInMask_of_eq h (flags_backlightCall bus s false))
  | displayOn =>
    rw [← Option.some.inj hst]
    exact flagsInMask_of_eq (flagsInMask_control_set bus s 2 (by norm_num) h)
      (flags_backlightCall bus _ true)

theorem flagsInMask_runOps (bus : I2CBus) (ops : List Op) (s t : LCD) (h : FlagsInMask s)
    (hr : runOps bus ops s = some t) : FlagsInMask t := by
  induction ops generalizing s with
  | nil =>
    rw [← Option.some.inj hr]
    exact h
  | cons op rest ih =>
    unfold runOps at hr
    cases hst : op.step bus s with
    | none => rw [hst] at hr; exact absurd hr (by simp)
    | some u =>
      rw [hst] at hr
      exact ih u (flagsInMask_step bus s u op h hst) hr

theorem testBit_of_le_mask (x n : Nat) (hx : x < 2 ^ n) (j : Nat) (hj : n ≤ j) :
    x.testBit j = false :=
  Nat.testBit_lt_two_pow (lt_of_lt_of_le hx (Nat.pow_le_pow_right (by norm_num) hj))

theorem control_instruction_range (t u : LCD) (hu : FlagsInMask u)
    (hlog : u.sendLog = t.sendLog ++
      [(LCD_INSTRUCTION_WRITE, LCD_DISPLAY_CONTROL ||| u._displayControl, LCD_CMD_LENGTH_8BIT)]) :
    ∃ v, u.sendLog = t.sendLog ++ [(LCD_INSTRUCTION_WRITE, v, LCD_CMD_LENGTH_8BIT)] ∧
      0x08 ≤ v ∧ v ≤ 0x0F := by
  refine ⟨_, hlog, ?_, ?_⟩
  · have h := hu.1
    generalize u._displayControl = x at h
    interval_cases x <;> decide
  · have h := hu.1
    generalize u._displayControl = x at h
    interval_cases x <;> decide

theorem mode_instruction_range (t u : LCD) (hu : FlagsInMask u)
    (hlog : u.sendLog = t.sendLog ++
      [(LCD_INSTRUCTION_WRITE, LCD_ENTRY_MODE_SET ||| u._displayMode, LCD_CMD_LENGTH_8BIT)]) :
    ∃ v, u.sendLog = t.sendLog ++ [(LCD_INSTRUCTION_WRITE, v, LCD_CMD_LENGTH_8BIT)] ∧
      0x04 ≤ v ∧ v ≤ 0x07 := by
  refine ⟨_, hlog, ?_, ?_⟩
  · have h := hu.2
    generalize u._displayMode = x at h
    interval_cases x <;> decide
  · have h := hu.2
    generalize u._displayMode = x at h
    interval_cases x <;> decide

/-- C24: in every state reached from a successful `LCDbegin` by any sequence of
calls of the driver, the display control flags have no bit set outside the
mask `0x07` and the entry mode flags none outside `0x03`; hence the
instruction that each display control toggle sends from such a state lies in
`0x08..0x0F`, and the instruction of each entry mode toggle in `0x04..0x07`. -/
theorem C24_flags_stay_within_their_masks (bus : I2CBus) (s : LCD) (cols rows : Nat)
    (f : lcd_font_size) (hb : (LCDbegin bus s cols rows f).1 = true) (ops : List Op) (t : LCD)
    (hr : runOps bus ops (LCDbegin bus s cols rows f).2 = some t) :
    (∀ j, 3 ≤ j → t._displayControl.testBit j = false) ∧
    (∀ j, 2 ≤ j → t._displayMode.testBit j = false) ∧
    t._displayControl &&& 0x07 = t._displayControl ∧
    t._displayMode &&& 0x03 = t._displayMode ∧
    (∀ op ∈ [LCDdisplay, LCDnoDisplay, LCDcursor, LCDnoCursor, LCDblink, LCDnoBlink],
      ∃ v, (op bus t).sendLog = t.sendLog ++ [(LCD_INSTRUCTION_WRITE, v, LCD_CMD_LENGTH_8BIT)] ∧
        0x08 ≤ v ∧ v ≤ 0x0F) ∧
    (∀ op ∈ [LCDleftToRight, LCDrightToLeft, LCDautoscroll, LCDnoAutoscroll],
      ∃ v, (op bus t).sendLog = t.sendLog ++ [(LCD_INSTRUCTION_WRITE, v, LCD_CMD_LENGTH_8BIT)] ∧
        0x04 ≤ v ∧ v ≤ 0x07) := by
  have hT : FlagsInMask t :=
    flagsInMask_runOps bus ops _ t (flagsInMask_LCDbegin_success bus s cols rows f hb) hr
  have hc : t._displayControl < 2 ^ 3 := by have := hT.1; omega
  have hm : t._displayMode < 2 ^ 2 := by have := hT.2; omega
  have hc8 : t._displayControl < 256 := by have := hT.1; omega
  have hm8 : t._displayMode < 256 := by have := hT.2; omega
  refine ⟨fun j hj => testBit_of_le_mask _ 3 hc j hj, fun j hj => testBit_of_le_mask _ 2 hm j hj,
    ?_, ?_, ?_, ?_⟩
  · have h := hT.1
    generalize t._displayControl = x at h
    interval_cases x <;> decide
  · have h := hT.2
    generalize t._displayMode = x at h
    interval_cases x <;> decide
  · intro op hop
    simp only [List.mem_cons, List.mem_singleton, List.not_mem_nil, or_false] at hop
    rcases hop with rfl | rfl | rfl | rfl | rfl | rfl
    · exact control_instruction_range t _ (flagsInMask_control_set bus t 2 (by norm_num) hT)
        (controlFlagSet_set bus t 2).2.2.2.2.2.2.2
    · exact control_instruction_range t _ (flagsInMask_control_clear bus t 2 hT)
        (controlFlagSet_clear bus t 2 hc8).2.2.2.2.2.2.2
    · exact control_instruction_range t _ (flagsInMask_control_set bus t 1 (by norm_num) hT)
        (controlFlagSet_set bus t 1).2.2.2.2.2.2.2
    · exact control_instruction_range t _ (flagsInMask_control_clear bus t 1 hT)
        (controlFlagSet_clear bus t 1 hc8).2.2.2.2.2.2.2
    · exact control_instruction_range t _ (flagsInMask_control_set bus t 0 (by norm_num) hT)
        (controlFlagSet_set bus t 0).2.2.2.2.2.2.2
    · exact control_instruction_range t _ (flagsInMask_control_clear bus t 0 hT)
        (controlFlagSet_clear bus t 0 hc8).2.2.2.2.2.2.2
  · intro op hop
    simp only [List.mem_cons, List.mem_singleton, List.not_mem_nil, or_false] at hop
    rcases hop with rfl | rfl | rfl | rfl
    · exact mode_instruction_range t _ (flagsInMask_mode_set bus t 1 (by norm_num) hT)
        (modeFlagSet_set bus t 1).2.2.2.2.2.2.2
    · exact mode_instruction_range t _ (flagsInMask_mode_clear bus t 1 hT)
        (modeFlagSet_clear bus t 1 hm8).2.2.2.2.2.2.2
    · exact mode_instruction_range t _ (flagsInMask_mode_set bus t 0 (by norm_num) hT)
        (modeFlagSet_set bus t 0).2.2.2.2.2.2.2
    · exact mode_instruction_range t _ (flagsInMask_mode_clear bus t 0 hT)
        (modeFlagSet_clear bus t 0 hm8).2.2.2.2.2.2.2

/-- C24 at the usual wiring after `LCDbegin(16, 2, LCD_5x8DOTS)` followed by
`LCDcursor`, `LCDnoDisplay` and `LCDrightToLeft`. -/
theorem C24_flags_stay_within_their_masks_witness :
    (LCDbegin idealBus (LiquidCrystal_I2C powerOn 0x27 4 5 6 16 11 12 13 14 POSITIVE)
      16 2 LCD_5x8DOTS).1 = true ∧
    runOps idealBus [Op.cursor, Op.noDisplay, Op.rightToLeft]
      (LCDbegin idealBus (LiquidCrystal_I2C powerOn 0x27 4 5 6 16 11 12 13 14 POSITIVE)
        16 2 LCD_5x8DOTS).2 =
      some (LCDrightToLeft idealBus (LCDnoDisplay idealBus (LCDcursor idealBus
        (LCDbegin idealBus (LiquidCrystal_I2C powerOn 0x27 4 5 6 16 11 12 13 14 POSITIVE)
          16 2 LCD_5x8DOTS).2))) ∧
    (LCDrightToLeft idealBus (LCDnoDisplay idealBus (LCDcursor idealBus
      (LCDbegin idealBus (LiquidCrystal_I2C powerOn 0x27 4 5 6 16 11 12 13 14 POSITIVE)
        16 2 LCD_5x8DOTS).2)))._displayControl &&& 0x07 =
      (LCDrightToLeft idealBus (LCDnoDisplay idealBus (LCDcursor idealBus
        (LCDbegin idealBus (LiquidCrystal_I2C powerOn 0x27 4 5 6 16 11 12 13 14 POSITIVE)
          16 2 LCD_5x8DOTS).2)))._displayControl :=
  ⟨by decide, rfl,
    (C24_flags_stay_within_their_masks idealBus
      (LiquidCrystal_I2C powerOn 0x27 4 5 6 16 11 12 13 14 POSITIVE) 16 2 LCD_5x8DOTS
      (by decide) [Op.cursor, Op.noDisplay, Op.rightToLeft] _ rfl).2.2.1⟩

end LiquidCrystal
